import Mathlib

/-!
# Medical tracking kit: record store routes and the reminder alerting loop

A shallow embedding of `src/frontend/script.js` (the client's reminder timer) and of the
route handlers under `src/backend/routes/`, followed by the properties proved about them.

Conventions of the embedding:

* JavaScript scalars are values of `JSVal`; `!x` is `¬ x.truthy`, `a || b` is `JSVal.or a b`.
* `new Date(x) - now` is an integer number of milliseconds.
* A JavaScript `Set` is the list of its members in insertion order.
* Every call the timer makes is logged together with the id of the reminder whose
  `forEach` callback made it.
-/

namespace MedTrack

/-! ## JavaScript values -/

/-- JavaScript scalar values: what a JSON request body field, a bound SQL parameter, a column
of a fetched row or a member of the client's `hasPlayedSound` set can be. `undefined` is the
value of a body field that is absent. -/
inductive JSVal where
  | undefined
  | null
  | bool (b : Bool)
  | num (q : ℚ)
  | str (s : String)
  deriving DecidableEq

/-- JavaScript truthiness: `undefined`, `null`, `false`, `0` and `""` are falsy. -/
def JSVal.truthy : JSVal → Bool
  | .undefined => false
  | .null => false
  | .bool b => b
  | .num q => decide (q ≠ 0)
  | .str s => decide (s ≠ "")

/-- The JavaScript expression `a || b`. -/
def JSVal.or (a b : JSVal) : JSVal :=
  if a.truthy then a else b

/-- A JavaScript `Set`, as the list of its members in insertion order. -/
abbrev JSSet := List JSVal

/-- `Set.prototype.has`. -/
def JSSet.has (s : JSSet) (v : JSVal) : Bool :=
  decide (v ∈ s)

/-- `Set.prototype.add`: a member already present is not added again. -/
def JSSet.add (s : JSSet) (v : JSVal) : JSSet :=
  if JSSet.has s v then s else s ++ [v]

/-- `Set.prototype.delete`. -/
def JSSet.delete (s : JSSet) (v : JSVal) : JSSet :=
  s.filter (fun x => decide (x ≠ v))

/-! ## The client: `src/frontend/script.js` -/

/-- An element of the client's `reminders` array. `date_time` is `new Date(r.date_time)` in
milliseconds; `notified` is the truthiness of `r.notified` (the server sends 0 or 1, the timer
writes `true`). -/
structure Reminder where
  id : Nat
  title : String
  date_time : Int
  notes : JSVal
  notified : Bool
  deriving DecidableEq

/-- The calls `checkReminders` makes. `fetchNotify id` is
`fetch(API_URL/reminders/id/notify, {method: 'PUT'})`. -/
inductive Effect where
  | playNotificationSound (type : String)
  | sendNotification (title body : String)
  | showToast (message : String)
  | fetchNotify (id : Nat)
  deriving DecidableEq

/-- The template literal that names a fired tier: the id in decimal, a dash, the tier. -/
def tierKey (id : Nat) (tier : String) : JSVal :=
  .str (toString id ++ "-" ++ tier)

/-- Outcome of one invocation of the `forEach` callback of `checkReminders`: the reminder
(with its `notified` field possibly written), the set, and the calls made. -/
structure Callback where
  reminder : Reminder
  hasPlayedSound : JSSet
  calls : List Effect

/-- The body of the `forEach` callback of `checkReminders` (script.js 371-411). -/
def checkReminder (now : Int) (hasPlayedSound : JSSet) (reminder : Reminder) : Callback :=
  let timeDiff := reminder.date_time - now
  if timeDiff > 0 ∧ timeDiff ≤ 300000 ∧ reminder.notified = false
      ∧ JSSet.has hasPlayedSound (tierKey reminder.id "5min") = false then
    { reminder := { reminder with notified := true }
      hasPlayedSound := JSSet.add hasPlayedSound (tierKey reminder.id "5min")
      calls :=
        [ .playNotificationSound "reminder",
          .sendNotification reminder.title ("Reminder in 5 minutes: " ++ reminder.title),
          .showToast ("‚è∞ Reminder: " ++ reminder.title ++ " in 5 minutes!"),
          .fetchNotify reminder.id ] }
  else if timeDiff > -60000 ∧ timeDiff ≤ 0
      ∧ JSSet.has hasPlayedSound (tierKey reminder.id "now") = false then
    { reminder := reminder
      hasPlayedSound := JSSet.add hasPlayedSound (tierKey reminder.id "now")
      calls :=
        [ .playNotificationSound "urgent",
          .sendNotification reminder.title ("It's time: " ++ reminder.title ++ "!"),
          .showToast ("üîî Time for: " ++ reminder.title ++ "!"),
          .fetchNotify reminder.id ] }
  else
    { reminder := reminder, hasPlayedSound := hasPlayedSound, calls := [] }

/-- The client state the timer reads and writes: the `reminders` array and the
`hasPlayedSound` set. -/
structure Client where
  reminders : List Reminder
  hasPlayedSound : JSSet

/-- Result of one run of `checkReminders`: the client state after it, and the calls made,
each paired with the id of the reminder being processed. -/
structure Tick where
  client : Client
  log : List (Nat × Effect)

/-- The loop `reminders.forEach(...)`: the callback runs on each element in order, each
invocation seeing the set as the previous ones left it. -/
def forEachReminder (now : Int) : List Reminder → JSSet → Tick
  | [], hasPlayedSound => { client := { reminders := [], hasPlayedSound := hasPlayedSound }, log := [] }
  | reminder :: rest, hasPlayedSound =>
    let cb := checkReminder now hasPlayedSound reminder
    let t := forEachReminder now rest cb.hasPlayedSound
    { client := { reminders := cb.reminder :: t.client.reminders
                  hasPlayedSound := t.client.hasPlayedSound }
      log := cb.calls.map (fun e => (reminder.id, e)) ++ t.log }

/-- The function `checkReminders` (script.js 368-412) run at the instant `now`. -/
def checkReminders (now : Int) (c : Client) : Tick :=
  forEachReminder now c.reminders c.hasPlayedSound

/-- Successive runs of `checkReminders` at the given instants, with nothing else touching the
client in between; the result of every run is kept. -/
def runTicks : List Int → Client → List Tick
  | [], _ => []
  | now :: later, c =>
    let t := checkReminders now c
    t :: runTicks later t.client

/-- The client state after successive runs of `checkReminders` at the given instants. -/
def clientAfter : List Int → Client → Client
  | [], c => c
  | now :: later, c => clientAfter later (checkReminders now c).client

/-- The function `deleteReminder` (script.js 346-366). `confirmed` is the answer of the
`confirm` dialog, `responseOk` is `response.ok` of the DELETE request, `reloaded` is the
array `loadReminders` fetches afterwards (`none` when that fetch fails). The argument is the
number written into the `onclick` attribute. -/
def deleteReminder (confirmed responseOk : Bool) (reloaded : Option (List Reminder))
    (id : Nat) (c : Client) : Client :=
  if !confirmed then c
  else if !responseOk then c
  else
    let hasPlayedSound := JSSet.delete c.hasPlayedSound (.num id)
    match reloaded with
    | some rs => { reminders := rs, hasPlayedSound := hasPlayedSound }
    | none => { reminders := c.reminders, hasPlayedSound := hasPlayedSound }

/-- The function `loadReminders` (script.js 262-272): the fetched array replaces `reminders`;
when the request fails (`none`) the array stays as it was. -/
def loadReminders (fetched : Option (List Reminder)) (c : Client) : Client :=
  match fetched with
  | some rs => { reminders := rs, hasPlayedSound := c.hasPlayedSound }
  | none => c

/-- What happens to the client during a session, as far as the timer is concerned: a run of
`checkReminders` at an instant, or a reload of the reminder list. -/
inductive Event where
  | tick (now : Int)
  | load (fetched : Option (List Reminder))

/-- The effect of one event: the client afterwards and the calls made (none for a reload). -/
def Event.apply : Event → Client → Tick
  | .tick now, c => checkReminders now c
  | .load fetched, c => { client := loadReminders fetched c, log := [] }

/-- A session: the events applied one after the other; the result of every event is kept. -/
def runSession : List Event → Client → List Tick
  | [], _ => []
  | e :: later, c =>
    let t := e.apply c
    t :: runSession later t.client

/-- The instants of the first `n` runs started by `setInterval(checkReminders, 60000)` when
the first run is at `t0`: `t0`, `t0 + 60000`, `t0 + 120000`, ... -/
def periodicTicks (t0 : Int) (n : Nat) : List Int :=
  (List.range n).map (fun (k : Nat) => t0 + 60000 * (k : Int))

/-! ## The record store: `src/backend/routes/` -/

/-- Modelled from the spec: the persistent storage behind `db.query`, whose schema is not part
of the sources. A collection is the list of its rows in insertion order together with the
identifier the next insert is given ("assigns a new unique identifier"). A column keeps the
value bound to it; the store performs no conversion and enforces no constraint of its own. -/
structure Table (α : Type) where
  rows : List α
  nextId : Nat
  deriving DecidableEq

/-- The value a bound `?` parameter takes in the statement: the driver writes `NULL` for
`undefined`. -/
def sqlParam : JSVal → JSVal
  | .undefined => .null
  | v => v

/-- `SELECT * FROM t WHERE p`. -/
def Table.select {α : Type} (t : Table α) (p : α → Bool) : List α :=
  t.rows.filter p

/-- `INSERT INTO t ...`: the new row gets the next identifier; the result is `insertId` and
the table after the insert. -/
def Table.insert {α : Type} (t : Table α) (mk : Nat → α) : Nat × Table α :=
  (t.nextId, { rows := t.rows ++ [mk t.nextId], nextId := t.nextId + 1 })

/-- `UPDATE t SET ... WHERE p`: the result is `affectedRows` (the rows matched) and the table
after the update. -/
def Table.update {α : Type} (t : Table α) (p : α → Bool) (f : α → α) : Nat × Table α :=
  ((t.rows.filter p).length,
    { rows := t.rows.map (fun r => if p r then f r else r), nextId := t.nextId })

/-- `DELETE FROM t WHERE p`: the result is `affectedRows` and the table after the delete. -/
def Table.delete {α : Type} (t : Table α) (p : α → Bool) : Nat × Table α :=
  ((t.rows.filter p).length,
    { rows := t.rows.filter (fun r => !p r), nextId := t.nextId })

/-- The JSON body of a response. -/
inductive Body (α : Type) where
  | error (error : String)
  | message (message : String)
  | created (message : String) (id : Nat)
  | record (r : α)
  | records (rs : List α)
  deriving DecidableEq

/-- What a handler sends: `res.status(s).json(b)`; `res.json(b)` alone has status 200. -/
structure Response (α : Type) where
  status : Nat
  body : Body α
  deriving DecidableEq

/-- A row of `medications`. Modelled from the spec: `taken` is a boolean that a new row holds
as false (the schema with the column default is not part of the sources). -/
structure Medication where
  id : Nat
  name : JSVal
  dosage : JSVal
  frequency : JSVal
  time : JSVal
  taken : JSVal
  deriving DecidableEq

/-- A row of `reminders`. Modelled from the spec: `notified` is a boolean that a new row holds
as false (the schema with the column default is not part of the sources). -/
structure ReminderRow where
  id : Nat
  title : JSVal
  date_time : JSVal
  notes : JSVal
  notified : JSVal
  deriving DecidableEq

/-- A row of `vitals`. Modelled from the spec: `recorded_date` is the recorded time, set to
the server clock at the insert (the schema with the column default is not part of the
sources). -/
structure Vital where
  id : Nat
  blood_pressure : JSVal
  heart_rate : JSVal
  temperature : JSVal
  blood_sugar : JSVal
  recorded_date : Int
  deriving DecidableEq

/-- A row of `appointments`. -/
structure Appointment where
  id : Nat
  doctor : JSVal
  type : JSVal
  date_time : JSVal
  location : JSVal
  deriving DecidableEq

/-- The fields `router.post('/')` of medications.js reads from `req.body`. -/
structure MedicationBody where
  name : JSVal
  dosage : JSVal
  frequency : JSVal
  time : JSVal

/-- The fields `router.post('/')` of reminders.js reads from `req.body`. -/
structure ReminderBody where
  title : JSVal
  date_time : JSVal
  notes : JSVal

/-- The fields `router.post('/')` and `router.put('/:id')` of vitals.js read from `req.body`. -/
structure VitalBody where
  blood_pressure : JSVal
  heart_rate : JSVal
  temperature : JSVal
  blood_sugar : JSVal

/-- The fields `router.post('/')` of appointments.js reads from `req.body`. -/
structure AppointmentBody where
  doctor : JSVal
  type : JSVal
  date_time : JSVal
  location : JSVal

/-! In every handler `err` says whether the driver reports an error for the handler's query;
a statement that fails leaves the table as it was. The route parameter `:id` is a number. -/

/-- The handler `router.get('/:id')` of medications.js (lines 20-38). -/
def medications_get_id (err : Bool) (t : Table Medication) (id : Nat) : Response Medication :=
  if err then { status := 500, body := .error "Failed to fetch medication" }
  else
    match t.select (fun r => r.id == id) with
    | [] => { status := 404, body := .error "Medication not found" }
    | r :: _ => { status := 200, body := .record r }

/-- The handler `router.post('/')` of medications.js (lines 41-62). -/
def medications_post (err : Bool) (t : Table Medication) (body : MedicationBody) :
    Response Medication × Table Medication :=
  if !body.name.truthy || !body.dosage.truthy || !body.frequency.truthy || !body.time.truthy then
    ({ status := 400, body := .error "All fields are required" }, t)
  else if err then ({ status := 500, body := .error "Failed to add medication" }, t)
  else
    let result := t.insert (fun id =>
      { id := id, name := sqlParam body.name, dosage := sqlParam body.dosage,
        frequency := sqlParam body.frequency, time := sqlParam body.time, taken := .bool false })
    ({ status := 201, body := .created "Medication added successfully" result.1 }, result.2)

/-- The handler `router.get('/:id')` of reminders.js (lines 20-38). -/
def reminders_get_id (err : Bool) (t : Table ReminderRow) (id : Nat) : Response ReminderRow :=
  if err then { status := 500, body := .error "Failed to fetch reminder" }
  else
    match t.select (fun r => r.id == id) with
    | [] => { status := 404, body := .error "Reminder not found" }
    | r :: _ => { status := 200, body := .record r }

/-- The handler `router.post('/')` of reminders.js (lines 80-101). -/
def reminders_post (err : Bool) (t : Table ReminderRow) (body : ReminderBody) :
    Response ReminderRow × Table ReminderRow :=
  if !body.title.truthy || !body.date_time.truthy then
    ({ status := 400, body := .error "Title and date_time are required" }, t)
  else if err then ({ status := 500, body := .error "Failed to add reminder" }, t)
  else
    let result := t.insert (fun id =>
      { id := id, title := sqlParam body.title, date_time := sqlParam body.date_time,
        notes := sqlParam (body.notes.or .null), notified := .bool false })
    ({ status := 201, body := .created "Reminder added successfully" result.1 }, result.2)

/-- The handler `router.get('/:id')` of vitals.js (lines 20-38). -/
def vitals_get_id (err : Bool) (t : Table Vital) (id : Nat) : Response Vital :=
  if err then { status := 500, body := .error "Failed to fetch vital signs" }
  else
    match t.select (fun r => r.id == id) with
    | [] => { status := 404, body := .error "Vital record not found" }
    | r :: _ => { status := 200, body := .record r }

/-- The handler `router.post('/')` of vitals.js (lines 85-114); `now` is the server clock. -/
def vitals_post (now : Int) (err : Bool) (t : Table Vital) (body : VitalBody) :
    Response Vital × Table Vital :=
  if !body.blood_pressure.truthy && !body.heart_rate.truthy && !body.temperature.truthy
      && !body.blood_sugar.truthy then
    ({ status := 400, body := .error "At least one vital sign is required" }, t)
  else if err then ({ status := 500, body := .error "Failed to add vital signs" }, t)
  else
    let result := t.insert (fun id =>
      { id := id
        blood_pressure := sqlParam (body.blood_pressure.or .null)
        heart_rate := sqlParam (body.heart_rate.or .null)
        temperature := sqlParam (body.temperature.or .null)
        blood_sugar := sqlParam (body.blood_sugar.or .null)
        recorded_date := now })
    ({ status := 201, body := .created "Vital signs recorded successfully" result.1 }, result.2)

/-- The handler `router.put('/:id')` of vitals.js (lines 117-140). -/
def vitals_put_id (err : Bool) (t : Table Vital) (id : Nat) (body : VitalBody) :
    Response Vital × Table Vital :=
  if err then ({ status := 500, body := .error "Failed to update vital signs" }, t)
  else
    let result := t.update (fun r => r.id == id) (fun r =>
      { r with
        blood_pressure := sqlParam body.blood_pressure
        heart_rate := sqlParam body.heart_rate
        temperature := sqlParam body.temperature
        blood_sugar := sqlParam body.blood_sugar })
    if result.1 = 0 then ({ status := 404, body := .error "Vital record not found" }, result.2)
    else ({ status := 200, body := .message "Vital signs updated successfully" }, result.2)

/-- The handler `router.delete('/:id')` of vitals.js (lines 143-161). -/
def vitals_delete_id (err : Bool) (t : Table Vital) (id : Nat) : Response Vital × Table Vital :=
  if err then ({ status := 500, body := .error "Failed to delete vital record" }, t)
  else
    let result := t.delete (fun r => r.id == id)
    if result.1 = 0 then ({ status := 404, body := .error "Vital record not found" }, result.2)
    else ({ status := 200, body := .message "Vital record deleted successfully" }, result.2)

/-- The handler `router.get('/:id')` of appointments.js (lines 20-38). -/
def appointments_get_id (err : Bool) (t : Table Appointment) (id : Nat) : Response Appointment :=
  if err then { status := 500, body := .error "Failed to fetch appointment" }
  else
    match t.select (fun r => r.id == id) with
    | [] => { status := 404, body := .error "Appointment not found" }
    | r :: _ => { status := 200, body := .record r }

/-- The handler `router.post('/')` of appointments.js (lines 111-135). -/
def appointments_post (err : Bool) (t : Table Appointment) (body : AppointmentBody) :
    Response Appointment × Table Appointment :=
  if !body.doctor.truthy || !body.type.truthy || !body.date_time.truthy then
    ({ status := 400, body := .error "Doctor, type, and date_time are required" }, t)
  else if err then ({ status := 500, body := .error "Failed to add appointment" }, t)
  else
    let result := t.insert (fun id =>
      { id := id, doctor := sqlParam body.doctor, type := sqlParam body.type,
        date_time := sqlParam body.date_time, location := sqlParam (body.location.or .null) })
    ({ status := 201, body := .created "Appointment scheduled successfully" result.1 }, result.2)

/-- The handler `router.delete('/:id')` of medications.js (lines 109-127). -/
def medications_delete_id (err : Bool) (t : Table Medication) (id : Nat) :
    Response Medication × Table Medication :=
  if err then ({ status := 500, body := .error "Failed to delete medication" }, t)
  else
    let result := t.delete (fun r => r.id == id)
    if result.1 = 0 then ({ status := 404, body := .error "Medication not found" }, result.2)
    else ({ status := 200, body := .message "Medication deleted successfully" }, result.2)

/-- The handler `router.delete('/:id')` of reminders.js (lines 147-165). -/
def reminders_delete_id (err : Bool) (t : Table ReminderRow) (id : Nat) :
    Response ReminderRow × Table ReminderRow :=
  if err then ({ status := 500, body := .error "Failed to delete reminder" }, t)
  else
    let result := t.delete (fun r => r.id == id)
    if result.1 = 0 then ({ status := 404, body := .error "Reminder not found" }, result.2)
    else ({ status := 200, body := .message "Reminder deleted successfully" }, result.2)

/-- The handler `router.delete('/:id')` of appointments.js (lines 164-182). -/
def appointments_delete_id (err : Bool) (t : Table Appointment) (id : Nat) :
    Response Appointment × Table Appointment :=
  if err then ({ status := 500, body := .error "Failed to delete appointment" }, t)
  else
    let result := t.delete (fun r => r.id == id)
    if result.1 = 0 then ({ status := 404, body := .error "Appointment not found" }, result.2)
    else ({ status := 200, body := .message "Appointment deleted successfully" }, result.2)

/-- The handler `router.put('/:id/taken')` of medications.js (lines 65-84); `taken` is the
field of that name in `req.body`. -/
def medications_put_id_taken (err : Bool) (t : Table Medication) (id : Nat) (taken : JSVal) :
    Response Medication × Table Medication :=
  if err then ({ status := 500, body := .error "Failed to update medication" }, t)
  else
    let result := t.update (fun r => r.id == id) (fun r => { r with taken := sqlParam taken })
    if result.1 = 0 then ({ status := 404, body := .error "Medication not found" }, result.2)
    else ({ status := 200, body := .message "Medication updated successfully" }, result.2)

/-- The handler `router.put('/:id')` of medications.js (lines 87-106). -/
def medications_put_id (err : Bool) (t : Table Medication) (id : Nat) (body : MedicationBody) :
    Response Medication × Table Medication :=
  if err then ({ status := 500, body := .error "Failed to update medication" }, t)
  else
    let result := t.update (fun r => r.id == id) (fun r =>
      { r with
        name := sqlParam body.name
        dosage := sqlParam body.dosage
        frequency := sqlParam body.frequency
        time := sqlParam body.time })
    if result.1 = 0 then ({ status := 404, body := .error "Medication not found" }, result.2)
    else ({ status := 200, body := .message "Medication updated successfully" }, result.2)

/-- The handler `router.put('/:id')` of reminders.js (lines 104-123). -/
def reminders_put_id (err : Bool) (t : Table ReminderRow) (id : Nat) (body : ReminderBody) :
    Response ReminderRow × Table ReminderRow :=
  if err then ({ status := 500, body := .error "Failed to update reminder" }, t)
  else
    let result := t.update (fun r => r.id == id) (fun r =>
      { r with
        title := sqlParam body.title
        date_time := sqlParam body.date_time
        notes := sqlParam body.notes })
    if result.1 = 0 then ({ status := 404, body := .error "Reminder not found" }, result.2)
    else ({ status := 200, body := .message "Reminder updated successfully" }, result.2)

/-- The handler `router.put('/:id/notify')` of reminders.js (lines 126-144). -/
def reminders_put_id_notify (err : Bool) (t : Table ReminderRow) (id : Nat) :
    Response ReminderRow × Table ReminderRow :=
  if err then ({ status := 500, body := .error "Failed to update reminder" }, t)
  else
    let result := t.update (fun r => r.id == id) (fun r => { r with notified := .bool true })
    if result.1 = 0 then ({ status := 404, body := .error "Reminder not found" }, result.2)
    else ({ status := 200, body := .message "Reminder marked as notified" }, result.2)

/-- The handler `router.put('/:id')` of appointments.js (lines 138-161). -/
def appointments_put_id (err : Bool) (t : Table Appointment) (id : Nat)
    (body : AppointmentBody) : Response Appointment × Table Appointment :=
  if err then ({ status := 500, body := .error "Failed to update appointment" }, t)
  else
    let result := t.update (fun r => r.id == id) (fun r =>
      { r with
        doctor := sqlParam body.doctor
        type := sqlParam body.type
        date_time := sqlParam body.date_time
        location := sqlParam body.location })
    if result.1 = 0 then ({ status := 404, body := .error "Appointment not found" }, result.2)
    else ({ status := 200, body := .message "Appointment updated successfully" }, result.2)

/-- Modelled from the spec: the instant a stored `date_time` denotes. How the storage layer
reads a date out of a string is not part of the sources and is the parameter `parse`; `NULL`
and every value that is no string denote no instant. -/
def dateOf (parse : String → Option Int) : JSVal → Option Int
  | .str s => parse s
  | _ => none

/-- The SQL condition `date_time >= NOW()`: not satisfied by a row without a date. -/
def sqlGeNow (now : Int) : Option Int → Bool
  | some d => decide (d ≥ now)
  | none => false

/-- The SQL condition `date_time < NOW()`: not satisfied by a row without a date. -/
def sqlLtNow (now : Int) : Option Int → Bool
  | some d => decide (d < now)
  | none => false

/-- The order of `ORDER BY ... ASC` on dates: `NULL` comes first. -/
def dateLe : Option Int → Option Int → Bool
  | none, _ => true
  | some _, none => false
  | some a, some b => decide (a ≤ b)

/-- `ORDER BY key ASC` (`desc = false`) or `ORDER BY key DESC` (`desc = true`); rows with
equal keys keep their order. -/
def orderBy {α : Type} (key : α → Option Int) (desc : Bool) (rows : List α) : List α :=
  rows.insertionSort (fun a b =>
    (if desc then dateLe (key b) (key a) else dateLe (key a) (key b)) = true)

/-- The handler `router.get('/upcoming/list')` of appointments.js (lines 41-57); `now` is the
server clock. -/
def appointments_get_upcoming_list (parse : String → Option Int) (now : Int) (err : Bool)
    (t : Table Appointment) : Response Appointment :=
  if err then { status := 500, body := .error "Failed to fetch upcoming appointments" }
  else
    { status := 200
      body := .records (orderBy (fun r => dateOf parse r.date_time) false
        (t.select (fun r => sqlGeNow now (dateOf parse r.date_time)))) }

/-- The handler `router.get('/past/list')` of appointments.js (lines 60-76); `now` is the
server clock. -/
def appointments_get_past_list (parse : String → Option Int) (now : Int) (err : Bool)
    (t : Table Appointment) : Response Appointment :=
  if err then { status := 500, body := .error "Failed to fetch past appointments" }
  else
    { status := 200
      body := .records (orderBy (fun r => dateOf parse r.date_time) true
        (t.select (fun r => sqlLtNow now (dateOf parse r.date_time)))) }

/-- Whether some suffix of the string satisfies `f`. -/
def anySuffix (f : List Char → Bool) : List Char → Bool
  | [] => f []
  | c :: s => f (c :: s) || anySuffix f s

/-- Modelled from the spec: how a text column compares strings, which the schema fixes and
the sources do not show. `fold` sends a character to the one that stands for it in
comparisons: under the default collations of MySQL a capital letter and its small form have
the same image, under a binary collation `fold` is the identity. `padSpace` says whether `=`
leaves spaces at the end of a string out of account, as the collations with the attribute
PAD SPACE do; `LIKE` never does. -/
structure Collation where
  fold : Char → Char
  padSpace : Bool

/-- What the operator `=` compares of a string: its characters under `fold`, without the
spaces at its end when the collation pads. -/
def sqlKey (coll : Collation) (s : List Char) : List Char :=
  (if coll.padSpace then (s.reverse.dropWhile (fun c => c == ' ')).reverse else s).map coll.fold

/-- The SQL condition `column = ?` with a string for the parameter: a stored string satisfies
it when the two have the same key; `NULL`, like every stored value that is no string,
satisfies it for no string. -/
def sqlEq (coll : Collation) (v : JSVal) (s : String) : Bool :=
  match v with
  | .str x => sqlKey coll x.data == sqlKey coll s.data
  | _ => false

/-- The SQL operator `LIKE` with its default escape character: in the pattern `%` stands for
any run of characters, `_` for any one character, a backslash makes the character after it
stand for itself, and every other character stands for itself. The second argument is the
pattern, the third the string. A character of the string is compared with the character of
the pattern under `fold`, the first argument. -/
def likeMatch (fold : Char → Char) : List Char → List Char → Bool
  | [] => fun s => s.isEmpty
  | '%' :: p => fun s => anySuffix (likeMatch fold p) s
  | '_' :: p => fun s =>
    match s with
    | [] => false
    | _ :: s => likeMatch fold p s
  | ['\\'] => fun s => s.map fold == [fold '\\']
  | '\\' :: c :: p => fun s =>
    match s with
    | [] => false
    | x :: s => fold x == fold c && likeMatch fold p s
  | c :: p => fun s =>
    match s with
    | [] => false
    | x :: s => fold x == fold c && likeMatch fold p s

/-- The handler `router.get('/type/:type')` of appointments.js (lines 79-92): the condition is
`type = ?`; `coll` is the collation of the column. -/
def appointments_get_type (coll : Collation) (parse : String → Option Int) (err : Bool)
    (t : Table Appointment) (type : String) : Response Appointment :=
  if err then { status := 500, body := .error "Failed to fetch appointments" }
  else
    { status := 200
      body := .records (orderBy (fun r => dateOf parse r.date_time) false
        (t.select (fun r => sqlEq coll r.type type))) }

/-- The handler `router.get('/doctor/:doctor')` of appointments.js (lines 95-108): the
condition is `doctor LIKE ?` with the given string between two `%`; `coll` is the collation
of the column. -/
def appointments_get_doctor (coll : Collation) (parse : String → Option Int) (err : Bool)
    (t : Table Appointment) (doctor : String) : Response Appointment :=
  if err then { status := 500, body := .error "Failed to fetch appointments" }
  else
    { status := 200
      body := .records (orderBy (fun r => dateOf parse r.date_time) false
        (t.select (fun r =>
          match r.doctor with
          | .str s => likeMatch coll.fold (("%" ++ doctor ++ "%").data) s.data
          | _ => false))) }

/-- The handler `router.get('/')` of vitals.js (lines 5-17): all records, newest first. -/
def vitals_get (err : Bool) (t : Table Vital) : Response Vital :=
  if err then { status := 500, body := .error "Failed to fetch vital signs" }
  else
    { status := 200
      body := .records (orderBy (fun r => some r.recorded_date) true t.rows) }

/-- The SQL test `IS NULL` on a stored value. -/
def sqlIsNull : JSVal → Bool
  | .null => true
  | .undefined => true
  | _ => false

/-- Modelled from the spec: the number a stored value enters an aggregate with. `NULL` enters
none; true and false are 1 and 0; how the storage layer reads a number out of a string is not
part of the sources and is the parameter `toNum`. -/
def numOf (toNum : String → ℚ) : JSVal → Option ℚ
  | .num q => some q
  | .bool b => some (if b then 1 else 0)
  | .str s => some (toNum s)
  | .null => none
  | .undefined => none

/-- The SQL aggregate `SUM` over the values that are not `NULL`: `NULL` when there is none. -/
def sqlSum (vals : List ℚ) : JSVal :=
  if vals.isEmpty then .null else .num vals.sum

/-- The SQL aggregate `AVG` over the values that are not `NULL`: `NULL` when there is none. -/
def sqlAvg (vals : List ℚ) : JSVal :=
  if vals.isEmpty then .null else .num (vals.sum / (vals.length : ℚ))

/-- The SQL aggregate `MIN` over the values that are not `NULL`: `NULL` when there is none. -/
def sqlMin : List ℚ → JSVal
  | [] => .null
  | v :: vs => .num (vs.foldl min v)

/-- The SQL aggregate `MAX` over the values that are not `NULL`: `NULL` when there is none. -/
def sqlMax : List ℚ → JSVal
  | [] => .null
  | v :: vs => .num (vs.foldl max v)

/-- The SQL expression `a - b`: `NULL` as soon as one side is `NULL`. -/
def sqlMinus : JSVal → JSVal → JSVal
  | .num a, .num b => .num (a - b)
  | _, _ => .null

/-- The row `router.get('/stats/summary')` of vitals.js answers with. -/
structure VitalStats where
  total_records : JSVal
  avg_heart_rate : JSVal
  min_heart_rate : JSVal
  max_heart_rate : JSVal
  avg_temperature : JSVal
  avg_blood_sugar : JSVal
  deriving DecidableEq

/-- The values the vitals statistics report, in the order of the columns. -/
def VitalStats.values (s : VitalStats) : List JSVal :=
  [s.total_records, s.avg_heart_rate, s.min_heart_rate, s.max_heart_rate, s.avg_temperature,
    s.avg_blood_sugar]

/-- The handler `router.get('/stats/summary')` of vitals.js (lines 164-187). -/
def vitals_get_stats_summary (toNum : String → ℚ) (err : Bool) (t : Table Vital) :
    Response VitalStats :=
  if err then { status := 500, body := .error "Failed to fetch statistics" }
  else
    let rows := t.select (fun r =>
      !sqlIsNull r.heart_rate || !sqlIsNull r.temperature || !sqlIsNull r.blood_sugar)
    { status := 200
      body := .record
        { total_records := .num (rows.length : ℚ)
          avg_heart_rate := sqlAvg (rows.filterMap (fun r => numOf toNum r.heart_rate))
          min_heart_rate := sqlMin (rows.filterMap (fun r => numOf toNum r.heart_rate))
          max_heart_rate := sqlMax (rows.filterMap (fun r => numOf toNum r.heart_rate))
          avg_temperature := sqlAvg (rows.filterMap (fun r => numOf toNum r.temperature))
          avg_blood_sugar := sqlAvg (rows.filterMap (fun r => numOf toNum r.blood_sugar)) } }

/-- The row `router.get('/stats/count')` of medications.js answers with. -/
structure MedicationStats where
  total : JSVal
  taken : JSVal
  pending : JSVal
  deriving DecidableEq

/-- The handler `router.get('/stats/count')` of medications.js (lines 130-143). -/
def medications_get_stats_count (toNum : String → ℚ) (err : Bool) (t : Table Medication) :
    Response MedicationStats :=
  if err then { status := 500, body := .error "Failed to fetch statistics" }
  else
    { status := 200
      body := .record
        { total := .num (t.rows.length : ℚ)
          taken := sqlSum (t.rows.filterMap (fun r => numOf toNum r.taken))
          pending := sqlMinus (.num (t.rows.length : ℚ))
            (sqlSum (t.rows.filterMap (fun r => numOf toNum r.taken))) } }

/-- A request to the reminders routes that writes: create, general update, mark-notified or
delete, each with the flag saying whether the driver reports an error. -/
inductive ReminderOp where
  | post (err : Bool) (body : ReminderBody)
  | put (err : Bool) (id : Nat) (body : ReminderBody)
  | notify (err : Bool) (id : Nat)
  | delete (err : Bool) (id : Nat)

/-- The reminders collection after the handler of the request has run. -/
def ReminderOp.apply : ReminderOp → Table ReminderRow → Table ReminderRow
  | .post err body, t => (reminders_post err t body).2
  | .put err id body, t => (reminders_put_id err t id body).2
  | .notify err id, t => (reminders_put_id_notify err t id).2
  | .delete err id, t => (reminders_delete_id err t id).2

/-- The reminders collection after the requests have been handled one after the other. -/
def applyReminderOps (ops : List ReminderOp) (t : Table ReminderRow) : Table ReminderRow :=
  ops.foldl (fun acc op => op.apply acc) t

/-! ## The creation forms of the client: `src/frontend/script.js`

Each function is given the `.value` strings of its form fields and returns the body of the
POST request it sends, or `none` when its required-field check shows the toast and returns
without a request. -/

/-- The function `addMedication` (script.js 158-189) up to its request. -/
def addMedication (name dosage frequency time : String) : Option MedicationBody :=
  if !(JSVal.str name).truthy || !(JSVal.str dosage).truthy || !(JSVal.str time).truthy then none
  else some { name := .str name, dosage := .str dosage, frequency := .str frequency,
              time := .str time }

/-- The function `addReminder` (script.js 274-308) up to its request. -/
def addReminder (title dateTime notes : String) : Option ReminderBody :=
  if !(JSVal.str title).truthy || !(JSVal.str dateTime).truthy then none
  else some { title := .str title, date_time := .str dateTime, notes := .str notes }

/-- The function `addVitalSigns` (script.js 478-515) up to its request. -/
def addVitalSigns (bloodPressure heartRate temperature bloodSugar : String) :
    Option VitalBody :=
  if !(JSVal.str bloodPressure).truthy && !(JSVal.str heartRate).truthy
      && !(JSVal.str temperature).truthy && !(JSVal.str bloodSugar).truthy then none
  else some { blood_pressure := (JSVal.str bloodPressure).or .null
              heart_rate := (JSVal.str heartRate).or .null
              temperature := (JSVal.str temperature).or .null
              blood_sugar := (JSVal.str bloodSugar).or .null }

/-- The function `addAppointment` (script.js 582-618) up to its request. -/
def addAppointment (doctor type dateTime location : String) : Option AppointmentBody :=
  if !(JSVal.str doctor).truthy || !(JSVal.str dateTime).truthy then none
  else some { doctor := .str doctor, type := .str type, date_time := .str dateTime,
              location := .str location }

/-! ## Auxiliary definitions -/

/-- Reads a list of decimal digit characters back as a number, starting from `acc`. -/
def decodeDigits (acc : Nat) (l : List Char) : Nat :=
  l.foldl (fun a c => 10 * a + (c.toNat - 48)) acc

/-- The value is SQL `NULL` or the field was absent from the request body. -/
def JSVal.nullOrAbsent (v : JSVal) : Prop :=
  v = .null ∨ v = .undefined

/-- The record has at least one measurement that is not `NULL`. -/
def Vital.hasMeasurement (v : Vital) : Bool :=
  v.blood_pressure != .null || v.heart_rate != .null || v.temperature != .null
    || v.blood_sugar != .null

/-- Every record of the vitals collection has at least one non-null measurement. -/
def vitalsInvariant (t : Table Vital) : Bool :=
  t.rows.all Vital.hasMeasurement

/-- A vitals collection holding one record, a blood pressure reading with id 1. -/
def sampleVitals : Table Vital :=
  { rows := [{ id := 1, blood_pressure := .str "120/80", heart_rate := .null,
               temperature := .null, blood_sugar := .null, recorded_date := 0 }]
    nextId := 2 }

/-- An empty collection whose first insert gets id 1. -/
def emptyTable (α : Type) : Table α :=
  { rows := [], nextId := 1 }

/-- Every row's identifier is below the identifier the next insert is given. -/
def Table.idsBelowNext {α : Type} (getId : α → Nat) (t : Table α) : Prop :=
  ∀ r ∈ t.rows, getId r < t.nextId

/-- A reminder creation request whose notes are the empty string. -/
def sampleReminderBody : ReminderBody :=
  { title := .str "Checkup", date_time := .str "2025-01-01T10:00", notes := .str "" }

/-- A vital-record creation request with heart_rate 0 and temperature 98.6. -/
def sampleVitalBody : VitalBody :=
  { blood_pressure := .undefined, heart_rate := .num 0, temperature := .num 98.6,
    blood_sugar := .undefined }

/-- A medication creation request in which every field is present and the name is the empty
string. -/
def sampleMedicationBody : MedicationBody :=
  { name := .str "", dosage := .str "10mg", frequency := .str "daily", time := .str "08:00" }

/-- A medication creation request with all four fields filled in. -/
def filledMedicationBody : MedicationBody :=
  { name := .str "Aspirin", dosage := .str "10mg", frequency := .str "daily",
    time := .str "08:00" }

/-- Neither branch of the `forEach` callback is taken for `r` at `now` with the set `h`. -/
def quiet (now : Int) (h : JSSet) (r : Reminder) : Prop :=
  ¬ (r.date_time - now > 0 ∧ r.date_time - now ≤ 300000 ∧ r.notified = false
      ∧ JSSet.has h (tierKey r.id "5min") = false)
    ∧ ¬ (r.date_time - now > -60000 ∧ r.date_time - now ≤ 0
      ∧ JSSet.has h (tierKey r.id "now") = false)

/-- Two copies of a reminder that agree in everything but possibly the `notified` flag, where
the flag may differ only if the warning tier of the reminder is recorded in `h` or its
`date_time` is not after the instant `T`. -/
def flagsApart (h : JSSet) (T : Int) (a b : Reminder) : Prop :=
  a.id = b.id ∧ a.title = b.title ∧ a.date_time = b.date_time ∧ a.notes = b.notes
    ∧ (a.notified = b.notified ∨ JSSet.has h (tierKey a.id "5min") = true ∨ a.date_time ≤ T)

/-- A reading of stored dates for the examples: a non-empty string of decimal digits denotes
the instant it spells, every other string denotes none. -/
def sampleParse : String → Option Int :=
  fun s => if s.data.all Char.isDigit && !s.data.isEmpty then
    some (decodeDigits 0 s.data : Nat) else none

/-- An appointments collection with one appointment in the past and one in the future of the
instant 1000. -/
def sampleAppointments : Table Appointment :=
  { rows := [{ id := 1, doctor := .str "Dr. Lee", type := .str "Annual Checkup",
               date_time := .str "2000", location := .null },
             { id := 2, doctor := .str "Dr. Kim", type := .str "Dental",
               date_time := .str "500", location := .str "Room 4" }]
    nextId := 3 }

/-- A collation for the examples: letters compare regardless of their case, and spaces at the
end of a string count. -/
def sampleCollation : Collation :=
  { fold := Char.toLower, padSpace := false }

/-- An appointment creation request with the three required fields. -/
def sampleAppointmentBody : AppointmentBody :=
  { doctor := .str "Dr. Lee", type := .str "Checkup", date_time := .str "2000",
    location := .undefined }

/-- A request body that carries none of the fields of an appointment. -/
def emptyAppointmentBody : AppointmentBody :=
  { doctor := .undefined, type := .undefined, date_time := .undefined, location := .undefined }

/-- The appointments collection after `POST /api/appointments` with `sampleAppointmentBody`
on the empty collection and then `PUT /api/appointments/1` with `emptyAppointmentBody`. -/
def undatedAppointments : Table Appointment :=
  (appointments_put_id false
    (appointments_post false (emptyTable Appointment) sampleAppointmentBody).2 1
    emptyAppointmentBody).2

/-- A medications collection with one medication, not yet taken. -/
def sampleMedications : Table Medication :=
  { rows := [{ id := 1, name := .str "Aspirin", dosage := .str "10mg", frequency := .str "daily",
               time := .str "08:00", taken := .bool false }]
    nextId := 2 }

/-- A reading of stored text as a number for the examples: the digits it spells. -/
def sampleToNum : String → ℚ :=
  fun s => (decodeDigits 0 s.data : ℚ)

/-- The numbers of one measurement field over exactly the records in which the field is not
`NULL`. -/
def fieldValues (toNum : String → ℚ) (field : Vital → JSVal) (t : Table Vital) : List ℚ :=
  (t.rows.filter (fun r => !sqlIsNull (field r))).filterMap (fun r => numOf toNum (field r))

/-- A vitals collection with two records that hold a temperature only, 97 and 99. -/
def sampleTemperatures : Table Vital :=
  { rows := [{ id := 1, blood_pressure := .null, heart_rate := .null, temperature := .num 97,
               blood_sugar := .null, recorded_date := 10 },
             { id := 2, blood_pressure := .null, heart_rate := .null, temperature := .num 99,
               blood_sugar := .null, recorded_date := 20 }]
    nextId := 3 }

/-- The statistics of `sampleTemperatures`. -/
def sampleTemperatureStats : VitalStats :=
  { total_records := .num 2, avg_heart_rate := .null, min_heart_rate := .null,
    max_heart_rate := .null, avg_temperature := .num 98, avg_blood_sugar := .null }

/-- The client's list shows rows of the collection: every reminder in it has the id of a row
and, as `notified`, the truthiness of that row's flag. -/
def clientReflects (t : Table ReminderRow) (l : List Reminder) : Prop :=
  ∀ r ∈ l, ∃ row ∈ t.rows, row.id = r.id ∧ r.notified = row.notified.truthy

/-- The reminder with id `i` has been created and every row with that id is marked notified;
the ids of the rows are below the id the next insert is given. -/
def markedNotified (i : Nat) (t : Table ReminderRow) : Prop :=
  t.idsBelowNext (fun r => r.id) ∧ i < t.nextId
    ∧ ∀ r ∈ t.rows, r.id = i → r.notified = .bool true

/-- A client that shows reminder 1 as notified and due in 100 seconds. -/
def rescheduledClient : Client :=
  { reminders := [{ id := 1, title := "Pill", date_time := 100000, notes := .null,
                    notified := true }]
    hasPlayedSound := [] }

/-- A reminders collection whose one reminder has been marked notified. -/
def sampleReminders : Table ReminderRow :=
  { rows := [{ id := 1, title := .str "Pill", date_time := .str "1000", notes := .null,
               notified := .bool true }]
    nextId := 2 }

/-- A client that has the due tier of reminder 1 recorded. -/
def firedClient : Client :=
  { reminders := [{ id := 1, title := "Pill", date_time := 10000, notes := .null,
                    notified := false }]
    hasPlayedSound := [tierKey 1 "now"] }

/-- A reminder with id 1 due at instant 10000, not yet notified. -/
def sampleReminder : Reminder :=
  { id := 1, title := "Pill", date_time := 10000, notes := .null, notified := false }

/-- A client holding `sampleReminder` only, with nothing recorded in `hasPlayedSound`. -/
def sampleClient : Client :=
  { reminders := [sampleReminder], hasPlayedSound := [] }

/-- The reminder `sampleReminder` as the server returns it after it has been rescheduled to
the instant 500000 (`PUT /api/reminders/1` writes `date_time` and leaves `notified` as it
is), with the given `notified` flag. -/
def rescheduledReminder (notified : Bool) : Reminder :=
  { id := 1, title := "Pill", date_time := 500000, notes := .null, notified := notified }

/-! ## Decimal rendering of identifiers -/

theorem digitChar_toNat (k : Nat) (h : k < 10) : (Nat.digitChar k).toNat - 48 = k := by
  interval_cases k <;> rfl

theorem decodeDigits_toDigitsCore (fuel : Nat) :
    ∀ (n : Nat) (ds : List Char), n < fuel →
      decodeDigits 0 (Nat.toDigitsCore 10 fuel n ds) = decodeDigits n ds := by
  induction fuel with
  | zero => intro n ds h; omega
  | succ fuel ih =>
    intro n ds h
    unfold Nat.toDigitsCore
    by_cases h0 : n / 10 = 0
    · have hn : n % 10 = n := Nat.mod_eq_of_lt (by omega)
      have hd := digitChar_toNat n (by omega)
      simp only [h0, if_true, hn]
      simp [decodeDigits, hd]
    · simp only [h0, if_false]
      rw [ih (n / 10) _ (by omega)]
      simp only [decodeDigits, List.foldl_cons, digitChar_toNat (n % 10) (Nat.mod_lt _ (by decide))]
      congr 1
      omega

theorem toString_nat_injective (a b : Nat) (h : toString a = toString b) : a = b := by
  have h1 : Nat.toDigits 10 a = Nat.toDigits 10 b := by
    have := congrArg String.data h
    simpa [toString, Nat.repr, List.asString] using this
  have ha : decodeDigits 0 (Nat.toDigits 10 a) = a :=
    decodeDigits_toDigitsCore (a + 1) a [] (by omega)
  have hb : decodeDigits 0 (Nat.toDigits 10 b) = b :=
    decodeDigits_toDigitsCore (b + 1) b [] (by omega)
  calc a = decodeDigits 0 (Nat.toDigits 10 a) := ha.symm
    _ = decodeDigits 0 (Nat.toDigits 10 b) := by rw [h1]
    _ = b := hb

theorem tierKey_injective (a b : Nat) (tier : String) (h : tierKey a tier = tierKey b tier) :
    a = b := by
  unfold tierKey at h
  injection h with h
  apply toString_nat_injective
  have := congrArg String.data h
  simp only [String.data_append, List.append_assoc] at this
  exact String.ext (List.append_cancel_right this)

theorem tierKey_5min_ne_now (a b : Nat) : tierKey a "5min" ≠ tierKey b "now" := by
  intro h
  unfold tierKey at h
  injection h with h
  have := congrArg (fun s => s.data.getLast?) h
  simp [String.data_append, List.getLast?_append] at this

theorem tierKey_ne_of_id_ne (a b : Nat) (t u : String)
    (ht : t = "5min" ∨ t = "now") (hu : u = "5min" ∨ u = "now") (hab : a ≠ b) :
    tierKey a t ≠ tierKey b u := by
  intro h
  rcases ht with rfl | rfl <;> rcases hu with rfl | rfl
  · exact hab (tierKey_injective _ _ _ h)
  · exact tierKey_5min_ne_now _ _ h
  · exact tierKey_5min_ne_now _ _ h.symm
  · exact hab (tierKey_injective _ _ _ h)

/-! ## The `hasPlayedSound` set -/

theorem has_eq_true_iff (s : JSSet) (k : JSVal) : JSSet.has s k = true ↔ k ∈ s := by
  simp [JSSet.has]

theorem has_add (s : JSSet) (v k : JSVal) :
    JSSet.has (JSSet.add s v) k = (JSSet.has s k || decide (k = v)) := by
  unfold JSSet.add
  by_cases hv : JSSet.has s v = true
  · simp only [hv, if_true]
    by_cases hk : k = v
    · subst hk; simp [hv]
    · simp [hk]
  · simp only [hv]
    simp [JSSet.has]

theorem has_delete (s : JSSet) (v k : JSVal) :
    JSSet.has (JSSet.delete s v) k = (JSSet.has s k && decide (k ≠ v)) := by
  simp [JSSet.has, JSSet.delete, List.mem_filter]

/-! ## One invocation of the callback -/

theorem checkReminder_id (now : Int) (h : JSSet) (r : Reminder) :
    (checkReminder now h r).reminder.id = r.id := by
  unfold checkReminder
  dsimp only
  split_ifs <;> rfl

theorem checkReminder_has_other (now : Int) (h : JSSet) (r : Reminder) (k : JSVal)
    (h5 : k ≠ tierKey r.id "5min") (hn : k ≠ tierKey r.id "now") :
    JSSet.has (checkReminder now h r).hasPlayedSound k = JSSet.has h k := by
  unfold checkReminder
  dsimp only
  split_ifs <;> simp [has_add, h5, hn]

theorem checkReminder_has_mono (now : Int) (h : JSSet) (r : Reminder) (k : JSVal)
    (hk : JSSet.has h k = true) :
    JSSet.has (checkReminder now h r).hasPlayedSound k = true := by
  unfold checkReminder
  dsimp only
  split_ifs <;> simp [has_add, hk]

theorem checkReminder_congr (now : Int) (h g : JSSet) (r : Reminder)
    (h5 : JSSet.has h (tierKey r.id "5min") = JSSet.has g (tierKey r.id "5min"))
    (hn : JSSet.has h (tierKey r.id "now") = JSSet.has g (tierKey r.id "now")) :
    (checkReminder now h r).calls = (checkReminder now g r).calls
      ∧ (checkReminder now h r).reminder = (checkReminder now g r).reminder
      ∧ JSSet.has (checkReminder now h r).hasPlayedSound (tierKey r.id "5min")
          = JSSet.has (checkReminder now g r).hasPlayedSound (tierKey r.id "5min")
      ∧ JSSet.has (checkReminder now h r).hasPlayedSound (tierKey r.id "now")
          = JSSet.has (checkReminder now g r).hasPlayedSound (tierKey r.id "now") := by
  unfold checkReminder
  simp only [h5, hn]
  split_ifs <;> simp [has_add, h5, hn]

/-! ## One run of `checkReminders` -/

theorem forEach_ids (now : Int) : ∀ (rs : List Reminder) (h : JSSet),
    (forEachReminder now rs h).client.reminders.map (fun r => r.id) = rs.map (fun r => r.id) := by
  intro rs
  induction rs with
  | nil => intro h; rfl
  | cons r rs ih =>
    intro h
    simp only [forEachReminder, List.map_cons, checkReminder_id, ih]

theorem forEach_has_mono (now : Int) : ∀ (rs : List Reminder) (h : JSSet) (k : JSVal),
    JSSet.has h k = true → JSSet.has (forEachReminder now rs h).client.hasPlayedSound k = true := by
  intro rs
  induction rs with
  | nil => intro h k hk; exact hk
  | cons r rs ih =>
    intro h k hk
    exact ih _ k (checkReminder_has_mono now h r k hk)

theorem forEach_has_other (now : Int) (i : Nat) (t : String) (ht : t = "5min" ∨ t = "now") :
    ∀ (rs : List Reminder) (h : JSSet), (∀ r ∈ rs, r.id ≠ i) →
      JSSet.has (forEachReminder now rs h).client.hasPlayedSound (tierKey i t)
        = JSSet.has h (tierKey i t) := by
  intro rs
  induction rs with
  | nil => intro h _; rfl
  | cons r rs ih =>
    intro h hne
    have hr : i ≠ r.id := fun e => hne r (List.mem_cons_self _ _) e.symm
    show JSSet.has (forEachReminder now rs _).client.hasPlayedSound (tierKey i t) = _
    rw [ih _ (fun x hx => hne x (List.mem_cons_of_mem _ hx))]
    exact checkReminder_has_other now h r _
      (tierKey_ne_of_id_ne i r.id t "5min" ht (Or.inl rfl) hr)
      (tierKey_ne_of_id_ne i r.id t "now" ht (Or.inr rfl) hr)

theorem forEach_log_tag (now : Int) : ∀ (rs : List Reminder) (h : JSSet) (p : Nat × Effect),
    p ∈ (forEachReminder now rs h).log → ∃ r ∈ rs, r.id = p.1 := by
  intro rs
  induction rs with
  | nil => intro h p hp; simp [forEachReminder] at hp
  | cons r rs ih =>
    intro h p hp
    simp only [forEachReminder, List.mem_append, List.mem_map] at hp
    rcases hp with ⟨e, _, rfl⟩ | hp
    · exact ⟨r, List.mem_cons_self _ _, rfl⟩
    · obtain ⟨x, hx, hxi⟩ := ih _ p hp
      exact ⟨x, List.mem_cons_of_mem _ hx, hxi⟩

theorem forEach_log_filter_other (now : Int) (i : Nat) (rs : List Reminder) (h : JSSet)
    (hne : ∀ r ∈ rs, r.id ≠ i) :
    (forEachReminder now rs h).log.filter (fun p => p.1 == i) = [] := by
  rw [List.filter_eq_nil_iff]
  intro p hp
  obtain ⟨r, hr, hri⟩ := forEach_log_tag now rs h p hp
  have := hne r hr
  simp only [beq_iff_eq]
  omega

theorem forEach_own (now : Int) : ∀ (rs : List Reminder) (h : JSSet) (r : Reminder),
    (rs.map (fun x => x.id)).Nodup → r ∈ rs →
      (forEachReminder now rs h).log.filter (fun p => p.1 == r.id)
          = (checkReminder now h r).calls.map (fun e => (r.id, e))
        ∧ (checkReminder now h r).reminder ∈ (forEachReminder now rs h).client.reminders
        ∧ JSSet.has (forEachReminder now rs h).client.hasPlayedSound (tierKey r.id "5min")
            = JSSet.has (checkReminder now h r).hasPlayedSound (tierKey r.id "5min")
        ∧ JSSet.has (forEachReminder now rs h).client.hasPlayedSound (tierKey r.id "now")
            = JSSet.has (checkReminder now h r).hasPlayedSound (tierKey r.id "now") := by
  intro rs
  induction rs with
  | nil => intro h r _ hr; simp at hr
  | cons x rs ih =>
    intro h r hnd hr
    rw [List.map_cons, List.nodup_cons] at hnd
    obtain ⟨hx, hnd⟩ := hnd
    have hxne : ∀ y ∈ rs, y.id ≠ x.id := by
      intro y hy e
      exact hx (List.mem_map.mpr ⟨y, hy, e⟩)
    rcases List.mem_cons.mp hr with rfl | hr
    · refine ⟨?_, ?_, ?_, ?_⟩
      · simp only [forEachReminder, List.filter_append,
          forEach_log_filter_other now r.id rs _ hxne, List.append_nil]
        rw [List.filter_eq_self]
        intro p hp
        obtain ⟨e, _, rfl⟩ := List.mem_map.mp hp
        simp
      · simp [forEachReminder]
      · exact forEach_has_other now r.id "5min" (Or.inl rfl) rs _ hxne
      · exact forEach_has_other now r.id "now" (Or.inr rfl) rs _ hxne
    · have hne : r.id ≠ x.id := hxne r hr
      obtain ⟨i1, i2, i3, i4⟩ := ih (checkReminder now h x).hasPlayedSound r hnd hr
      have c5 := checkReminder_has_other now h x (tierKey r.id "5min")
        (tierKey_ne_of_id_ne _ _ _ _ (Or.inl rfl) (Or.inl rfl) hne)
        (tierKey_ne_of_id_ne _ _ _ _ (Or.inl rfl) (Or.inr rfl) hne)
      have cn := checkReminder_has_other now h x (tierKey r.id "now")
        (tierKey_ne_of_id_ne _ _ _ _ (Or.inr rfl) (Or.inl rfl) hne)
        (tierKey_ne_of_id_ne _ _ _ _ (Or.inr rfl) (Or.inr rfl) hne)
      obtain ⟨g1, g2, g3, g4⟩ := checkReminder_congr now _ h r c5 cn
      refine ⟨?_, ?_, ?_, ?_⟩
      · have hfx : ((checkReminder now h x).calls.map (fun e => (x.id, e))).filter
            (fun p => p.1 == r.id) = [] := by
          rw [List.filter_eq_nil_iff]
          intro p hp
          obtain ⟨e, _, rfl⟩ := List.mem_map.mp hp
          simpa using fun e => hne e.symm
        simp only [forEachReminder, List.filter_append, hfx, List.nil_append]
        rw [i1, g1]
      · simp only [forEachReminder]
        exact List.mem_cons_of_mem _ (g2 ▸ i2)
      · exact i3.trans g3
      · exact i4.trans g4

theorem checkReminders_mem_log (now : Int) (rs : List Reminder) (h : JSSet) (r : Reminder)
    (hnd : (rs.map (fun x => x.id)).Nodup) (hr : r ∈ rs) (e : Effect) :
    (r.id, e) ∈ (checkReminders now { reminders := rs, hasPlayedSound := h }).log
      ↔ e ∈ (checkReminder now h r).calls := by
  have h1 := (forEach_own now rs h r hnd hr).1
  have h2 : (r.id, e) ∈ (forEachReminder now rs h).log
      ↔ (r.id, e) ∈ (forEachReminder now rs h).log.filter (fun p => p.1 == r.id) := by
    simp [List.mem_filter]
  show (r.id, e) ∈ (forEachReminder now rs h).log ↔ _
  rw [h2, h1]
  simp

theorem checkReminder_warning (now : Int) (h : JSSet) (r : Reminder)
    (c : 0 < r.date_time - now ∧ r.date_time - now ≤ 300000 ∧ r.notified = false
      ∧ JSSet.has h (tierKey r.id "5min") = false) :
    (checkReminder now h r).calls =
        [ .playNotificationSound "reminder",
          .sendNotification r.title ("Reminder in 5 minutes: " ++ r.title),
          .showToast ("‚è∞ Reminder: " ++ r.title ++ " in 5 minutes!"),
          .fetchNotify r.id ]
      ∧ (checkReminder now h r).reminder = { r with notified := true }
      ∧ (checkReminder now h r).hasPlayedSound = JSSet.add h (tierKey r.id "5min") := by
  unfold checkReminder
  dsimp only
  rw [if_pos c]
  exact ⟨rfl, rfl, rfl⟩

theorem checkReminder_due (now : Int) (h : JSSet) (r : Reminder)
    (c : -60000 < r.date_time - now ∧ r.date_time - now ≤ 0
      ∧ JSSet.has h (tierKey r.id "now") = false) :
    (checkReminder now h r).calls =
        [ .playNotificationSound "urgent",
          .sendNotification r.title ("It's time: " ++ r.title ++ "!"),
          .showToast ("üîî Time for: " ++ r.title ++ "!"),
          .fetchNotify r.id ]
      ∧ (checkReminder now h r).reminder = r
      ∧ (checkReminder now h r).hasPlayedSound = JSSet.add h (tierKey r.id "now") := by
  unfold checkReminder
  dsimp only
  rw [if_neg (by intro c1; have := c1.1; have := c.2.1; omega), if_pos c]
  exact ⟨rfl, rfl, rfl⟩

theorem checkReminder_no_due (now : Int) (h : JSSet) (r : Reminder)
    (hk : JSSet.has h (tierKey r.id "now") = true) :
    Effect.playNotificationSound "urgent" ∉ (checkReminder now h r).calls := by
  unfold checkReminder
  dsimp only
  split_ifs with c1 c2
  · simp
  · rw [hk] at c2
    simp at c2
  · simp

theorem checkReminder_no_warning (now : Int) (h : JSSet) (r : Reminder)
    (hk : JSSet.has h (tierKey r.id "5min") = true) :
    Effect.playNotificationSound "reminder" ∉ (checkReminder now h r).calls := by
  unfold checkReminder
  dsimp only
  split_ifs with c1 c2
  · rw [hk] at c1
    simp at c1
  · simp
  · simp

theorem forEach_no_due (now : Int) (i : Nat) : ∀ (rs : List Reminder) (h : JSSet),
    JSSet.has h (tierKey i "now") = true →
      (i, Effect.playNotificationSound "urgent") ∉ (forEachReminder now rs h).log := by
  intro rs
  induction rs with
  | nil => intro h _; simp [forEachReminder]
  | cons x rs ih =>
    intro h hk hmem
    simp only [forEachReminder, List.mem_append, List.mem_map, Prod.mk.injEq] at hmem
    rcases hmem with ⟨e, he, hxi, rfl⟩ | hmem
    · subst hxi
      exact checkReminder_no_due now h x hk he
    · exact ih _ (checkReminder_has_mono now h x _ hk) hmem

theorem forEach_no_warning (now : Int) (i : Nat) : ∀ (rs : List Reminder) (h : JSSet),
    JSSet.has h (tierKey i "5min") = true →
      (i, Effect.playNotificationSound "reminder") ∉ (forEachReminder now rs h).log := by
  intro rs
  induction rs with
  | nil => intro h _; simp [forEachReminder]
  | cons x rs ih =>
    intro h hk hmem
    simp only [forEachReminder, List.mem_append, List.mem_map, Prod.mk.injEq] at hmem
    rcases hmem with ⟨e, he, hxi, rfl⟩ | hmem
    · subst hxi
      exact checkReminder_no_warning now h x hk he
    · exact ih _ (checkReminder_has_mono now h x _ hk) hmem

theorem count_map_tag (i : Nat) (e : Effect) (l : List Effect) :
    (l.map (fun x => (i, x))).count (i, e) = l.count e := by
  induction l with
  | nil => rfl
  | cons x l ih =>
    simp only [List.map_cons, List.count_cons, ih]
    by_cases hx : x = e
    · subst hx; simp
    · have : ((i, x) == (i, e)) = false := by
        rw [beq_eq_false_iff_ne]
        intro hp
        exact hx (Prod.mk.inj hp).2
      simp [this, hx]

theorem checkReminders_count (now : Int) (c : Client) (r : Reminder)
    (hnd : (c.reminders.map (fun x => x.id)).Nodup) (hr : r ∈ c.reminders) (e : Effect) :
    (checkReminders now c).log.count (r.id, e)
      = (checkReminder now c.hasPlayedSound r).calls.count e := by
  have h1 := (forEach_own now c.reminders c.hasPlayedSound r hnd hr).1
  have h2 : (checkReminders now c).log.count (r.id, e)
      = ((forEachReminder now c.reminders c.hasPlayedSound).log.filter
          (fun p => p.1 == r.id)).count (r.id, e) := by
    rw [List.count_filter]
    · rfl
    · simp
  rw [h2, h1]
  exact count_map_tag r.id e _

/-! ## Successive runs of `checkReminders` -/

theorem checkReminders_nodup (now : Int) (c : Client)
    (hnd : (c.reminders.map (fun x => x.id)).Nodup) :
    ((checkReminders now c).client.reminders.map (fun x => x.id)).Nodup := by
  unfold checkReminders
  rw [forEach_ids]
  exact hnd

theorem runTicks_recorded (k : JSVal) : ∀ (times : List Int) (c : Client),
    JSSet.has c.hasPlayedSound k = true →
      ∀ t ∈ runTicks times c, JSSet.has t.client.hasPlayedSound k = true := by
  intro times
  induction times with
  | nil => intro c _ t ht; simp [runTicks] at ht
  | cons now later ih =>
    intro c hk t ht
    have h1 : JSSet.has (checkReminders now c).client.hasPlayedSound k = true :=
      forEach_has_mono now c.reminders c.hasPlayedSound k hk
    simp only [runTicks, List.mem_cons] at ht
    rcases ht with rfl | ht
    · exact h1
    · exact ih _ h1 t ht

theorem runTicks_due_counts (i : Nat) : ∀ (times : List Int) (c : Client),
    JSSet.has c.hasPlayedSound (tierKey i "now") = true →
      (runTicks times c).map (fun t => t.log.count (i, Effect.playNotificationSound "urgent"))
        = List.replicate times.length 0 := by
  intro times
  induction times with
  | nil => intro c _; rfl
  | cons now later ih =>
    intro c hk
    simp only [runTicks, List.map_cons, List.length_cons, List.replicate_succ]
    have hk2 : JSSet.has (checkReminders now c).client.hasPlayedSound (tierKey i "now") = true :=
      forEach_has_mono now c.reminders c.hasPlayedSound _ hk
    rw [ih _ hk2]
    congr 1
    exact List.count_eq_zero.mpr (forEach_no_due now i c.reminders c.hasPlayedSound hk)

theorem runTicks_warning_counts (i : Nat) : ∀ (times : List Int) (c : Client),
    JSSet.has c.hasPlayedSound (tierKey i "5min") = true →
      (runTicks times c).map (fun t => t.log.count (i, Effect.playNotificationSound "reminder"))
        = List.replicate times.length 0 := by
  intro times
  induction times with
  | nil => intro c _; rfl
  | cons now later ih =>
    intro c hk
    simp only [runTicks, List.map_cons, List.length_cons, List.replicate_succ]
    have hk2 : JSSet.has (checkReminders now c).client.hasPlayedSound (tierKey i "5min") = true :=
      forEach_has_mono now c.reminders c.hasPlayedSound _ hk
    rw [ih _ hk2]
    congr 1
    exact List.count_eq_zero.mpr (forEach_no_warning now i c.reminders c.hasPlayedSound hk)

/-! ## Deleting a reminder -/

theorem deleteReminder_has_tierKey (confirmed responseOk : Bool)
    (reloaded : Option (List Reminder)) (id : Nat) (c : Client) (i : Nat) (tier : String) :
    JSSet.has (deleteReminder confirmed responseOk reloaded id c).hasPlayedSound (tierKey i tier)
      = JSSet.has c.hasPlayedSound (tierKey i tier) := by
  unfold deleteReminder
  split_ifs
  · rfl
  · rfl
  · cases reloaded <;> simp [has_delete, tierKey]

/-! ## The two alert tiers -/

/-- C1. For every instant `now`, every fired-tier set and every reminder `r` of a list with
distinct ids, `checkReminders` fires the 5-minute warning tier for `r` (plays the 'reminder'
tone, issues the notify call, has the key of `r`'s 5-minute tier in `hasPlayedSound`
afterwards) if and only if `0 < r.date_time - now ≤ 300000`, `r.notified` is falsy and the key
was not in `hasPlayedSound` before. -/
theorem warning_tier_fires_iff (now : Int) (hasPlayedSound : JSSet) (reminders : List Reminder)
    (r : Reminder) (hnd : (reminders.map (fun x => x.id)).Nodup) (hr : r ∈ reminders) :
    ((r.id, Effect.playNotificationSound "reminder")
          ∈ (checkReminders now { reminders := reminders, hasPlayedSound := hasPlayedSound }).log
        ∧ (r.id, Effect.fetchNotify r.id)
          ∈ (checkReminders now { reminders := reminders, hasPlayedSound := hasPlayedSound }).log
        ∧ JSSet.has (checkReminders now
            { reminders := reminders, hasPlayedSound := hasPlayedSound }).client.hasPlayedSound
            (tierKey r.id "5min") = true)
      ↔ (0 < r.date_time - now ∧ r.date_time - now ≤ 300000 ∧ r.notified = false
          ∧ JSSet.has hasPlayedSound (tierKey r.id "5min") = false) := by
  rw [checkReminders_mem_log now reminders hasPlayedSound r hnd hr,
    checkReminders_mem_log now reminders hasPlayedSound r hnd hr]
  have h5 := (forEach_own now reminders hasPlayedSound r hnd hr).2.2.1
  show _ ∧ _ ∧ JSSet.has (forEachReminder now reminders hasPlayedSound).client.hasPlayedSound
    (tierKey r.id "5min") = true ↔ _
  rw [h5]
  unfold checkReminder
  dsimp only
  split_ifs with c1 c2
  · simp [has_add, c1.1, c1.2.1, c1.2.2.1, c1.2.2.2]
  · refine ⟨fun hh => ?_, fun hh => absurd hh c1⟩
    simp at hh
  · refine ⟨fun hh => ?_, fun hh => absurd hh c1⟩
    simp at hh

theorem warning_tier_fires_iff_witness :
    ((([sampleReminder].map (fun x => x.id)).Nodup ∧ sampleReminder ∈ [sampleReminder])
      ∧ (((sampleReminder.id, Effect.playNotificationSound "reminder")
            ∈ (checkReminders 0 { reminders := [sampleReminder], hasPlayedSound := [] }).log
          ∧ (sampleReminder.id, Effect.fetchNotify sampleReminder.id)
            ∈ (checkReminders 0 { reminders := [sampleReminder], hasPlayedSound := [] }).log
          ∧ JSSet.has (checkReminders 0
              { reminders := [sampleReminder], hasPlayedSound := [] }).client.hasPlayedSound
              (tierKey sampleReminder.id "5min") = true)
        ↔ (0 < sampleReminder.date_time - 0 ∧ sampleReminder.date_time - 0 ≤ 300000
            ∧ sampleReminder.notified = false
            ∧ JSSet.has [] (tierKey sampleReminder.id "5min") = false))) :=
  ⟨⟨by decide, by decide⟩,
    warning_tier_fires_iff 0 [] [sampleReminder] sampleReminder (by decide) (by decide)⟩

/-- C2. For every instant `now`, every fired-tier set and every reminder `r` of a list with
distinct ids, `checkReminders` fires the due tier for `r` (plays the 'urgent' tone, issues the
notify call, has the key of `r`'s due tier in `hasPlayedSound` afterwards) if and only if
`-60000 < r.date_time - now ≤ 0` and that key was not in `hasPlayedSound` before. Neither
`r.notified` nor the key of the warning tier occurs in the condition. -/
theorem due_tier_fires_iff (now : Int) (hasPlayedSound : JSSet) (reminders : List Reminder)
    (r : Reminder) (hnd : (reminders.map (fun x => x.id)).Nodup) (hr : r ∈ reminders) :
    ((r.id, Effect.playNotificationSound "urgent")
          ∈ (checkReminders now { reminders := reminders, hasPlayedSound := hasPlayedSound }).log
        ∧ (r.id, Effect.fetchNotify r.id)
          ∈ (checkReminders now { reminders := reminders, hasPlayedSound := hasPlayedSound }).log
        ∧ JSSet.has (checkReminders now
            { reminders := reminders, hasPlayedSound := hasPlayedSound }).client.hasPlayedSound
            (tierKey r.id "now") = true)
      ↔ (-60000 < r.date_time - now ∧ r.date_time - now ≤ 0
          ∧ JSSet.has hasPlayedSound (tierKey r.id "now") = false) := by
  rw [checkReminders_mem_log now reminders hasPlayedSound r hnd hr,
    checkReminders_mem_log now reminders hasPlayedSound r hnd hr]
  have hn := (forEach_own now reminders hasPlayedSound r hnd hr).2.2.2
  show _ ∧ _ ∧ JSSet.has (forEachReminder now reminders hasPlayedSound).client.hasPlayedSound
    (tierKey r.id "now") = true ↔ _
  rw [hn]
  unfold checkReminder
  dsimp only
  split_ifs with c1 c2
  · refine ⟨fun hh => ?_, fun hh => ?_⟩
    · simp at hh
    · have := c1.1
      have := hh.2.1
      omega
  · simp [has_add, c2.1, c2.2.1, c2.2.2]
  · refine ⟨fun hh => ?_, fun hh => absurd hh c2⟩
    simp at hh

theorem due_tier_fires_iff_witness :
    ((([sampleReminder].map (fun x => x.id)).Nodup ∧ sampleReminder ∈ [sampleReminder])
      ∧ (((sampleReminder.id, Effect.playNotificationSound "urgent")
            ∈ (checkReminders 10000 { reminders := [sampleReminder], hasPlayedSound := [] }).log
          ∧ (sampleReminder.id, Effect.fetchNotify sampleReminder.id)
            ∈ (checkReminders 10000 { reminders := [sampleReminder], hasPlayedSound := [] }).log
          ∧ JSSet.has (checkReminders 10000
              { reminders := [sampleReminder], hasPlayedSound := [] }).client.hasPlayedSound
              (tierKey sampleReminder.id "now") = true)
        ↔ (-60000 < sampleReminder.date_time - 10000 ∧ sampleReminder.date_time - 10000 ≤ 0
            ∧ JSSet.has [] (tierKey sampleReminder.id "now") = false))) :=
  ⟨⟨by decide, by decide⟩,
    due_tier_fires_iff 10000 [] [sampleReminder] sampleReminder (by decide) (by decide)⟩

/-! ## Scenarios over successive ticks -/

/-- C3, counterexample. The reminder with id 1 is due 10 seconds after the first tick, is not
notified and has no tier recorded; with ticks at 0 and 60000 the first tick records the key of
its 5-minute tier, and only the second one records the key of its due tier. -/
theorem short_fuse_records_warning :
    sampleReminder.notified = false ∧ sampleReminder.date_time = 0 + 10000
      ∧ sampleClient.hasPlayedSound = []
      ∧ (runTicks [0, 60000] sampleClient).map (fun t => t.client.hasPlayedSound)
          = [[tierKey 1 "5min"], [tierKey 1 "5min", tierKey 1 "now"]]
      ∧ ¬ (∀ t ∈ runTicks [0, 60000] sampleClient,
            JSSet.has t.client.hasPlayedSound (tierKey 1 "5min") = false) := by
  decide

/-- C3, amended. A reminder never seen before (not notified, no tier recorded) whose
`date_time` is 10 seconds after the first tick, with the next tick 60 seconds later: the first
tick fires the warning tier and records its key only, the second tick fires the due tier and
records its key; the reminder goes from unseen to warned to fired. -/
theorem short_fuse_warned_then_fired (t0 : Int) (c : Client) (r : Reminder) (later : List Int)
    (hnd : (c.reminders.map (fun x => x.id)).Nodup) (hr : r ∈ c.reminders)
    (hn : r.notified = false)
    (h5 : JSSet.has c.hasPlayedSound (tierKey r.id "5min") = false)
    (hnow : JSSet.has c.hasPlayedSound (tierKey r.id "now") = false)
    (hdt : r.date_time = t0 + 10000) :
    runTicks (t0 :: (t0 + 60000) :: later) c
        = checkReminders t0 c :: checkReminders (t0 + 60000) (checkReminders t0 c).client
            :: runTicks later (checkReminders (t0 + 60000) (checkReminders t0 c).client).client
      ∧ (r.id, Effect.playNotificationSound "reminder") ∈ (checkReminders t0 c).log
      ∧ (r.id, Effect.playNotificationSound "urgent") ∉ (checkReminders t0 c).log
      ∧ JSSet.has (checkReminders t0 c).client.hasPlayedSound (tierKey r.id "5min") = true
      ∧ JSSet.has (checkReminders t0 c).client.hasPlayedSound (tierKey r.id "now") = false
      ∧ (r.id, Effect.playNotificationSound "urgent")
          ∈ (checkReminders (t0 + 60000) (checkReminders t0 c).client).log
      ∧ JSSet.has (checkReminders (t0 + 60000) (checkReminders t0 c).client).client.hasPlayedSound
          (tierKey r.id "5min") = true
      ∧ JSSet.has (checkReminders (t0 + 60000) (checkReminders t0 c).client).client.hasPlayedSound
          (tierKey r.id "now") = true := by
  obtain ⟨rs, h⟩ := c
  simp only at hnd hr h5 hnow
  have w := checkReminder_warning t0 h r ⟨by omega, by omega, hn, h5⟩
  obtain ⟨_, o2, o3, o4⟩ := forEach_own t0 rs h r hnd hr
  have m1 := checkReminders_mem_log t0 rs h r hnd hr
  have k5 : JSSet.has (checkReminders t0 ⟨rs, h⟩).client.hasPlayedSound (tierKey r.id "5min")
      = true := by
    show JSSet.has (forEachReminder t0 rs h).client.hasPlayedSound _ = true
    rw [o3, w.2.2, has_add]; simp
  have kn : JSSet.has (checkReminders t0 ⟨rs, h⟩).client.hasPlayedSound (tierKey r.id "now")
      = false := by
    show JSSet.has (forEachReminder t0 rs h).client.hasPlayedSound _ = false
    rw [o4, w.2.2, has_add, hnow]
    simpa using (tierKey_5min_ne_now r.id r.id).symm
  have hnd2 := checkReminders_nodup t0 ⟨rs, h⟩ hnd
  have hr2 : ({ r with notified := true } : Reminder)
      ∈ (checkReminders t0 ⟨rs, h⟩).client.reminders := by
    rw [← w.2.1]; exact o2
  have d := checkReminder_due (t0 + 60000) (checkReminders t0 ⟨rs, h⟩).client.hasPlayedSound
    { r with notified := true } ⟨by simp only; omega, by simp only; omega, kn⟩
  obtain ⟨_, _, p3, p4⟩ := forEach_own (t0 + 60000) (checkReminders t0 ⟨rs, h⟩).client.reminders
    (checkReminders t0 ⟨rs, h⟩).client.hasPlayedSound _ hnd2 hr2
  have m2 := checkReminders_mem_log (t0 + 60000) (checkReminders t0 ⟨rs, h⟩).client.reminders
    (checkReminders t0 ⟨rs, h⟩).client.hasPlayedSound _ hnd2 hr2
  refine ⟨rfl, ?_, ?_, k5, kn, ?_, ?_, ?_⟩
  · rw [m1, w.1]; simp
  · rw [m1, w.1]; simp
  · exact (m2 _).mpr (by rw [d.1]; simp)
  · exact forEach_has_mono _ _ _ _ k5
  · show JSSet.has (forEachReminder _ _ _).client.hasPlayedSound _ = true
    rw [p4, d.2.2, has_add]; simp

theorem short_fuse_warned_then_fired_witness :
    (([sampleReminder].map (fun x => x.id)).Nodup ∧ sampleReminder ∈ sampleClient.reminders
        ∧ sampleReminder.notified = false
        ∧ JSSet.has sampleClient.hasPlayedSound (tierKey sampleReminder.id "5min") = false
        ∧ JSSet.has sampleClient.hasPlayedSound (tierKey sampleReminder.id "now") = false
        ∧ sampleReminder.date_time = 0 + 10000)
      ∧ (sampleReminder.id, Effect.playNotificationSound "reminder")
          ∈ (checkReminders 0 sampleClient).log
      ∧ (sampleReminder.id, Effect.playNotificationSound "urgent")
          ∈ (checkReminders (0 + 60000) (checkReminders 0 sampleClient).client).log :=
  have w := short_fuse_warned_then_fired 0 sampleClient sampleReminder []
    (by decide) (by decide) (by decide) (by decide) (by decide) (by decide)
  ⟨by decide, w.2.1, w.2.2.2.2.2.1⟩

/-- C4, the code at the failing input. With the keys of both tiers of reminder 7 recorded, a
confirmed and successful `deleteReminder(7)` leaves both keys in `hasPlayedSound`: the member
it deletes is the number 7, which the set never holds. -/
theorem deleteReminder_keeps_tier_keys :
    (deleteReminder true true (some [])
        7 { reminders := [], hasPlayedSound := [tierKey 7 "5min", tierKey 7 "now"] }).hasPlayedSound
      = [tierKey 7 "5min", tierKey 7 "now"] := by
  decide

/-- C5. A reminder `r` of a list with distinct ids whose `date_time` is 30 seconds before the
first tick and whose due tier is not yet recorded: over the first tick and any further ticks
(at whatever instants, so in particular at non-decreasing ones), the number of times each
tick fires the due tier for `r` is 1 for the first tick and 0 for every later one, whether
the later tick is still inside the window or has `delta ≤ -60000`. -/
theorem due_tier_fires_exactly_once (t0 : Int) (c : Client) (r : Reminder) (later : List Int)
    (hnd : (c.reminders.map (fun x => x.id)).Nodup) (hr : r ∈ c.reminders)
    (hnow : JSSet.has c.hasPlayedSound (tierKey r.id "now") = false)
    (hdt : r.date_time = t0 - 30000) :
    (runTicks (t0 :: later) c).map
        (fun t => t.log.count (r.id, Effect.playNotificationSound "urgent"))
      = 1 :: List.replicate later.length 0 := by
  have d := checkReminder_due t0 c.hasPlayedSound r ⟨by omega, by omega, hnow⟩
  have hcount := checkReminders_count t0 c r hnd hr (Effect.playNotificationSound "urgent")
  have hk : JSSet.has (checkReminders t0 c).client.hasPlayedSound (tierKey r.id "now") = true := by
    show JSSet.has (forEachReminder t0 c.reminders c.hasPlayedSound).client.hasPlayedSound _ = true
    rw [(forEach_own t0 c.reminders c.hasPlayedSound r hnd hr).2.2.2, d.2.2, has_add]
    simp
  simp only [runTicks, List.map_cons]
  rw [runTicks_due_counts r.id later _ hk, hcount, d.1]
  simp

theorem due_tier_fires_exactly_once_witness :
    (([sampleReminder].map (fun x => x.id)).Nodup ∧ sampleReminder ∈ sampleClient.reminders
        ∧ JSSet.has sampleClient.hasPlayedSound (tierKey sampleReminder.id "now") = false
        ∧ sampleReminder.date_time = 40000 - 30000)
      ∧ (runTicks (40000 :: [50000, 69999, 70000, 200000]) sampleClient).map
          (fun t => t.log.count (sampleReminder.id, Effect.playNotificationSound "urgent"))
        = 1 :: List.replicate [50000, 69999, 70000, 200000].length 0 :=
  ⟨by decide, due_tier_fires_exactly_once 40000 sampleClient sampleReminder
    [50000, 69999, 70000, 200000] (by decide) (by decide) (by decide) (by decide)⟩

/-- C6. A reminder `r` of a list with distinct ids that is not notified, has its warning tier
not yet recorded and whose `date_time` is 4 minutes after a tick: over that tick and any
further ticks, the number of times each tick fires the warning tier for `r` is 1 for that
tick and 0 for every later one, in particular for those still inside `0 < delta ≤ 300000`. -/
theorem warning_tier_fires_once (t0 : Int) (c : Client) (r : Reminder) (later : List Int)
    (hnd : (c.reminders.map (fun x => x.id)).Nodup) (hr : r ∈ c.reminders)
    (hn : r.notified = false)
    (h5 : JSSet.has c.hasPlayedSound (tierKey r.id "5min") = false)
    (hdt : r.date_time = t0 + 240000) :
    (runTicks (t0 :: later) c).map
        (fun t => t.log.count (r.id, Effect.playNotificationSound "reminder"))
      = 1 :: List.replicate later.length 0 := by
  have w := checkReminder_warning t0 c.hasPlayedSound r ⟨by omega, by omega, hn, h5⟩
  have hcount := checkReminders_count t0 c r hnd hr (Effect.playNotificationSound "reminder")
  have hk : JSSet.has (checkReminders t0 c).client.hasPlayedSound (tierKey r.id "5min")
      = true := by
    show JSSet.has (forEachReminder t0 c.reminders c.hasPlayedSound).client.hasPlayedSound _ = true
    rw [(forEach_own t0 c.reminders c.hasPlayedSound r hnd hr).2.2.1, w.2.2, has_add]
    simp
  simp only [runTicks, List.map_cons]
  rw [runTicks_warning_counts r.id later _ hk, hcount, w.1]
  simp

theorem warning_tier_fires_once_witness :
    (([sampleReminder].map (fun x => x.id)).Nodup ∧ sampleReminder ∈ sampleClient.reminders
        ∧ sampleReminder.notified = false
        ∧ JSSet.has sampleClient.hasPlayedSound (tierKey sampleReminder.id "5min") = false
        ∧ sampleReminder.date_time = -230000 + 240000)
      ∧ (runTicks (-230000 :: [-170000, -110000, -50000, 9999]) sampleClient).map
          (fun t => t.log.count (sampleReminder.id, Effect.playNotificationSound "reminder"))
        = 1 :: List.replicate [-170000, -110000, -50000, 9999].length 0 :=
  ⟨by decide, warning_tier_fires_once (-230000) sampleClient sampleReminder
    [-170000, -110000, -50000, 9999] (by decide) (by decide) (by decide) (by decide) (by decide)⟩

/-! ## The record store -/

theorem sqlParam_of_truthy (v : JSVal) (h : v.truthy = true) : sqlParam v = v := by
  cases v <;> simp_all [sqlParam, JSVal.truthy]

theorem sqlParam_or_null (v : JSVal) :
    sqlParam (v.or .null) = if v.truthy then v else .null := by
  unfold JSVal.or
  split_ifs with h
  · exact sqlParam_of_truthy v h
  · rfl

theorem sqlParam_or_null_ne (v : JSVal) (h : v.truthy = true) :
    sqlParam (v.or .null) ≠ .null := by
  rw [sqlParam_or_null, if_pos h]
  intro e
  rw [e] at h
  simp [JSVal.truthy] at h

theorem select_inserted {α : Type} (getId : α → Nat) (rows : List α) (n : Nat) (x : α)
    (hlt : ∀ r ∈ rows, getId r < n) (hx : getId x = n) :
    (rows ++ [x]).filter (fun r => getId r == n) = [x] := by
  rw [List.filter_append]
  have h1 : rows.filter (fun r => getId r == n) = [] := by
    rw [List.filter_eq_nil_iff]
    intro r hr
    have := hlt r hr
    simp only [beq_iff_eq]
    omega
  rw [h1]
  simp [hx]

theorem idsBelowNext_empty {α : Type} (getId : α → Nat) :
    (emptyTable α).idsBelowNext getId := by
  intro r hr
  exact absurd hr (List.not_mem_nil r)

theorem idsBelowNext_insert {α : Type} (getId : α → Nat) (t : Table α) (mk : Nat → α)
    (hmk : ∀ n, getId (mk n) = n) (h : t.idsBelowNext getId) :
    (t.insert mk).2.idsBelowNext getId := by
  intro r hr
  simp only [Table.insert, List.mem_append, List.mem_singleton] at hr ⊢
  rcases hr with hr | rfl
  · exact Nat.lt_succ_of_lt (h r hr)
  · rw [hmk]; exact Nat.lt_succ_self _

theorem idsBelowNext_delete {α : Type} (getId : α → Nat) (t : Table α) (p : α → Bool)
    (h : t.idsBelowNext getId) :
    (t.delete p).2.idsBelowNext getId := by
  intro r hr
  exact h r (List.mem_filter.mp hr).1

theorem vitalsInvariant_empty (n : Nat) : vitalsInvariant { rows := [], nextId := n } = true := by
  rfl

theorem vitals_post_preserves (now : Int) (err : Bool) (t : Table Vital) (body : VitalBody)
    (h : vitalsInvariant t = true) :
    vitalsInvariant (vitals_post now err t body).2 = true := by
  unfold vitals_post
  split_ifs with hv he
  · exact h
  · exact h
  · simp only [vitalsInvariant, Table.insert, List.all_append, List.all_cons, List.all_nil,
      Bool.and_true, Bool.and_eq_true]
    refine ⟨h, ?_⟩
    simp only [Bool.and_eq_true, Bool.not_eq_true', not_and, Bool.not_eq_false] at hv
    simp only [Vital.hasMeasurement, Bool.or_eq_true, bne_iff_ne]
    by_cases h1 : body.blood_pressure.truthy = true
    · exact Or.inl (Or.inl (Or.inl (sqlParam_or_null_ne _ h1)))
    · by_cases h2 : body.heart_rate.truthy = true
      · exact Or.inl (Or.inl (Or.inr (sqlParam_or_null_ne _ h2)))
      · by_cases h3 : body.temperature.truthy = true
        · exact Or.inl (Or.inr (sqlParam_or_null_ne _ h3))
        · exact Or.inr (sqlParam_or_null_ne _
            (hv ⟨⟨by simpa using h1, by simpa using h2⟩, by simpa using h3⟩))

theorem vitals_delete_preserves (err : Bool) (t : Table Vital) (id : Nat)
    (h : vitalsInvariant t = true) :
    vitalsInvariant (vitals_delete_id err t id).2 = true := by
  have hd : vitalsInvariant (t.delete (fun r => r.id == id)).2 = true := by
    simp only [vitalsInvariant, Table.delete, List.all_eq_true] at h ⊢
    intro v hv
    exact h v (List.mem_filter.mp hv).1
  unfold vitals_delete_id
  dsimp only
  split_ifs
  · exact h
  · exact hd
  · exact hd

/-- C7, the code at the failing input. The vitals collection holds one record with a blood
pressure reading, so every record has a measurement; `PUT /api/vitals/1` with an empty body
answers 200 and leaves that record with all four measurements `NULL`. -/
theorem vitals_put_stores_empty_record :
    vitalsInvariant sampleVitals = true
      ∧ (vitals_put_id false sampleVitals 1
          { blood_pressure := .undefined, heart_rate := .undefined, temperature := .undefined,
            blood_sugar := .undefined }).1.status = 200
      ∧ (vitals_put_id false sampleVitals 1
          { blood_pressure := .undefined, heart_rate := .undefined, temperature := .undefined,
            blood_sugar := .undefined }).2.rows
          = [{ id := 1, blood_pressure := .null, heart_rate := .null, temperature := .null,
               blood_sugar := .null, recorded_date := 0 }]
      ∧ vitalsInvariant (vitals_put_id false sampleVitals 1
          { blood_pressure := .undefined, heart_rate := .undefined, temperature := .undefined,
            blood_sugar := .undefined }).2 = false := by
  decide

/-- C10. For every request to create a vital record in which blood_pressure, heart_rate,
temperature and blood_sugar are each null or absent, `POST /api/vitals` answers 400 with an
error body and leaves the vitals collection as it was (whatever the clock and the state of
the storage layer). -/
theorem vitals_post_rejects_empty (now : Int) (err : Bool) (t : Table Vital) (body : VitalBody)
    (h1 : body.blood_pressure.nullOrAbsent) (h2 : body.heart_rate.nullOrAbsent)
    (h3 : body.temperature.nullOrAbsent) (h4 : body.blood_sugar.nullOrAbsent) :
    vitals_post now err t body
      = ({ status := 400, body := .error "At least one vital sign is required" }, t) := by
  unfold vitals_post
  rcases h1 with h1 | h1 <;> rcases h2 with h2 | h2 <;> rcases h3 with h3 | h3 <;>
    rcases h4 with h4 | h4 <;> simp [h1, h2, h3, h4, JSVal.truthy]

theorem vitals_post_rejects_empty_witness :
    vitals_post 0 false sampleVitals
        { blood_pressure := .null, heart_rate := .undefined, temperature := .null,
          blood_sugar := .undefined }
      = ({ status := 400, body := .error "At least one vital sign is required" }, sampleVitals) :=
  vitals_post_rejects_empty 0 false sampleVitals _ (Or.inl rfl) (Or.inr rfl) (Or.inl rfl)
    (Or.inr rfl)

/-- C8, counterexample. An accepted reminder with notes `""` reads back with notes `NULL`,
and an accepted vital record with heart_rate 0 and temperature 98.6 reads back with
heart_rate `NULL`. -/
theorem create_then_get_loses_falsy_values :
    (reminders_post false (emptyTable ReminderRow) sampleReminderBody).1
        = { status := 201, body := .created "Reminder added successfully" 1 }
      ∧ reminders_get_id false (reminders_post false (emptyTable ReminderRow) sampleReminderBody).2 1
        = { status := 200
            body := .record { id := 1, title := .str "Checkup",
                              date_time := .str "2025-01-01T10:00", notes := .null,
                              notified := .bool false } }
      ∧ sampleReminderBody.notes ≠ .null
      ∧ (vitals_post 0 false (emptyTable Vital) sampleVitalBody).1
        = { status := 201, body := .created "Vital signs recorded successfully" 1 }
      ∧ vitals_get_id false (vitals_post 0 false (emptyTable Vital) sampleVitalBody).2 1
        = { status := 200
            body := .record { id := 1, blood_pressure := .null, heart_rate := .null,
                              temperature := .num 98.6, blood_sugar := .null,
                              recorded_date := 0 } }
      ∧ sampleVitalBody.heart_rate ≠ .null := by
  refine ⟨by decide, by decide, by decide, ?_, ?_, by decide⟩ <;>
    norm_num [vitals_post, vitals_get_id, emptyTable, sampleVitalBody, Table.insert,
      Table.select, JSVal.truthy, JSVal.or, sqlParam]

/-- C8, amended. For each of the four collections, whenever the POST handler accepts a
creation request (201; the id it returns is the collection's next identifier), GET by that id
answers 200 with a record in which every required field equals the value in the request body,
and every optional field (reminder notes, appointment location, each vitals measurement)
equals the submitted value when that value is truthy and is `NULL` when it is falsy (absent,
null, `""`, 0 or false). -/
theorem create_then_get_round_trip :
    (∀ (err : Bool) (t : Table Medication) (body : MedicationBody),
        t.idsBelowNext (fun r => r.id) → (medications_post err t body).1.status = 201 →
          (medications_post err t body).1.body = .created "Medication added successfully" t.nextId
            ∧ medications_get_id false (medications_post err t body).2 t.nextId
              = { status := 200
                  body := .record { id := t.nextId, name := body.name, dosage := body.dosage,
                                    frequency := body.frequency, time := body.time,
                                    taken := .bool false } })
      ∧ (∀ (err : Bool) (t : Table ReminderRow) (body : ReminderBody),
        t.idsBelowNext (fun r => r.id) → (reminders_post err t body).1.status = 201 →
          (reminders_post err t body).1.body = .created "Reminder added successfully" t.nextId
            ∧ reminders_get_id false (reminders_post err t body).2 t.nextId
              = { status := 200
                  body := .record { id := t.nextId, title := body.title,
                                    date_time := body.date_time,
                                    notes := if body.notes.truthy then body.notes else .null,
                                    notified := .bool false } })
      ∧ (∀ (now : Int) (err : Bool) (t : Table Vital) (body : VitalBody),
        t.idsBelowNext (fun r => r.id) → (vitals_post now err t body).1.status = 201 →
          (vitals_post now err t body).1.body
              = .created "Vital signs recorded successfully" t.nextId
            ∧ vitals_get_id false (vitals_post now err t body).2 t.nextId
              = { status := 200
                  body := .record
                    { id := t.nextId
                      blood_pressure :=
                        if body.blood_pressure.truthy then body.blood_pressure else .null
                      heart_rate := if body.heart_rate.truthy then body.heart_rate else .null
                      temperature := if body.temperature.truthy then body.temperature else .null
                      blood_sugar := if body.blood_sugar.truthy then body.blood_sugar else .null
                      recorded_date := now } })
      ∧ (∀ (err : Bool) (t : Table Appointment) (body : AppointmentBody),
        t.idsBelowNext (fun r => r.id) → (appointments_post err t body).1.status = 201 →
          (appointments_post err t body).1.body
              = .created "Appointment scheduled successfully" t.nextId
            ∧ appointments_get_id false (appointments_post err t body).2 t.nextId
              = { status := 200
                  body := .record
                    { id := t.nextId, doctor := body.doctor, type := body.type,
                      date_time := body.date_time,
                      location := if body.location.truthy then body.location else .null } }) := by
  refine ⟨?_, ?_, ?_, ?_⟩
  · intro err t body hwf h201
    unfold medications_post at h201 ⊢
    by_cases hv : (!body.name.truthy || !body.dosage.truthy || !body.frequency.truthy
        || !body.time.truthy) = true
    · rw [if_pos hv] at h201; simp at h201
    · rw [if_neg hv] at h201 ⊢
      cases err
      · simp only [Bool.or_eq_true, Bool.not_eq_true', not_or, Bool.not_eq_false] at hv
        obtain ⟨⟨⟨h1, h2⟩, h3⟩, h4⟩ := hv
        refine ⟨rfl, ?_⟩
        simp only [medications_get_id, Table.select, Table.insert, Bool.false_eq_true, if_false]
        rw [select_inserted (fun r : Medication => r.id) t.rows t.nextId _ hwf rfl]
        simp only [sqlParam_of_truthy _ h1, sqlParam_of_truthy _ h2, sqlParam_of_truthy _ h3,
          sqlParam_of_truthy _ h4]
      · simp at h201
  · intro err t body hwf h201
    unfold reminders_post at h201 ⊢
    by_cases hv : (!body.title.truthy || !body.date_time.truthy) = true
    · rw [if_pos hv] at h201; simp at h201
    · rw [if_neg hv] at h201 ⊢
      cases err
      · simp only [Bool.or_eq_true, Bool.not_eq_true', not_or, Bool.not_eq_false] at hv
        obtain ⟨h1, h2⟩ := hv
        refine ⟨rfl, ?_⟩
        simp only [reminders_get_id, Table.select, Table.insert, Bool.false_eq_true, if_false]
        rw [select_inserted (fun r : ReminderRow => r.id) t.rows t.nextId _ hwf rfl]
        simp only [sqlParam_of_truthy _ h1, sqlParam_of_truthy _ h2, sqlParam_or_null]
      · simp at h201
  · intro now err t body hwf h201
    unfold vitals_post at h201 ⊢
    by_cases hv : (!body.blood_pressure.truthy && !body.heart_rate.truthy
        && !body.temperature.truthy && !body.blood_sugar.truthy) = true
    · rw [if_pos hv] at h201; simp at h201
    · rw [if_neg hv] at h201 ⊢
      cases err
      · refine ⟨rfl, ?_⟩
        simp only [vitals_get_id, Table.select, Table.insert, Bool.false_eq_true, if_false]
        rw [select_inserted (fun r : Vital => r.id) t.rows t.nextId _ hwf rfl]
        simp only [sqlParam_or_null]
      · simp at h201
  · intro err t body hwf h201
    unfold appointments_post at h201 ⊢
    by_cases hv : (!body.doctor.truthy || !body.type.truthy || !body.date_time.truthy) = true
    · rw [if_pos hv] at h201; simp at h201
    · rw [if_neg hv] at h201 ⊢
      cases err
      · simp only [Bool.or_eq_true, Bool.not_eq_true', not_or, Bool.not_eq_false] at hv
        obtain ⟨⟨h1, h2⟩, h3⟩ := hv
        refine ⟨rfl, ?_⟩
        simp only [appointments_get_id, Table.select, Table.insert, Bool.false_eq_true, if_false]
        rw [select_inserted (fun r : Appointment => r.id) t.rows t.nextId _ hwf rfl]
        simp only [sqlParam_of_truthy _ h1, sqlParam_of_truthy _ h2, sqlParam_of_truthy _ h3,
          sqlParam_or_null]
      · simp at h201

theorem create_then_get_round_trip_witness :
    (emptyTable Medication).idsBelowNext (fun r => r.id)
      ∧ (medications_post false (emptyTable Medication) filledMedicationBody).1.status = 201
      ∧ medications_get_id false
          (medications_post false (emptyTable Medication) filledMedicationBody).2 1
        = { status := 200
            body := .record { id := 1, name := .str "Aspirin", dosage := .str "10mg",
                              frequency := .str "daily", time := .str "08:00",
                              taken := .bool false } } :=
  ⟨fun r hr => absurd hr (List.not_mem_nil r), by decide,
    (create_then_get_round_trip.1 false (emptyTable Medication) filledMedicationBody
      (fun r hr => absurd hr (List.not_mem_nil r)) (by decide)).2⟩

/-- C9, counterexample. A medication creation request in which all four required fields are
present (none is absent or null) but the name is the empty string is rejected with 400. -/
theorem post_rejects_present_empty_name :
    (sampleMedicationBody.name ≠ .undefined ∧ sampleMedicationBody.name ≠ .null)
      ∧ (sampleMedicationBody.dosage ≠ .undefined ∧ sampleMedicationBody.dosage ≠ .null)
      ∧ (sampleMedicationBody.frequency ≠ .undefined ∧ sampleMedicationBody.frequency ≠ .null)
      ∧ (sampleMedicationBody.time ≠ .undefined ∧ sampleMedicationBody.time ≠ .null)
      ∧ medications_post false (emptyTable Medication) sampleMedicationBody
        = ({ status := 400, body := .error "All fields are required" },
            emptyTable Medication) := by
  decide

/-- C9, amended. Creation of a medication (required: name, dosage, frequency, time), a
reminder (required: title, date_time) or an appointment (required: doctor, type, date_time)
is rejected with status 400 exactly when at least one required field is falsy (absent, null,
`""`, 0 or false), and then nothing is inserted; otherwise, when the storage layer reports no
error, one record is inserted and the answer is 201 with the new id. The optional fields
(reminder notes, appointment location) do not affect the status. -/
theorem post_rejects_iff_required_falsy :
    (∀ (err : Bool) (t : Table Medication) (body : MedicationBody),
        ((medications_post err t body).1.status = 400
            ↔ (body.name.truthy = false ∨ body.dosage.truthy = false
                ∨ body.frequency.truthy = false ∨ body.time.truthy = false))
          ∧ ((medications_post err t body).1.status = 400 → (medications_post err t body).2 = t)
          ∧ (¬ (body.name.truthy = false ∨ body.dosage.truthy = false
                ∨ body.frequency.truthy = false ∨ body.time.truthy = false) → err = false →
              medications_post err t body
                = ({ status := 201, body := .created "Medication added successfully" t.nextId },
                    { rows := t.rows ++ [{ id := t.nextId, name := body.name,
                                           dosage := body.dosage, frequency := body.frequency,
                                           time := body.time, taken := .bool false }]
                      nextId := t.nextId + 1 })))
      ∧ (∀ (err : Bool) (t : Table ReminderRow) (body : ReminderBody),
        ((reminders_post err t body).1.status = 400
            ↔ (body.title.truthy = false ∨ body.date_time.truthy = false))
          ∧ ((reminders_post err t body).1.status = 400 → (reminders_post err t body).2 = t)
          ∧ (¬ (body.title.truthy = false ∨ body.date_time.truthy = false) → err = false →
              reminders_post err t body
                = ({ status := 201, body := .created "Reminder added successfully" t.nextId },
                    { rows := t.rows ++ [{ id := t.nextId, title := body.title,
                                           date_time := body.date_time,
                                           notes := if body.notes.truthy then body.notes
                                                    else .null,
                                           notified := .bool false }]
                      nextId := t.nextId + 1 }))
          ∧ (∀ notes : JSVal,
              (reminders_post err t { body with notes := notes }).1.status
                = (reminders_post err t body).1.status))
      ∧ (∀ (err : Bool) (t : Table Appointment) (body : AppointmentBody),
        ((appointments_post err t body).1.status = 400
            ↔ (body.doctor.truthy = false ∨ body.type.truthy = false
                ∨ body.date_time.truthy = false))
          ∧ ((appointments_post err t body).1.status = 400 → (appointments_post err t body).2 = t)
          ∧ (¬ (body.doctor.truthy = false ∨ body.type.truthy = false
                ∨ body.date_time.truthy = false) → err = false →
              appointments_post err t body
                = ({ status := 201,
                     body := .created "Appointment scheduled successfully" t.nextId },
                    { rows := t.rows ++ [{ id := t.nextId, doctor := body.doctor,
                                           type := body.type, date_time := body.date_time,
                                           location := if body.location.truthy then body.location
                                                       else .null }]
                      nextId := t.nextId + 1 }))
          ∧ (∀ location : JSVal,
              (appointments_post err t { body with location := location }).1.status
                = (appointments_post err t body).1.status)) := by
  refine ⟨?_, ?_, ?_⟩
  · intro err t body
    unfold medications_post
    by_cases hv : (!body.name.truthy || !body.dosage.truthy || !body.frequency.truthy
        || !body.time.truthy) = true
    · rw [if_pos hv]
      simp only [Bool.or_eq_true, Bool.not_eq_true', or_assoc] at hv
      exact ⟨⟨fun _ => hv, fun _ => rfl⟩, fun _ => rfl, fun h => absurd hv h⟩
    · rw [if_neg hv]
      simp only [Bool.or_eq_true, Bool.not_eq_true', or_assoc] at hv
      refine ⟨⟨fun h => ?_, fun h => absurd h hv⟩, fun h => ?_, fun _ he => ?_⟩
      · cases err <;> simp at h
      · cases err <;> simp at h
      · subst he
        simp only [not_or, Bool.not_eq_false] at hv
        simp [Table.insert, sqlParam_of_truthy, hv]
  · intro err t body
    unfold reminders_post
    by_cases hv : (!body.title.truthy || !body.date_time.truthy) = true
    · rw [if_pos hv]
      simp only [Bool.or_eq_true, Bool.not_eq_true'] at hv
      exact ⟨⟨fun _ => hv, fun _ => rfl⟩, fun _ => rfl, fun h => absurd hv h,
        fun _ => by simp [hv]⟩
    · rw [if_neg hv]
      simp only [Bool.or_eq_true, Bool.not_eq_true'] at hv
      refine ⟨⟨fun h => ?_, fun h => absurd h hv⟩, fun h => ?_, fun _ he => ?_, fun _ => ?_⟩
      · cases err <;> simp at h
      · cases err <;> simp at h
      · subst he
        simp only [not_or, Bool.not_eq_false] at hv
        simp [Table.insert, sqlParam_of_truthy, sqlParam_or_null, hv]
      · simp only [not_or, Bool.not_eq_false] at hv
        cases err <;> simp [hv]
  · intro err t body
    unfold appointments_post
    by_cases hv : (!body.doctor.truthy || !body.type.truthy || !body.date_time.truthy) = true
    · rw [if_pos hv]
      simp only [Bool.or_eq_true, Bool.not_eq_true', or_assoc] at hv
      exact ⟨⟨fun _ => hv, fun _ => rfl⟩, fun _ => rfl, fun h => absurd hv h,
        fun _ => by rcases hv with h | h | h <;> simp [h]⟩
    · rw [if_neg hv]
      simp only [Bool.or_eq_true, Bool.not_eq_true', or_assoc] at hv
      refine ⟨⟨fun h => ?_, fun h => absurd h hv⟩, fun h => ?_, fun _ he => ?_, fun _ => ?_⟩
      · cases err <;> simp at h
      · cases err <;> simp at h
      · subst he
        simp only [not_or, Bool.not_eq_false] at hv
        simp [Table.insert, sqlParam_of_truthy, sqlParam_or_null, hv]
      · simp only [not_or, Bool.not_eq_false] at hv
        cases err <;> simp [hv]

theorem post_rejects_iff_required_falsy_witness :
    ¬ (filledMedicationBody.name.truthy = false ∨ filledMedicationBody.dosage.truthy = false
        ∨ filledMedicationBody.frequency.truthy = false
        ∨ filledMedicationBody.time.truthy = false)
      ∧ medications_post false (emptyTable Medication) filledMedicationBody
        = ({ status := 201, body := .created "Medication added successfully" 1 },
            { rows := [{ id := 1, name := .str "Aspirin", dosage := .str "10mg",
                         frequency := .str "daily", time := .str "08:00", taken := .bool false }]
              nextId := 2 }) :=
  ⟨by decide,
    (post_rejects_iff_required_falsy.1 false (emptyTable Medication) filledMedicationBody).2.2
      (by decide) rfl⟩

/-! ## Sessions, idempotence and reminders outside the windows -/

theorem runSession_fired (id : Nat) : ∀ (events : List Event) (c : Client),
    JSSet.has c.hasPlayedSound (tierKey id "now") = true →
      ∀ t ∈ runSession events c,
        JSSet.has t.client.hasPlayedSound (tierKey id "now") = true
          ∧ (id, Effect.playNotificationSound "urgent") ∉ t.log := by
  intro events
  induction events with
  | nil => intro c _ t ht; simp [runSession] at ht
  | cons e later ih =>
    intro c hk t ht
    have h1 : JSSet.has (e.apply c).client.hasPlayedSound (tierKey id "now") = true
        ∧ (id, Effect.playNotificationSound "urgent") ∉ (e.apply c).log := by
      cases e with
      | tick now =>
        exact ⟨forEach_has_mono now c.reminders c.hasPlayedSound _ hk,
          forEach_no_due now id c.reminders c.hasPlayedSound hk⟩
      | load fetched =>
        cases fetched with
        | none => exact ⟨hk, by simp [Event.apply]⟩
        | some rs => exact ⟨hk, by simp [Event.apply]⟩
    simp only [runSession, List.mem_cons] at ht
    rcases ht with rfl | ht
    · exact h1
    · exact ih _ h1.1 t ht

theorem quiet_checkReminder (now : Int) (h : JSSet) (r : Reminder) (hq : quiet now h r) :
    checkReminder now h r = { reminder := r, hasPlayedSound := h, calls := [] } := by
  unfold checkReminder
  dsimp only
  rw [if_neg hq.1, if_neg hq.2]

theorem quiet_mono (now : Int) (h g : JSSet) (r : Reminder) (hq : quiet now h r)
    (hsub : ∀ k, JSSet.has h k = true → JSSet.has g k = true) : quiet now g r := by
  refine ⟨fun c => hq.1 ⟨c.1, c.2.1, c.2.2.1, ?_⟩, fun c => hq.2 ⟨c.1, c.2.1, ?_⟩⟩
  · cases hh : JSSet.has h (tierKey r.id "5min")
    · rfl
    · have := hsub _ hh
      rw [c.2.2.2] at this
      cases this
  · cases hh : JSSet.has h (tierKey r.id "now")
    · rfl
    · have := hsub _ hh
      rw [c.2.2] at this
      cases this

theorem checkReminder_quiet (now : Int) (h : JSSet) (r : Reminder) :
    quiet now (checkReminder now h r).hasPlayedSound (checkReminder now h r).reminder := by
  unfold checkReminder
  dsimp only
  split_ifs with c1 c2
  · refine ⟨fun c => ?_, fun c => ?_⟩
    · simp at c
    · have := c1.1
      have := c.2.1
      simp only at this
      omega
  · refine ⟨fun c => c1 ⟨c.1, c.2.1, c.2.2.1, ?_⟩, fun c => ?_⟩
    · have := c.2.2.2
      rw [has_add] at this
      simp only [Bool.or_eq_false_iff] at this
      exact this.1
    · have := c.2.2
      rw [has_add] at this
      simp at this
  · exact ⟨c1, c2⟩

theorem forEach_quiet (now : Int) : ∀ (rs : List Reminder) (h : JSSet),
    ∀ r ∈ (forEachReminder now rs h).client.reminders,
      quiet now (forEachReminder now rs h).client.hasPlayedSound r := by
  intro rs
  induction rs with
  | nil => intro h r hr; simp [forEachReminder] at hr
  | cons x rs ih =>
    intro h r hr
    simp only [forEachReminder, List.mem_cons] at hr ⊢
    rcases hr with rfl | hr
    · exact quiet_mono now _ _ _ (checkReminder_quiet now h x)
        (fun k hk => forEach_has_mono now rs _ k hk)
    · exact ih _ r hr

theorem forEach_of_quiet (now : Int) : ∀ (rs : List Reminder) (h : JSSet),
    (∀ r ∈ rs, quiet now h r) →
      forEachReminder now rs h
        = { client := { reminders := rs, hasPlayedSound := h }, log := [] } := by
  intro rs
  induction rs with
  | nil => intro h _; rfl
  | cons x rs ih =>
    intro h hq
    simp only [forEachReminder, quiet_checkReminder now h x (hq x (List.mem_cons_self _ _)),
      ih h (fun r hr => hq r (List.mem_cons_of_mem _ hr)), List.map_nil, List.nil_append]

/-- C11. The fired-tier state only grows: every member of `hasPlayedSound` before a run of
`checkReminders` is a member after it; and once the key of the due tier of an id is recorded,
it stays recorded and the due tier does not fire for that id on any later tick of the session,
whatever the ticks' instants and whatever lists the reloads in between bring. -/
theorem fired_state_is_sticky :
    (∀ (now : Int) (c : Client) (k : JSVal), JSSet.has c.hasPlayedSound k = true →
        JSSet.has (checkReminders now c).client.hasPlayedSound k = true)
      ∧ (∀ (events : List Event) (c : Client) (id : Nat),
          JSSet.has c.hasPlayedSound (tierKey id "now") = true →
            ∀ t ∈ runSession events c,
              JSSet.has t.client.hasPlayedSound (tierKey id "now") = true
                ∧ (id, Effect.playNotificationSound "urgent") ∉ t.log) :=
  ⟨fun now c k hk => forEach_has_mono now c.reminders c.hasPlayedSound k hk,
    fun events c id hk => runSession_fired id events c hk⟩

theorem fired_state_is_sticky_witness :
    JSSet.has firedClient.hasPlayedSound (tierKey 1 "now") = true
      ∧ ∀ t ∈ runSession [.tick 10000, .load (some [sampleReminder]), .tick 20000] firedClient,
          JSSet.has t.client.hasPlayedSound (tierKey 1 "now") = true
            ∧ (1, Effect.playNotificationSound "urgent") ∉ t.log :=
  ⟨by decide, fired_state_is_sticky.2 _ firedClient 1 (by decide)⟩

/-- C14. A tick is idempotent: for every reminder list, fired-tier set and instant, a second
run of `checkReminders` at the same instant on the state the first run produced makes no call
(no sound, no notification, no notify call) and leaves the reminder list, with every
`notified` flag, and `hasPlayedSound` as they are. -/
theorem checkReminders_idempotent (now : Int) (c : Client) :
    checkReminders now (checkReminders now c).client
      = { client := (checkReminders now c).client, log := [] } := by
  show forEachReminder now (forEachReminder now c.reminders c.hasPlayedSound).client.reminders
      (forEachReminder now c.reminders c.hasPlayedSound).client.hasPlayedSound = _
  exact forEach_of_quiet now _ _ (forEach_quiet now c.reminders c.hasPlayedSound)

/-- C15. A reminder whose `delta = date_time - now` lies outside both windows
(`delta > 300000` or `delta ≤ -60000`): its callback makes no call and returns the reminder
and the set unchanged; and in a run of `checkReminders` over a list with distinct ids that
contains it, no call is made for it, its two tier keys are members of `hasPlayedSound`
afterwards exactly if they were before, and it is in the list afterwards unchanged. -/
theorem outside_windows_no_effect (now : Int) (r : Reminder)
    (hout : r.date_time - now > 300000 ∨ r.date_time - now ≤ -60000) :
    (∀ h : JSSet, checkReminder now h r = { reminder := r, hasPlayedSound := h, calls := [] })
      ∧ (∀ (reminders : List Reminder) (hasPlayedSound : JSSet),
          (reminders.map (fun x => x.id)).Nodup → r ∈ reminders →
            (∀ e : Effect, (r.id, e)
                ∉ (checkReminders now
                    { reminders := reminders, hasPlayedSound := hasPlayedSound }).log)
              ∧ JSSet.has (checkReminders now
                    { reminders := reminders, hasPlayedSound := hasPlayedSound }).client.hasPlayedSound
                  (tierKey r.id "5min") = JSSet.has hasPlayedSound (tierKey r.id "5min")
              ∧ JSSet.has (checkReminders now
                    { reminders := reminders, hasPlayedSound := hasPlayedSound }).client.hasPlayedSound
                  (tierKey r.id "now") = JSSet.has hasPlayedSound (tierKey r.id "now")
              ∧ r ∈ (checkReminders now
                    { reminders := reminders, hasPlayedSound := hasPlayedSound }).client.reminders) := by
  have hq : ∀ h : JSSet, quiet now h r := by
    intro h
    refine ⟨fun c => ?_, fun c => ?_⟩
    · have := c.1; have := c.2.1; omega
    · have := c.1; have := c.2.1; omega
  refine ⟨fun h => quiet_checkReminder now h r (hq h), ?_⟩
  intro reminders hasPlayedSound hnd hr
  have hcb := quiet_checkReminder now hasPlayedSound r (hq hasPlayedSound)
  obtain ⟨_, o2, o3, o4⟩ := forEach_own now reminders hasPlayedSound r hnd hr
  rw [hcb] at o2 o3 o4
  refine ⟨fun e => ?_, o3, o4, o2⟩
  rw [checkReminders_mem_log now reminders hasPlayedSound r hnd hr, hcb]
  simp

theorem outside_windows_no_effect_witness :
    (sampleReminder.date_time - (-300000) > 300000 ∨ sampleReminder.date_time - (-300000) ≤ -60000)
      ∧ checkReminder (-300000) [] sampleReminder
        = { reminder := sampleReminder, hasPlayedSound := [], calls := [] } :=
  ⟨by decide, (outside_windows_no_effect (-300000) sampleReminder (by decide)).1 []⟩

/-! ## Periodic ticks -/

theorem checkReminder_date_time (now : Int) (h : JSSet) (r : Reminder) :
    (checkReminder now h r).reminder.date_time = r.date_time := by
  unfold checkReminder
  dsimp only
  split_ifs <;> rfl

theorem checkReminder_before_due (now : Int) (h : JSSet) (r : Reminder)
    (hpos : 0 < r.date_time - now) :
    (checkReminder now h r).calls.count (Effect.playNotificationSound "urgent") = 0
      ∧ JSSet.has (checkReminder now h r).hasPlayedSound (tierKey r.id "now")
          = JSSet.has h (tierKey r.id "now") := by
  unfold checkReminder
  dsimp only
  split_ifs with c1 c2
  · refine ⟨List.count_eq_zero.mpr (by simp), ?_⟩
    have hne : tierKey r.id "now" ≠ tierKey r.id "5min" := (tierKey_5min_ne_now r.id r.id).symm
    rw [has_add]
    simp [hne]
  · have := c2.2.1
    omega
  · exact ⟨rfl, rfl⟩

theorem periodicTicks_succ (t0 : Int) (n : Nat) :
    periodicTicks t0 (n + 1) = t0 :: periodicTicks (t0 + 60000) n := by
  unfold periodicTicks
  rw [List.range_succ_eq_map, List.map_cons, List.map_map]
  refine congrArg₂ _ (by simp) (List.map_congr_left fun k _ => ?_)
  simp only [Function.comp_apply, Nat.cast_succ]
  ring

theorem periodic_due_counts (n : Nat) : ∀ (t0 : Int) (c : Client) (r : Reminder),
    (c.reminders.map (fun x => x.id)).Nodup → r ∈ c.reminders →
    JSSet.has c.hasPlayedSound (tierKey r.id "now") = false →
    -60000 < r.date_time - t0 →
      (runTicks (periodicTicks t0 n) c).map
          (fun t => t.log.count (r.id, Effect.playNotificationSound "urgent"))
        = (List.range n).map (fun j : Nat =>
            if -60000 < r.date_time - (t0 + 60000 * (j : Int))
                ∧ r.date_time - (t0 + 60000 * (j : Int)) ≤ 0 then 1 else 0) := by
  induction n with
  | zero => intro t0 c r _ _ _ _; rfl
  | succ n ih =>
    intro t0 c r hnd hr hnow hlow
    rw [periodicTicks_succ, List.range_succ_eq_map, List.map_cons, List.map_map]
    simp only [runTicks, List.map_cons]
    have hcount := checkReminders_count t0 c r hnd hr (Effect.playNotificationSound "urgent")
    obtain ⟨_, o2, _, o4⟩ := forEach_own t0 c.reminders c.hasPlayedSound r hnd hr
    by_cases hdue : r.date_time - t0 ≤ 0
    · have d := checkReminder_due t0 c.hasPlayedSound r ⟨hlow, hdue, hnow⟩
      have hk : JSSet.has (checkReminders t0 c).client.hasPlayedSound (tierKey r.id "now")
          = true := by
        show JSSet.has (forEachReminder t0 c.reminders c.hasPlayedSound).client.hasPlayedSound _
          = true
        rw [o4, d.2.2, has_add]
        simp
      rw [runTicks_due_counts r.id _ _ hk, hcount, d.1]
      refine congrArg₂ _ ?_ ?_
      · simp [hlow, hdue]
      · symm
        rw [List.eq_replicate_iff]
        refine ⟨by simp [periodicTicks], fun b hb => ?_⟩
        obtain ⟨j, _, rfl⟩ := List.mem_map.mp hb
        simp only [Function.comp_apply, Nat.cast_succ]
        rw [if_neg]
        intro hw
        have := hw.1
        have hj : (0 : Int) ≤ (j : Int) := Int.natCast_nonneg j
        omega
    · have hpos : 0 < r.date_time - t0 := by omega
      have b := checkReminder_before_due t0 c.hasPlayedSound r hpos
      have hk : JSSet.has (checkReminders t0 c).client.hasPlayedSound
          (tierKey (checkReminder t0 c.hasPlayedSound r).reminder.id "now") = false := by
        rw [checkReminder_id]
        show JSSet.has (forEachReminder t0 c.reminders c.hasPlayedSound).client.hasPlayedSound _
          = false
        rw [o4, b.2, hnow]
      have step := ih (t0 + 60000) (checkReminders t0 c).client
        (checkReminder t0 c.hasPlayedSound r).reminder (checkReminders_nodup t0 c hnd) o2 hk
        (by rw [checkReminder_date_time]; omega)
      rw [checkReminder_id, checkReminder_date_time] at step
      rw [step, hcount, b.1]
      refine congrArg₂ _ ?_ (List.map_congr_left fun j _ => ?_)
      · rw [if_neg]
        intro hw
        have := hw.2
        simp only [Nat.cast_zero, mul_zero, add_zero] at this
        omega
      · simp only [Function.comp_apply, Nat.cast_succ]
        have e : t0 + 60000 + 60000 * (j : Int) = t0 + 60000 * ((j : Int) + 1) := by ring
        rw [e]

/-- C12. With ticks at `t0`, `t0 + 60000`, `t0 + 120000`, ... and a reminder `r` of a list
with distinct ids that has `t0 ≤ date_time` and no due tier recorded initially, there is
exactly one tick index `k` whose instant falls inside the due window
`-60000 < date_time - now ≤ 0`, and over the first `n` ticks, for every `n`, the due tier
fires for `r` once on tick `k` and on no other tick. -/
theorem due_tier_fires_on_one_periodic_tick (t0 : Int) (c : Client) (r : Reminder)
    (hnd : (c.reminders.map (fun x => x.id)).Nodup) (hr : r ∈ c.reminders)
    (hnow : JSSet.has c.hasPlayedSound (tierKey r.id "now") = false)
    (ht0 : t0 ≤ r.date_time) :
    ∃ k : Nat,
      (-60000 < r.date_time - (t0 + 60000 * (k : Int))
          ∧ r.date_time - (t0 + 60000 * (k : Int)) ≤ 0)
        ∧ (∀ j : Nat, (-60000 < r.date_time - (t0 + 60000 * (j : Int))
            ∧ r.date_time - (t0 + 60000 * (j : Int)) ≤ 0) → j = k)
        ∧ ∀ n : Nat, (runTicks (periodicTicks t0 n) c).map
              (fun t => t.log.count (r.id, Effect.playNotificationSound "urgent"))
            = (List.range n).map (fun j : Nat => if j = k then 1 else 0) := by
  have hq : 0 ≤ (r.date_time - t0 + 59999) / 60000 := by omega
  have hk : (((r.date_time - t0 + 59999) / 60000).toNat : Int)
      = (r.date_time - t0 + 59999) / 60000 := Int.toNat_of_nonneg hq
  have hwin : -60000 < r.date_time - (t0 + 60000 * (((r.date_time - t0 + 59999) / 60000).toNat : Int))
      ∧ r.date_time - (t0 + 60000 * (((r.date_time - t0 + 59999) / 60000).toNat : Int)) ≤ 0 := by
    rw [hk]
    constructor <;> omega
  have huniq : ∀ j : Nat, (-60000 < r.date_time - (t0 + 60000 * (j : Int))
      ∧ r.date_time - (t0 + 60000 * (j : Int)) ≤ 0)
        → j = ((r.date_time - t0 + 59999) / 60000).toNat := by
    intro j hj
    have h1 := hj.1
    have h2 := hj.2
    have h3 := hwin.1
    have h4 := hwin.2
    omega
  refine ⟨((r.date_time - t0 + 59999) / 60000).toNat, hwin, huniq, fun n => ?_⟩
  rw [periodic_due_counts n t0 c r hnd hr hnow (by omega)]
  refine List.map_congr_left fun j _ => ?_
  by_cases hj : j = ((r.date_time - t0 + 59999) / 60000).toNat
  · rw [if_pos hj, if_pos (hj ▸ hwin)]
  · rw [if_neg hj, if_neg (fun hw => hj (huniq j hw))]

theorem due_tier_fires_on_one_periodic_tick_witness :
    (([sampleReminder].map (fun x => x.id)).Nodup ∧ sampleReminder ∈ sampleClient.reminders
        ∧ JSSet.has sampleClient.hasPlayedSound (tierKey sampleReminder.id "now") = false
        ∧ (-100000 : Int) ≤ sampleReminder.date_time)
      ∧ ∃ k : Nat,
          (-60000 < sampleReminder.date_time - (-100000 + 60000 * (k : Int))
              ∧ sampleReminder.date_time - (-100000 + 60000 * (k : Int)) ≤ 0)
            ∧ (∀ j : Nat, (-60000 < sampleReminder.date_time - (-100000 + 60000 * (j : Int))
                ∧ sampleReminder.date_time - (-100000 + 60000 * (j : Int)) ≤ 0) → j = k)
            ∧ ∀ n : Nat, (runTicks (periodicTicks (-100000) n) sampleClient).map
                  (fun t => t.log.count (sampleReminder.id, Effect.playNotificationSound "urgent"))
                = (List.range n).map (fun j : Nat => if j = k then 1 else 0) :=
  ⟨by decide, due_tier_fires_on_one_periodic_tick (-100000) sampleClient sampleReminder
    (by decide) (by decide) (by decide) (by decide)⟩

/-! ## Reloads that differ in the `notified` flag -/

theorem flagsApart_mono (h g : JSSet) (T : Int) (a b : Reminder) (hab : flagsApart h T a b)
    (hsub : ∀ k, JSSet.has h k = true → JSSet.has g k = true) : flagsApart g T a b := by
  obtain ⟨h1, h2, h3, h4, h5⟩ := hab
  refine ⟨h1, h2, h3, h4, ?_⟩
  rcases h5 with h5 | h5 | h5
  · exact Or.inl h5
  · exact Or.inr (Or.inl (hsub _ h5))
  · exact Or.inr (Or.inr h5)

theorem checkReminder_flagsApart (now T : Int) (h : JSSet) (a b : Reminder)
    (hab : flagsApart h T a b) (hT : T ≤ now) :
    (checkReminder now h a).calls = (checkReminder now h b).calls
      ∧ (checkReminder now h a).hasPlayedSound = (checkReminder now h b).hasPlayedSound
      ∧ flagsApart (checkReminder now h a).hasPlayedSound T
          (checkReminder now h a).reminder (checkReminder now h b).reminder := by
  obtain ⟨ai, at_, ad, an, af⟩ := a
  obtain ⟨bi, bt, bd, bn, bf⟩ := b
  obtain ⟨h1, h2, h3, h4, h5⟩ := hab
  simp only at h1 h2 h3 h4 h5
  subst h1 h2 h3 h4
  rcases h5 with h5 | h5 | h5
  · subst h5
    refine ⟨rfl, rfl, rfl, rfl, rfl, rfl, Or.inl rfl⟩
  · have ea : ¬ (ad - now > 0 ∧ ad - now ≤ 300000 ∧ af = false
        ∧ JSSet.has h (tierKey ai "5min") = false) := by
      intro c; rw [h5] at c; simp at c
    have eb : ¬ (ad - now > 0 ∧ ad - now ≤ 300000 ∧ bf = false
        ∧ JSSet.has h (tierKey ai "5min") = false) := by
      intro c; rw [h5] at c; simp at c
    unfold checkReminder
    dsimp only
    rw [if_neg ea, if_neg eb]
    split_ifs
    · exact ⟨rfl, rfl, rfl, rfl, rfl, rfl, Or.inr (Or.inl (by rw [has_add, h5]; rfl))⟩
    · exact ⟨rfl, rfl, rfl, rfl, rfl, rfl, Or.inr (Or.inl h5)⟩
  · have ea : ¬ (ad - now > 0 ∧ ad - now ≤ 300000 ∧ af = false
        ∧ JSSet.has h (tierKey ai "5min") = false) := by
      intro c; have := c.1; omega
    have eb : ¬ (ad - now > 0 ∧ ad - now ≤ 300000 ∧ bf = false
        ∧ JSSet.has h (tierKey ai "5min") = false) := by
      intro c; have := c.1; omega
    unfold checkReminder
    dsimp only
    rw [if_neg ea, if_neg eb]
    split_ifs
    · exact ⟨rfl, rfl, rfl, rfl, rfl, rfl, Or.inr (Or.inr h5)⟩
    · exact ⟨rfl, rfl, rfl, rfl, rfl, rfl, Or.inr (Or.inr h5)⟩

theorem forEach_flagsApart (now T : Int) (hT : T ≤ now) :
    ∀ (la lb : List Reminder) (h : JSSet), List.Forall₂ (flagsApart h T) la lb →
      (forEachReminder now la h).log = (forEachReminder now lb h).log
        ∧ (forEachReminder now la h).client.hasPlayedSound
            = (forEachReminder now lb h).client.hasPlayedSound
        ∧ List.Forall₂ (flagsApart (forEachReminder now la h).client.hasPlayedSound T)
            (forEachReminder now la h).client.reminders
            (forEachReminder now lb h).client.reminders := by
  intro la
  induction la with
  | nil =>
    intro lb h hrel
    cases hrel
    exact ⟨rfl, rfl, List.Forall₂.nil⟩
  | cons a la ih =>
    intro lb h hrel
    cases hrel with
    | cons hab hrest =>
      rename_i b lb
      obtain ⟨c1, c2, c3⟩ := checkReminder_flagsApart now T h a b hab hT
      have hrest2 : List.Forall₂ (flagsApart (checkReminder now h a).hasPlayedSound T) la lb :=
        hrest.imp (fun x y hxy => flagsApart_mono h _ T x y hxy
          (fun k hk => checkReminder_has_mono now h a k hk))
      obtain ⟨i1, i2, i3⟩ := ih lb _ hrest2
      simp only [forEachReminder]
      rw [← c2, ← c1, ← i1, ← i2, hab.1]
      refine ⟨rfl, rfl, List.Forall₂.cons ?_ ?_⟩
      · exact flagsApart_mono _ _ T _ _ c3 (fun k hk => forEach_has_mono now la _ k hk)
      · rw [c2] at i3 ⊢
        exact i3

theorem runTicks_flagsApart (T : Int) : ∀ (times : List Int) (la lb : List Reminder) (h : JSSet),
    List.Forall₂ (flagsApart h T) la lb → (∀ t ∈ times, T ≤ t) →
      (runTicks times { reminders := la, hasPlayedSound := h }).map (fun t => t.log)
          = (runTicks times { reminders := lb, hasPlayedSound := h }).map (fun t => t.log)
        ∧ (runTicks times { reminders := la, hasPlayedSound := h }).map
              (fun t => t.client.hasPlayedSound)
          = (runTicks times { reminders := lb, hasPlayedSound := h }).map
              (fun t => t.client.hasPlayedSound) := by
  intro times
  induction times with
  | nil => intro la lb h _ _; exact ⟨rfl, rfl⟩
  | cons now later ih =>
    intro la lb h hrel ht
    obtain ⟨f1, f2, f3⟩ := forEach_flagsApart now T (ht now (List.mem_cons_self _ _)) la lb h hrel
    obtain ⟨i1, i2⟩ := ih _ _ _ f3 (fun t hx => ht t (List.mem_cons_of_mem _ hx))
    simp only [runTicks, List.map_cons, checkReminders]
    have e : (forEachReminder now lb h).client
        = { reminders := (forEachReminder now lb h).client.reminders
            hasPlayedSound := (forEachReminder now la h).client.hasPlayedSound } := by
      rw [f2]
    have e2 : (forEachReminder now la h).client
        = { reminders := (forEachReminder now la h).client.reminders
            hasPlayedSound := (forEachReminder now la h).client.hasPlayedSound } := rfl
    rw [e, e2, i1, i2, f1, f2]
    exact ⟨rfl, rfl⟩

theorem forEach_warning_recorded (now : Int) (id : Nat) : ∀ (rs : List Reminder) (h : JSSet),
    (id, Effect.playNotificationSound "reminder") ∈ (forEachReminder now rs h).log →
      JSSet.has (forEachReminder now rs h).client.hasPlayedSound (tierKey id "5min") = true := by
  intro rs
  induction rs with
  | nil => intro h hm; simp [forEachReminder] at hm
  | cons x rs ih =>
    intro h hm
    simp only [forEachReminder, List.mem_append, List.mem_map, Prod.mk.injEq] at hm
    rcases hm with ⟨e, he, hxi, rfl⟩ | hm
    · subst hxi
      show JSSet.has (forEachReminder now rs _).client.hasPlayedSound _ = true
      apply forEach_has_mono
      revert he
      unfold checkReminder
      dsimp only
      split_ifs
      · intro _; rw [has_add]; simp
      · intro he; simp at he
      · intro he; simp at he
    · exact ih _ hm

theorem clientAfter_has_mono (k : JSVal) : ∀ (times : List Int) (c : Client),
    JSSet.has c.hasPlayedSound k = true →
      JSSet.has (clientAfter times c).hasPlayedSound k = true := by
  intro times
  induction times with
  | nil => intro c hk; exact hk
  | cons now later ih =>
    intro c hk
    exact ih _ (forEach_has_mono now c.reminders c.hasPlayedSound k hk)

theorem runTicks_warning_recorded (id : Nat) : ∀ (times : List Int) (c : Client),
    (∃ t ∈ runTicks times c, (id, Effect.playNotificationSound "reminder") ∈ t.log) →
      JSSet.has (clientAfter times c).hasPlayedSound (tierKey id "5min") = true := by
  intro times
  induction times with
  | nil => intro c h; simp [runTicks] at h
  | cons now later ih =>
    intro c h
    obtain ⟨t, ht, hlog⟩ := h
    simp only [runTicks, List.mem_cons] at ht
    rcases ht with rfl | ht
    · exact clientAfter_has_mono _ later _
        (forEach_warning_recorded now id c.reminders c.hasPlayedSound hlog)
    · exact ih _ ⟨t, ht, hlog⟩

theorem notify_call_means_fired (T : Int) : ∀ (times : List Int) (c : Client) (r : Reminder),
    (c.reminders.map (fun x => x.id)).Nodup → r ∈ c.reminders → (∀ p ∈ times, p ≤ T) →
    (∃ t ∈ runTicks times c, (r.id, Effect.fetchNotify r.id) ∈ t.log) →
      JSSet.has (clientAfter times c).hasPlayedSound (tierKey r.id "5min") = true
        ∨ r.date_time ≤ T := by
  intro times
  induction times with
  | nil => intro c r _ _ _ h; simp [runTicks] at h
  | cons now later ih =>
    intro c r hnd hr hle h
    obtain ⟨t, ht, hlog⟩ := h
    obtain ⟨_, o2, o3, _⟩ := forEach_own now c.reminders c.hasPlayedSound r hnd hr
    simp only [runTicks, List.mem_cons] at ht
    rcases ht with rfl | ht
    · have hcalls := (checkReminders_mem_log now c.reminders c.hasPlayedSound r hnd hr _).mp hlog
      revert hcalls o3
      unfold checkReminder
      dsimp only
      split_ifs with c1 c2
      · intro o3 _
        refine Or.inl (clientAfter_has_mono _ later _ ?_)
        show JSSet.has (forEachReminder now c.reminders c.hasPlayedSound).client.hasPlayedSound _
          = true
        rw [o3, has_add]
        simp
      · intro _ _
        have := c2.2.1
        have := hle now (List.mem_cons_self _ _)
        exact Or.inr (by omega)
      · intro _ hcalls
        simp at hcalls
    · have step := ih (checkReminders now c).client (checkReminder now c.hasPlayedSound r).reminder
        (checkReminders_nodup now c hnd) o2 (fun p hp => hle p (List.mem_cons_of_mem _ hp))
      rw [checkReminder_id, checkReminder_date_time] at step
      exact step ⟨t, ht, hlog⟩

/-- C13, counterexample. The tick at the instant 10000 fires the due tier of reminder 1 and
issues the notify call. The reminder is then rescheduled to the instant 500000 and the list
is reloaded, in one run with `notified = true` (the notify call succeeded) and in the other
with `notified = false` (it failed); the two reloaded lists differ in that flag only. The
tick at the instant 300000 makes no call in the first run and the four calls of the warning
tier in the second. -/
theorem rescheduled_reminder_fires_by_flag :
    (∃ t ∈ runTicks [10000] sampleClient,
        (1, Effect.playNotificationSound "urgent") ∈ t.log ∧ (1, Effect.fetchNotify 1) ∈ t.log)
      ∧ { rescheduledReminder true with notified := false } = rescheduledReminder false
      ∧ (runTicks [300000]
          (loadReminders (some [rescheduledReminder true])
            (clientAfter [10000] sampleClient))).map (fun t => t.log) = [[]]
      ∧ (runTicks [300000]
          (loadReminders (some [rescheduledReminder false])
            (clientAfter [10000] sampleClient))).map (fun t => t.log.length) = [4]
      ∧ ∃ t ∈ runTicks [300000]
          (loadReminders (some [rescheduledReminder false]) (clientAfter [10000] sampleClient)),
          (1, Effect.playNotificationSound "reminder") ∈ t.log := by
  decide

/-- C13, amended. Let ticks run at the instants `earlier` on a list with distinct ids, let
the list then be reloaded at the instant `T`, not before any of those ticks, in two ways, as
`la` or as `lb`, and let ticks follow at the instants `times`, none before `T`. The two
reloaded lists agree in everything except `notified` flags, and they differ in the flag of a
reminder only if one of the earlier ticks issued the notify call for that reminder and the
reloaded reminder has the `date_time` it had then, or a `date_time` not after `T`, or has had
its warning tier fired by one of the earlier ticks. Then the two runs make the same calls on
every later tick and record the same keys. Moreover, once a tick has fired the warning tier
for an id, no later tick fires it again for that id, whatever list is loaded, be it one that
holds the reminder with `notified = false` or with another `date_time`. -/
theorem later_alerts_ignore_reloaded_flag (T : Int) (earlier : List Int) (c : Client)
    (la lb : List Reminder) (times : List Int)
    (hnd : (c.reminders.map (fun x => x.id)).Nodup)
    (hrel : List.Forall₂ (fun a b : Reminder =>
        a.id = b.id ∧ a.title = b.title ∧ a.date_time = b.date_time ∧ a.notes = b.notes
          ∧ (a.notified ≠ b.notified → ∃ r ∈ c.reminders, r.id = a.id
              ∧ (∃ t ∈ runTicks earlier c, (r.id, Effect.fetchNotify r.id) ∈ t.log)
              ∧ (a.date_time = r.date_time ∨ a.date_time ≤ T
                ∨ ∃ t ∈ runTicks earlier c,
                    (r.id, Effect.playNotificationSound "reminder") ∈ t.log))) la lb)
    (hearlier : ∀ p ∈ earlier, p ≤ T) (ht : ∀ t ∈ times, T ≤ t) :
    (runTicks times (loadReminders (some la) (clientAfter earlier c))).map (fun t => t.log)
        = (runTicks times (loadReminders (some lb) (clientAfter earlier c))).map
            (fun t => t.log)
      ∧ (runTicks times (loadReminders (some la) (clientAfter earlier c))).map
            (fun t => t.client.hasPlayedSound)
        = (runTicks times (loadReminders (some lb) (clientAfter earlier c))).map
            (fun t => t.client.hasPlayedSound)
      ∧ (∀ (id : Nat) (l : List Reminder) (later : List Int),
          (∃ t ∈ runTicks earlier c, (id, Effect.playNotificationSound "reminder") ∈ t.log) →
            ∀ t ∈ runTicks later (loadReminders (some l) (clientAfter earlier c)),
              (id, Effect.playNotificationSound "reminder") ∉ t.log) := by
  have hrel2 : List.Forall₂ (flagsApart (clientAfter earlier c).hasPlayedSound T) la lb := by
    refine hrel.imp (fun a b hab => ?_)
    obtain ⟨h1, h2, h3, h4, h5⟩ := hab
    refine ⟨h1, h2, h3, h4, ?_⟩
    by_cases hf : a.notified = b.notified
    · exact Or.inl hf
    · obtain ⟨r, hr, hid, hlog, hcase⟩ := h5 hf
      rcases hcase with hdt | hle | hwarn
      · rw [← hid, hdt]
        exact Or.inr (notify_call_means_fired T earlier c r hnd hr hearlier hlog)
      · exact Or.inr (Or.inr hle)
      · rw [← hid]
        exact Or.inr (Or.inl (runTicks_warning_recorded r.id earlier c hwarn))
  obtain ⟨r1, r2⟩ := runTicks_flagsApart T times la lb _ hrel2 ht
  refine ⟨r1, r2, ?_⟩
  intro id l later hfired t htick
  have hk : JSSet.has (loadReminders (some l) (clientAfter earlier c)).hasPlayedSound
      (tierKey id "5min") = true :=
    runTicks_warning_recorded id earlier c hfired
  have hz := runTicks_warning_counts id later _ hk
  have hmem : t.log.count (id, Effect.playNotificationSound "reminder")
      ∈ List.replicate later.length 0 := by
    rw [← hz]
    exact List.mem_map.mpr ⟨t, htick, rfl⟩
  exact List.count_eq_zero.mp (List.eq_of_mem_replicate hmem)

theorem later_alerts_ignore_reloaded_flag_witness :
    (runTicks [60000, 120000]
        (loadReminders (some [{ sampleReminder with notified := true }])
          (clientAfter [0] sampleClient))).map (fun t => t.log)
      = (runTicks [60000, 120000]
        (loadReminders (some [{ sampleReminder with notified := false }])
          (clientAfter [0] sampleClient))).map (fun t => t.log) :=
  (later_alerts_ignore_reloaded_flag 30000 [0] sampleClient
    [{ sampleReminder with notified := true }] [{ sampleReminder with notified := false }]
    [60000, 120000] (by decide)
    (List.Forall₂.cons
      ⟨rfl, rfl, rfl, rfl, fun _ => ⟨sampleReminder, by decide, rfl, by decide, Or.inl rfl⟩⟩
      List.Forall₂.nil)
    (by decide) (by decide)).1

/-! ## Filters, deletion and updates of the record store -/

theorem orderBy_perm {α : Type} (key : α → Option Int) (desc : Bool) (rows : List α) :
    (orderBy key desc rows).Perm rows :=
  List.perm_insertionSort _ rows

theorem filter_length_eq_zero {α : Type} (p : α → Bool) (l : List α) :
    (l.filter p).length = 0 ↔ ∀ r ∈ l, p r = false := by
  rw [List.length_eq_zero, List.filter_eq_nil_iff]
  simp

theorem update_of_none {α : Type} (t : Table α) (p : α → Bool) (f : α → α)
    (h : ∀ r ∈ t.rows, p r = false) : (t.update p f).2 = t := by
  have e : t.rows.map (fun r => if p r then f r else r) = t.rows := by
    conv_rhs => rw [← List.map_id t.rows]
    refine List.map_congr_left fun r hr => ?_
    simp [h r hr]
  simp only [Table.update, e]

theorem delete_of_none {α : Type} (t : Table α) (p : α → Bool)
    (h : ∀ r ∈ t.rows, p r = false) : (t.delete p).2 = t := by
  have e : t.rows.filter (fun r => !p r) = t.rows := by
    rw [List.filter_eq_self]
    intro r hr
    simp [h r hr]
  simp only [Table.delete, e]

theorem select_after_delete {α : Type} (t : Table α) (p : α → Bool) :
    (t.delete p).2.select p = [] := by
  simp only [Table.delete, Table.select, List.filter_eq_nil_iff, List.mem_filter]
  intro r hr
  simpa using hr.2

/-- C16, counterexample. An appointment is created and then updated with a body that has no
`date_time`: both requests succeed and the collection holds the one record, its `date_time`
now `NULL`. At the instant 1000 the upcoming filter and the past filter both return the empty
list, so the record is in neither of the two result lists. -/
theorem undated_appointment_in_neither_list :
    (appointments_post false (emptyTable Appointment) sampleAppointmentBody).1.status = 201
      ∧ (appointments_put_id false
          (appointments_post false (emptyTable Appointment) sampleAppointmentBody).2 1
          emptyAppointmentBody).1.status = 200
      ∧ undatedAppointments.rows
        = [{ id := 1, doctor := .null, type := .null, date_time := .null, location := .null }]
      ∧ appointments_get_upcoming_list sampleParse 1000 false undatedAppointments
        = { status := 200, body := .records [] }
      ∧ appointments_get_past_list sampleParse 1000 false undatedAppointments
        = { status := 200, body := .records [] } := by
  decide

/-- C16, amended. At a fixed instant `now`, when the storage layer reports no error, the
upcoming filter returns exactly the appointments whose `date_time` is a date not before `now`
and the past filter exactly those whose `date_time` is a date before `now`. The two result
lists together hold exactly the records of the collection that have a date; every such
record is in one of the lists and not in the other; a record without a date (`date_time` is
`NULL`) is in neither list. When every record of the collection has a date, the two lists
together hold exactly the records of the collection. -/
theorem upcoming_past_partition (parse : String → Option Int) (now : Int)
    (t : Table Appointment) :
    ∃ upcoming past : List Appointment,
      appointments_get_upcoming_list parse now false t
          = { status := 200, body := .records upcoming }
        ∧ appointments_get_past_list parse now false t
          = { status := 200, body := .records past }
        ∧ (∀ r, r ∈ upcoming ↔ r ∈ t.rows ∧ ∃ d, dateOf parse r.date_time = some d ∧ now ≤ d)
        ∧ (∀ r, r ∈ past ↔ r ∈ t.rows ∧ ∃ d, dateOf parse r.date_time = some d ∧ d < now)
        ∧ (upcoming ++ past).Perm
            (t.rows.filter (fun r => (dateOf parse r.date_time).isSome))
        ∧ (∀ r ∈ t.rows, (dateOf parse r.date_time).isSome = true →
            (r ∈ upcoming ∧ r ∉ past) ∨ (r ∉ upcoming ∧ r ∈ past))
        ∧ (∀ r ∈ t.rows, dateOf parse r.date_time = none → r ∉ upcoming ∧ r ∉ past)
        ∧ ((∀ r ∈ t.rows, (dateOf parse r.date_time).isSome = true) →
            (upcoming ++ past).Perm t.rows) := by
  have hperm : (orderBy (fun r : Appointment => dateOf parse r.date_time) false
        (t.select (fun r => sqlGeNow now (dateOf parse r.date_time)))
      ++ orderBy (fun r : Appointment => dateOf parse r.date_time) true
        (t.select (fun r => sqlLtNow now (dateOf parse r.date_time)))).Perm
      (t.rows.filter (fun r => (dateOf parse r.date_time).isSome)) := by
    have hge : t.select (fun r => sqlGeNow now (dateOf parse r.date_time))
        = (t.rows.filter (fun r => (dateOf parse r.date_time).isSome)).filter
            (fun r => sqlGeNow now (dateOf parse r.date_time)) := by
      rw [List.filter_filter]
      refine List.filter_congr fun r _ => ?_
      cases hd : dateOf parse r.date_time <;> simp [sqlGeNow]
    have hlt : t.select (fun r => sqlLtNow now (dateOf parse r.date_time))
        = (t.rows.filter (fun r => (dateOf parse r.date_time).isSome)).filter
            (fun r => !sqlGeNow now (dateOf parse r.date_time)) := by
      rw [List.filter_filter]
      refine List.filter_congr fun r _ => ?_
      cases hd : dateOf parse r.date_time with
      | none => simp [sqlLtNow, sqlGeNow]
      | some d =>
        simp only [sqlLtNow, sqlGeNow]
        by_cases hge : d ≥ now
        · simp [hge, not_lt.mpr hge]
        · simp [hge, not_le.mp hge]
    refine ((orderBy_perm _ _ _).append (orderBy_perm _ _ _)).trans ?_
    rw [hge, hlt]
    exact List.filter_append_perm _ _
  refine ⟨_, _, rfl, rfl, ?_, ?_, hperm, ?_, ?_, ?_⟩
  · intro r
    simp only [(orderBy_perm _ _ _).mem_iff, Table.select, List.mem_filter]
    refine and_congr_right fun _ => ?_
    cases hd : dateOf parse r.date_time <;> simp [sqlGeNow]
  · intro r
    simp only [(orderBy_perm _ _ _).mem_iff, Table.select, List.mem_filter]
    refine and_congr_right fun _ => ?_
    cases hd : dateOf parse r.date_time <;> simp [sqlLtNow]
  · intro r hr hsome
    simp only [(orderBy_perm _ _ _).mem_iff, Table.select, List.mem_filter, hr, true_and]
    cases hd : dateOf parse r.date_time with
    | none => rw [hd] at hsome; cases hsome
    | some d =>
      simp only [sqlGeNow, sqlLtNow, decide_eq_true_eq]
      by_cases hge : d ≥ now
      · exact Or.inl ⟨hge, by omega⟩
      · exact Or.inr ⟨hge, by omega⟩
  · intro r hr hnone
    simp only [(orderBy_perm _ _ _).mem_iff, Table.select, List.mem_filter, hr, true_and, hnone]
    simp [sqlGeNow, sqlLtNow]
  · intro hall
    have hself : t.rows.filter (fun r => (dateOf parse r.date_time).isSome) = t.rows :=
      List.filter_eq_self.mpr hall
    rw [← hself]
    exact hperm

theorem upcoming_past_partition_witness :
    appointments_get_upcoming_list sampleParse 1000 false sampleAppointments
        = { status := 200
            body := .records
              [{ id := 1, doctor := .str "Dr. Lee", type := .str "Annual Checkup",
                 date_time := .str "2000", location := .null }] }
      ∧ appointments_get_past_list sampleParse 1000 false sampleAppointments
        = { status := 200
            body := .records
              [{ id := 2, doctor := .str "Dr. Kim", type := .str "Dental",
                 date_time := .str "500", location := .str "Room 4" }] }
      ∧ (∀ r ∈ sampleAppointments.rows, (dateOf sampleParse r.date_time).isSome = true)
      ∧ ∃ upcoming past : List Appointment,
          appointments_get_upcoming_list sampleParse 1000 false sampleAppointments
              = { status := 200, body := .records upcoming }
            ∧ appointments_get_past_list sampleParse 1000 false sampleAppointments
              = { status := 200, body := .records past }
            ∧ (∀ r, r ∈ upcoming ↔ r ∈ sampleAppointments.rows
                ∧ ∃ d, dateOf sampleParse r.date_time = some d ∧ (1000 : Int) ≤ d)
            ∧ (∀ r, r ∈ past ↔ r ∈ sampleAppointments.rows
                ∧ ∃ d, dateOf sampleParse r.date_time = some d ∧ d < (1000 : Int))
            ∧ (upcoming ++ past).Perm
                (sampleAppointments.rows.filter
                  (fun r => (dateOf sampleParse r.date_time).isSome))
            ∧ (∀ r ∈ sampleAppointments.rows, (dateOf sampleParse r.date_time).isSome = true →
                (r ∈ upcoming ∧ r ∉ past) ∨ (r ∉ upcoming ∧ r ∈ past))
            ∧ (∀ r ∈ sampleAppointments.rows, dateOf sampleParse r.date_time = none →
                r ∉ upcoming ∧ r ∉ past)
            ∧ ((∀ r ∈ sampleAppointments.rows,
                  (dateOf sampleParse r.date_time).isSome = true) →
                (upcoming ++ past).Perm sampleAppointments.rows) :=
  ⟨by decide, by decide, by decide,
    upcoming_past_partition sampleParse 1000 sampleAppointments⟩

/-- C17. For each of the four collections and every id: when DELETE of the id answers 200 or
404, a GET of the same id on the collection it leaves answers 404 with the not-found error;
DELETE answers 404 exactly when the storage layer reports no error and no record has that
id; and when it answers 404 the collection is unchanged. -/
theorem delete_then_get_not_found :
    (∀ (err : Bool) (t : Table Medication) (id : Nat),
        ((((medications_delete_id err t id).1.status = 200 ∨ (medications_delete_id err t id).1.status = 404) →
            medications_get_id false (medications_delete_id err t id).2 id
              = { status := 404, body := .error "Medication not found" })
          ∧ ((medications_delete_id err t id).1.status = 404
              ↔ (err = false ∧ ∀ r ∈ t.rows, r.id ≠ id))
          ∧ ((medications_delete_id err t id).1.status = 404 → (medications_delete_id err t id).2 = t)))
      ∧ (∀ (err : Bool) (t : Table ReminderRow) (id : Nat),
        ((((reminders_delete_id err t id).1.status = 200 ∨ (reminders_delete_id err t id).1.status = 404) →
            reminders_get_id false (reminders_delete_id err t id).2 id
              = { status := 404, body := .error "Reminder not found" })
          ∧ ((reminders_delete_id err t id).1.status = 404
              ↔ (err = false ∧ ∀ r ∈ t.rows, r.id ≠ id))
          ∧ ((reminders_delete_id err t id).1.status = 404 → (reminders_delete_id err t id).2 = t)))
      ∧ (∀ (err : Bool) (t : Table Vital) (id : Nat),
        ((((vitals_delete_id err t id).1.status = 200 ∨ (vitals_delete_id err t id).1.status = 404) →
            vitals_get_id false (vitals_delete_id err t id).2 id
              = { status := 404, body := .error "Vital record not found" })
          ∧ ((vitals_delete_id err t id).1.status = 404
              ↔ (err = false ∧ ∀ r ∈ t.rows, r.id ≠ id))
          ∧ ((vitals_delete_id err t id).1.status = 404 → (vitals_delete_id err t id).2 = t)))
      ∧ (∀ (err : Bool) (t : Table Appointment) (id : Nat),
        ((((appointments_delete_id err t id).1.status = 200 ∨ (appointments_delete_id err t id).1.status = 404) →
            appointments_get_id false (appointments_delete_id err t id).2 id
              = { status := 404, body := .error "Appointment not found" })
          ∧ ((appointments_delete_id err t id).1.status = 404
              ↔ (err = false ∧ ∀ r ∈ t.rows, r.id ≠ id))
          ∧ ((appointments_delete_id err t id).1.status = 404 → (appointments_delete_id err t id).2 = t))) := by
  refine ⟨?_, ?_, ?_, ?_⟩
  · intro err t id
    have hz := filter_length_eq_zero (fun r : Medication => r.id == id) t.rows
    have hsel := select_after_delete t (fun r : Medication => r.id == id)
    unfold medications_delete_id medications_get_id
    cases err
    · simp only [Bool.false_eq_true, if_false, true_and]
      by_cases h0 : (t.delete (fun r : Medication => r.id == id)).1 = 0
      · have hnone : ∀ r ∈ t.rows, (r.id == id) = false := hz.mp h0
        rw [if_pos h0]
        refine ⟨fun _ => by rw [hsel], ⟨fun _ r hr => by simpa using hnone r hr, fun _ => rfl⟩,
          fun _ => delete_of_none t _ hnone⟩
      · rw [if_neg h0]
        refine ⟨fun _ => by rw [hsel], ⟨fun h => by simp at h, fun h => ?_⟩,
          fun h => by simp at h⟩
        exact absurd (hz.mpr (fun r hr => by simpa using h r hr)) h0
    · simp
  · intro err t id
    have hz := filter_length_eq_zero (fun r : ReminderRow => r.id == id) t.rows
    have hsel := select_after_delete t (fun r : ReminderRow => r.id == id)
    unfold reminders_delete_id reminders_get_id
    cases err
    · simp only [Bool.false_eq_true, if_false, true_and]
      by_cases h0 : (t.delete (fun r : ReminderRow => r.id == id)).1 = 0
      · have hnone : ∀ r ∈ t.rows, (r.id == id) = false := hz.mp h0
        rw [if_pos h0]
        refine ⟨fun _ => by rw [hsel], ⟨fun _ r hr => by simpa using hnone r hr, fun _ => rfl⟩,
          fun _ => delete_of_none t _ hnone⟩
      · rw [if_neg h0]
        refine ⟨fun _ => by rw [hsel], ⟨fun h => by simp at h, fun h => ?_⟩,
          fun h => by simp at h⟩
        exact absurd (hz.mpr (fun r hr => by simpa using h r hr)) h0
    · simp
  · intro err t id
    have hz := filter_length_eq_zero (fun r : Vital => r.id == id) t.rows
    have hsel := select_after_delete t (fun r : Vital => r.id == id)
    unfold vitals_delete_id vitals_get_id
    cases err
    · simp only [Bool.false_eq_true, if_false, true_and]
      by_cases h0 : (t.delete (fun r : Vital => r.id == id)).1 = 0
      · have hnone : ∀ r ∈ t.rows, (r.id == id) = false := hz.mp h0
        rw [if_pos h0]
        refine ⟨fun _ => by rw [hsel], ⟨fun _ r hr => by simpa using hnone r hr, fun _ => rfl⟩,
          fun _ => delete_of_none t _ hnone⟩
      · rw [if_neg h0]
        refine ⟨fun _ => by rw [hsel], ⟨fun h => by simp at h, fun h => ?_⟩,
          fun h => by simp at h⟩
        exact absurd (hz.mpr (fun r hr => by simpa using h r hr)) h0
    · simp
  · intro err t id
    have hz := filter_length_eq_zero (fun r : Appointment => r.id == id) t.rows
    have hsel := select_after_delete t (fun r : Appointment => r.id == id)
    unfold appointments_delete_id appointments_get_id
    cases err
    · simp only [Bool.false_eq_true, if_false, true_and]
      by_cases h0 : (t.delete (fun r : Appointment => r.id == id)).1 = 0
      · have hnone : ∀ r ∈ t.rows, (r.id == id) = false := hz.mp h0
        rw [if_pos h0]
        refine ⟨fun _ => by rw [hsel], ⟨fun _ r hr => by simpa using hnone r hr, fun _ => rfl⟩,
          fun _ => delete_of_none t _ hnone⟩
      · rw [if_neg h0]
        refine ⟨fun _ => by rw [hsel], ⟨fun h => by simp at h, fun h => ?_⟩,
          fun h => by simp at h⟩
        exact absurd (hz.mpr (fun r hr => by simpa using h r hr)) h0
    · simp

theorem delete_then_get_not_found_witness :
    ((medications_delete_id false sampleMedications 1).1.status = 200
        ∨ (medications_delete_id false sampleMedications 1).1.status = 404)
      ∧ medications_get_id false (medications_delete_id false sampleMedications 1).2 1
        = { status := 404, body := .error "Medication not found" } :=
  ⟨by decide,
    (delete_then_get_not_found.1 false sampleMedications 1).1 (by decide)⟩

/-- C18. The two narrow partial updates, when the storage layer reports no error. On an id
that some record has, `PUT /api/medications/:id/taken` answers 200 and the collection is the
old one with the `taken` field of the records with that id set to the bound value, and
`PUT /api/reminders/:id/notify` answers 200 and the collection is the old one with the
`notified` field of the records with that id set to true; every other field of those records
and every other record are as before. On an id that no record has, the answer is 404 and the
collection is unchanged. -/
theorem partial_updates_touch_one_field :
    (∀ (err : Bool) (t : Table Medication) (id : Nat) (taken : JSVal),
        ((∃ r ∈ t.rows, r.id = id) → err = false →
            medications_put_id_taken err t id taken
              = ({ status := 200, body := .message "Medication updated successfully" },
                  { rows := t.rows.map (fun r => if r.id = id then
                        { id := r.id, name := r.name, dosage := r.dosage, frequency := r.frequency,
                          time := r.time, taken := sqlParam taken }
                      else r)
                    nextId := t.nextId }))
          ∧ ((∀ r ∈ t.rows, r.id ≠ id) → err = false →
            medications_put_id_taken err t id taken = ({ status := 404, body := .error "Medication not found" }, t)))
      ∧ (∀ (err : Bool) (t : Table ReminderRow) (id : Nat) ,
        ((∃ r ∈ t.rows, r.id = id) → err = false →
            reminders_put_id_notify err t id
              = ({ status := 200, body := .message "Reminder marked as notified" },
                  { rows := t.rows.map (fun r => if r.id = id then
                        { id := r.id, title := r.title, date_time := r.date_time, notes := r.notes,
                          notified := .bool true }
                      else r)
                    nextId := t.nextId }))
          ∧ ((∀ r ∈ t.rows, r.id ≠ id) → err = false →
            reminders_put_id_notify err t id = ({ status := 404, body := .error "Reminder not found" }, t))) := by
  refine ⟨?_, ?_⟩
  · intro err t id taken
    have hz := filter_length_eq_zero (fun r : Medication => r.id == id) t.rows
    refine ⟨fun hex he => ?_, fun hno he => ?_⟩
    · subst he
      obtain ⟨x, hx, hxid⟩ := hex
      have h0 : ¬ (t.rows.filter (fun r : Medication => r.id == id)).length = 0 := by
        intro h
        have := hz.mp h x hx
        simp [hxid] at this
      unfold medications_put_id_taken
      simp only [Bool.false_eq_true, if_false, Table.update, if_neg h0, beq_iff_eq]
    · subst he
      have hnone : ∀ r ∈ t.rows, (r.id == id) = false := fun r hr => by simpa using hno r hr
      unfold medications_put_id_taken
      simp only [Bool.false_eq_true, if_false]
      rw [if_pos (by simpa [Table.update] using hz.mpr hnone), update_of_none t _ _ hnone]
  · intro err t id 
    have hz := filter_length_eq_zero (fun r : ReminderRow => r.id == id) t.rows
    refine ⟨fun hex he => ?_, fun hno he => ?_⟩
    · subst he
      obtain ⟨x, hx, hxid⟩ := hex
      have h0 : ¬ (t.rows.filter (fun r : ReminderRow => r.id == id)).length = 0 := by
        intro h
        have := hz.mp h x hx
        simp [hxid] at this
      unfold reminders_put_id_notify
      simp only [Bool.false_eq_true, if_false, Table.update, if_neg h0, beq_iff_eq]
    · subst he
      have hnone : ∀ r ∈ t.rows, (r.id == id) = false := fun r hr => by simpa using hno r hr
      unfold reminders_put_id_notify
      simp only [Bool.false_eq_true, if_false]
      rw [if_pos (by simpa [Table.update] using hz.mpr hnone), update_of_none t _ _ hnone]

theorem partial_updates_touch_one_field_witness :
    (∃ r ∈ sampleMedications.rows, r.id = 1)
      ∧ medications_put_id_taken false sampleMedications 1 (.bool true)
        = ({ status := 200, body := .message "Medication updated successfully" },
            { rows := [{ id := 1, name := .str "Aspirin", dosage := .str "10mg",
                         frequency := .str "daily", time := .str "08:00", taken := .bool true }]
              nextId := 2 }) :=
  ⟨by decide,
    (partial_updates_touch_one_field.1 false sampleMedications 1 (.bool true)).1
      (by decide) rfl⟩

/-- C19. For each of the four collections, when the storage layer reports no error,
`PUT /api/X/:id` on an id that some record has answers 200 and the collection is the old one
in which the records with that id have the fields named in the handler bound to the values of
the request body (a field the body specifies gets the supplied value, a field it leaves out
becomes `NULL`), with their id, their `taken` or `notified` flag (and `recorded_date`) and
all other records as before; on an id that no record has it answers 404 and the collection is
unchanged. -/
theorem put_replaces_body_fields :
    (∀ v : JSVal, v ≠ .undefined → sqlParam v = v)
      ∧ (∀ (err : Bool) (t : Table Medication) (id : Nat) (body : MedicationBody),
        ((∃ r ∈ t.rows, r.id = id) → err = false →
            medications_put_id err t id body
              = ({ status := 200, body := .message "Medication updated successfully" },
                  { rows := t.rows.map (fun r => if r.id = id then
                        { id := r.id, name := sqlParam body.name, dosage := sqlParam body.dosage,
                          frequency := sqlParam body.frequency, time := sqlParam body.time,
                          taken := r.taken }
                      else r)
                    nextId := t.nextId }))
          ∧ ((∀ r ∈ t.rows, r.id ≠ id) → err = false →
            medications_put_id err t id body = ({ status := 404, body := .error "Medication not found" }, t)))
      ∧ (∀ (err : Bool) (t : Table ReminderRow) (id : Nat) (body : ReminderBody),
        ((∃ r ∈ t.rows, r.id = id) → err = false →
            reminders_put_id err t id body
              = ({ status := 200, body := .message "Reminder updated successfully" },
                  { rows := t.rows.map (fun r => if r.id = id then
                        { id := r.id, title := sqlParam body.title,
                          date_time := sqlParam body.date_time, notes := sqlParam body.notes,
                          notified := r.notified }
                      else r)
                    nextId := t.nextId }))
          ∧ ((∀ r ∈ t.rows, r.id ≠ id) → err = false →
            reminders_put_id err t id body = ({ status := 404, body := .error "Reminder not found" }, t)))
      ∧ (∀ (err : Bool) (t : Table Vital) (id : Nat) (body : VitalBody),
        ((∃ r ∈ t.rows, r.id = id) → err = false →
            vitals_put_id err t id body
              = ({ status := 200, body := .message "Vital signs updated successfully" },
                  { rows := t.rows.map (fun r => if r.id = id then
                        { id := r.id, blood_pressure := sqlParam body.blood_pressure,
                          heart_rate := sqlParam body.heart_rate,
                          temperature := sqlParam body.temperature,
                          blood_sugar := sqlParam body.blood_sugar,
                          recorded_date := r.recorded_date }
                      else r)
                    nextId := t.nextId }))
          ∧ ((∀ r ∈ t.rows, r.id ≠ id) → err = false →
            vitals_put_id err t id body = ({ status := 404, body := .error "Vital record not found" }, t)))
      ∧ (∀ (err : Bool) (t : Table Appointment) (id : Nat) (body : AppointmentBody),
        ((∃ r ∈ t.rows, r.id = id) → err = false →
            appointments_put_id err t id body
              = ({ status := 200, body := .message "Appointment updated successfully" },
                  { rows := t.rows.map (fun r => if r.id = id then
                        { id := r.id, doctor := sqlParam body.doctor, type := sqlParam body.type,
                          date_time := sqlParam body.date_time,
                          location := sqlParam body.location }
                      else r)
                    nextId := t.nextId }))
          ∧ ((∀ r ∈ t.rows, r.id ≠ id) → err = false →
            appointments_put_id err t id body = ({ status := 404, body := .error "Appointment not found" }, t))) := by
  refine ⟨fun v hv => by cases v <;> simp_all [sqlParam], ?_, ?_, ?_, ?_⟩
  · intro err t id body
    have hz := filter_length_eq_zero (fun r : Medication => r.id == id) t.rows
    refine ⟨fun hex he => ?_, fun hno he => ?_⟩
    · subst he
      obtain ⟨x, hx, hxid⟩ := hex
      have h0 : ¬ (t.rows.filter (fun r : Medication => r.id == id)).length = 0 := by
        intro h
        have := hz.mp h x hx
        simp [hxid] at this
      unfold medications_put_id
      simp only [Bool.false_eq_true, if_false, Table.update, if_neg h0, beq_iff_eq]
    · subst he
      have hnone : ∀ r ∈ t.rows, (r.id == id) = false := fun r hr => by simpa using hno r hr
      unfold medications_put_id
      simp only [Bool.false_eq_true, if_false]
      rw [if_pos (by simpa [Table.update] using hz.mpr hnone), update_of_none t _ _ hnone]
  · intro err t id body
    have hz := filter_length_eq_zero (fun r : ReminderRow => r.id == id) t.rows
    refine ⟨fun hex he => ?_, fun hno he => ?_⟩
    · subst he
      obtain ⟨x, hx, hxid⟩ := hex
      have h0 : ¬ (t.rows.filter (fun r : ReminderRow => r.id == id)).length = 0 := by
        intro h
        have := hz.mp h x hx
        simp [hxid] at this
      unfold reminders_put_id
      simp only [Bool.false_eq_true, if_false, Table.update, if_neg h0, beq_iff_eq]
    · subst he
      have hnone : ∀ r ∈ t.rows, (r.id == id) = false := fun r hr => by simpa using hno r hr
      unfold reminders_put_id
      simp only [Bool.false_eq_true, if_false]
      rw [if_pos (by simpa [Table.update] using hz.mpr hnone), update_of_none t _ _ hnone]
  · intro err t id body
    have hz := filter_length_eq_zero (fun r : Vital => r.id == id) t.rows
    refine ⟨fun hex he => ?_, fun hno he => ?_⟩
    · subst he
      obtain ⟨x, hx, hxid⟩ := hex
      have h0 : ¬ (t.rows.filter (fun r : Vital => r.id == id)).length = 0 := by
        intro h
        have := hz.mp h x hx
        simp [hxid] at this
      unfold vitals_put_id
      simp only [Bool.false_eq_true, if_false, Table.update, if_neg h0, beq_iff_eq]
    · subst he
      have hnone : ∀ r ∈ t.rows, (r.id == id) = false := fun r hr => by simpa using hno r hr
      unfold vitals_put_id
      simp only [Bool.false_eq_true, if_false]
      rw [if_pos (by simpa [Table.update] using hz.mpr hnone), update_of_none t _ _ hnone]
  · intro err t id body
    have hz := filter_length_eq_zero (fun r : Appointment => r.id == id) t.rows
    refine ⟨fun hex he => ?_, fun hno he => ?_⟩
    · subst he
      obtain ⟨x, hx, hxid⟩ := hex
      have h0 : ¬ (t.rows.filter (fun r : Appointment => r.id == id)).length = 0 := by
        intro h
        have := hz.mp h x hx
        simp [hxid] at this
      unfold appointments_put_id
      simp only [Bool.false_eq_true, if_false, Table.update, if_neg h0, beq_iff_eq]
    · subst he
      have hnone : ∀ r ∈ t.rows, (r.id == id) = false := fun r hr => by simpa using hno r hr
      unfold appointments_put_id
      simp only [Bool.false_eq_true, if_false]
      rw [if_pos (by simpa [Table.update] using hz.mpr hnone), update_of_none t _ _ hnone]

theorem put_replaces_body_fields_witness :
    (∃ r ∈ sampleMedications.rows, r.id = 1)
      ∧ medications_put_id false sampleMedications 1
          { name := .str "Ibuprofen", dosage := .undefined, frequency := .str "daily",
            time := .str "09:00" }
        = ({ status := 200, body := .message "Medication updated successfully" },
            { rows := [{ id := 1, name := .str "Ibuprofen", dosage := .null,
                         frequency := .str "daily", time := .str "09:00", taken := .bool false }]
              nextId := 2 }) :=
  ⟨by decide,
    (put_replaces_body_fields.2.1 false sampleMedications 1
      { name := .str "Ibuprofen", dosage := .undefined, frequency := .str "daily",
        time := .str "09:00" }).1 (by decide) rfl⟩

/-! ## The `LIKE` operator and the appointment filters by type and by doctor -/

theorem anySuffix_eq_true (f : List Char → Bool) : ∀ s : List Char,
    anySuffix f s = true ↔ ∃ t, t <:+ s ∧ f t = true := by
  intro s
  induction s with
  | nil =>
    simp only [anySuffix, List.suffix_nil]
    exact ⟨fun h => ⟨[], rfl, h⟩, fun ⟨t, ht, h⟩ => ht ▸ h⟩
  | cons c s ih =>
    simp only [anySuffix, Bool.or_eq_true, ih, List.suffix_cons_iff]
    constructor
    · rintro (h | ⟨t, ht, h⟩)
      · exact ⟨c :: s, Or.inl rfl, h⟩
      · exact ⟨t, Or.inr ht, h⟩
    · rintro ⟨t, rfl | ht, h⟩
      · exact Or.inl h
      · exact Or.inr ⟨t, ht, h⟩

theorem likeMatch_literal (fold : Char → Char) (d : List Char)
    (hd : ∀ c ∈ d, c ≠ '%' ∧ c ≠ '_' ∧ c ≠ '\\') (p : List Char) :
    ∀ s : List Char, likeMatch fold (d ++ p) s = true ↔
      ∃ u v, s = u ++ v ∧ u.map fold = d.map fold ∧ likeMatch fold p v = true := by
  induction d with
  | nil =>
    intro s
    constructor
    · intro h
      exact ⟨[], s, rfl, rfl, h⟩
    · rintro ⟨u, v, rfl, hu, hv⟩
      have hnil : u = [] := by simpa using hu
      subst hnil
      simpa using hv
  | cons c d ih =>
    intro s
    obtain ⟨h1, h2, h3⟩ := hd c (List.mem_cons_self _ _)
    have ih2 := ih (fun x hx => hd x (List.mem_cons_of_mem _ hx))
    rw [List.cons_append, likeMatch.eq_6 fold c (d ++ p) (fun e => h1 e) (fun e => h2 e)
      (fun e _ => h3 e) (fun _ _ e _ => h3 e)]
    cases s with
    | nil =>
      simp only [Bool.false_eq_true, false_iff]
      rintro ⟨u, v, huv, hu, _⟩
      cases u with
      | nil => simp at hu
      | cons y u => simp at huv
    | cons x s =>
      simp only [Bool.and_eq_true, beq_iff_eq, ih2 s]
      constructor
      · rintro ⟨hx, u, v, rfl, hu, hv⟩
        exact ⟨x :: u, v, rfl, by simp [hx, hu], hv⟩
      · rintro ⟨u, v, huv, hu, hv⟩
        cases u with
        | nil => simp at hu
        | cons y u =>
          simp only [List.cons_append, List.cons.injEq] at huv
          simp only [List.map_cons, List.cons.injEq] at hu
          obtain ⟨rfl, rfl⟩ := huv
          exact ⟨hu.1, u, v, rfl, hu.2, hv⟩

theorem likeMatch_percent (fold : Char → Char) (s : List Char) :
    likeMatch fold ['%'] s = true := by
  rw [likeMatch.eq_2, anySuffix_eq_true]
  exact ⟨[], List.nil_suffix, rfl⟩

theorem likeMatch_contains (fold : Char → Char) (d : List Char)
    (hd : ∀ c ∈ d, c ≠ '%' ∧ c ≠ '_' ∧ c ≠ '\\') (s : List Char) :
    likeMatch fold ('%' :: (d ++ ['%'])) s = true ↔ d.map fold <:+: s.map fold := by
  rw [likeMatch.eq_2, anySuffix_eq_true]
  constructor
  · rintro ⟨t, ⟨pre, rfl⟩, ht⟩
    obtain ⟨u, v, rfl, hu, _⟩ := (likeMatch_literal fold d hd ['%'] t).mp ht
    exact ⟨pre.map fold, v.map fold, by simp [hu]⟩
  · rintro ⟨a, b, hab⟩
    obtain ⟨l1, post, hs, h1, _⟩ := List.map_eq_append_iff.mp hab.symm
    obtain ⟨pre, u, hl1, _, hu⟩ := List.map_eq_append_iff.mp h1
    subst hs hl1
    exact ⟨u ++ post, ⟨pre, by simp⟩,
      (likeMatch_literal fold d hd ['%'] (u ++ post)).mpr
        ⟨u, post, rfl, hu, likeMatch_percent fold post⟩⟩

theorem map_fold_contains (fold : Char → Char) (d s : List Char) (h : d <:+: s) :
    d.map fold <:+: s.map fold := by
  obtain ⟨pre, post, rfl⟩ := h
  exact ⟨pre.map fold, post.map fold, by simp⟩

/-- C20, counterexample. With an appointment of type "Annual Checkup" in the collection and a
collation that takes no account of letter case, `GET /api/appointments/type/Checkup` returns
no record although "Checkup" is a substring of its type; and
`GET /api/appointments/doctor/_` returns both appointments although no doctor contains the
character `_`. -/
theorem type_filter_misses_substring :
    appointments_get_type sampleCollation sampleParse false sampleAppointments "Checkup"
        = { status := 200, body := .records [] }
      ∧ "Checkup".data <:+: "Annual Checkup".data
      ∧ appointments_get_doctor sampleCollation sampleParse false sampleAppointments "_"
        = { status := 200
            body := .records
              [{ id := 2, doctor := .str "Dr. Kim", type := .str "Dental",
                 date_time := .str "500", location := .str "Room 4" },
               { id := 1, doctor := .str "Dr. Lee", type := .str "Annual Checkup",
                 date_time := .str "2000", location := .null }] }
      ∧ ¬ ("_".data <:+: "Dr. Kim".data) ∧ ¬ ("_".data <:+: "Dr. Lee".data) := by
  decide

/-- C20, amended. When the storage layer reports no error, whatever the collation of the
columns: `GET /api/appointments/type/:type` returns exactly the appointments whose type is
equal to the given string under the collation (same characters up to `fold`, and up to spaces
at the end when the collation pads), among them every appointment whose type is the given
string itself; and `GET /api/appointments/doctor/:doctor` returns, for every given string
that contains none of the characters `%`, `_` and backslash, exactly the appointments whose
doctor contains the given string as a substring up to `fold`, among them every appointment
whose doctor contains the given string itself. -/
theorem type_filter_equality_doctor_filter_substring :
    (∀ (coll : Collation) (parse : String → Option Int) (t : Table Appointment)
        (type : String),
        ∃ rs : List Appointment,
          appointments_get_type coll parse false t type
              = { status := 200, body := .records rs }
            ∧ rs.Perm (t.rows.filter (fun r =>
                match r.type with
                | .str s => decide (sqlKey coll s.data = sqlKey coll type.data)
                | _ => false))
            ∧ (∀ r, r ∈ rs ↔ r ∈ t.rows ∧ ∃ s : String, r.type = .str s
                ∧ sqlKey coll s.data = sqlKey coll type.data)
            ∧ (coll.padSpace = false → ∀ r, r ∈ rs ↔ r ∈ t.rows ∧ ∃ s : String,
                r.type = .str s ∧ s.data.map coll.fold = type.data.map coll.fold)
            ∧ ∀ r ∈ t.rows, r.type = .str type → r ∈ rs)
      ∧ (∀ (coll : Collation) (parse : String → Option Int) (t : Table Appointment)
          (doctor : String),
        (∀ c ∈ doctor.data, c ≠ '%' ∧ c ≠ '_' ∧ c ≠ '\\') →
          ∃ rs : List Appointment,
            appointments_get_doctor coll parse false t doctor
                = { status := 200, body := .records rs }
              ∧ rs.Perm (t.rows.filter (fun r =>
                  match r.doctor with
                  | .str s => decide (doctor.data.map coll.fold <:+: s.data.map coll.fold)
                  | _ => false))
              ∧ (∀ r, r ∈ rs ↔ r ∈ t.rows ∧ ∃ s : String, r.doctor = .str s
                  ∧ doctor.data.map coll.fold <:+: s.data.map coll.fold)
              ∧ ∀ r ∈ t.rows, ∀ s : String, r.doctor = .str s → doctor.data <:+: s.data →
                  r ∈ rs) := by
  refine ⟨fun coll parse t type => ⟨_, rfl, ?_, ?_, ?_, ?_⟩,
    fun coll parse t doctor hd => ⟨_, rfl, ?_, ?_, ?_⟩⟩
  · have e : t.select (fun r => sqlEq coll r.type type)
        = t.rows.filter (fun r =>
            match r.type with
            | .str s => decide (sqlKey coll s.data = sqlKey coll type.data)
            | _ => false) := by
      refine List.filter_congr fun r _ => ?_
      cases htype : r.type with
      | str s =>
        rw [Bool.eq_iff_iff]
        simp [sqlEq]
      | _ => rfl
    rw [e]
    exact orderBy_perm _ _ _
  · intro r
    simp only [(orderBy_perm _ _ _).mem_iff, Table.select, List.mem_filter]
    refine and_congr_right fun _ => ?_
    cases htype : r.type with
    | str s => simp [sqlEq]
    | _ => simp [sqlEq]
  · intro hpad r
    simp only [(orderBy_perm _ _ _).mem_iff, Table.select, List.mem_filter]
    refine and_congr_right fun _ => ?_
    cases htype : r.type with
    | str s => simp [sqlEq, sqlKey, hpad]
    | _ => simp [sqlEq]
  · intro r hr htype
    simp only [(orderBy_perm _ _ _).mem_iff, Table.select, List.mem_filter]
    exact ⟨hr, by simp [sqlEq, htype]⟩
  · have hpat : ("%" ++ doctor ++ "%").data = '%' :: (doctor.data ++ ['%']) := by
      simp [String.data_append]
    have e : t.select (fun r =>
          match r.doctor with
          | .str s => likeMatch coll.fold (("%" ++ doctor ++ "%").data) s.data
          | _ => false)
        = t.rows.filter (fun r =>
          match r.doctor with
          | .str s => decide (doctor.data.map coll.fold <:+: s.data.map coll.fold)
          | _ => false) := by
      refine List.filter_congr fun r _ => ?_
      cases hdoc : r.doctor with
      | str s =>
        simp only [hpat]
        rw [Bool.eq_iff_iff, likeMatch_contains coll.fold doctor.data hd s.data]
        simp
      | _ => rfl
    rw [e]
    exact orderBy_perm _ _ _
  · intro r
    have hpat : ("%" ++ doctor ++ "%").data = '%' :: (doctor.data ++ ['%']) := by
      simp [String.data_append]
    simp only [(orderBy_perm _ _ _).mem_iff, Table.select, List.mem_filter, hpat]
    refine and_congr_right fun _ => ?_
    cases hdoc : r.doctor with
    | str s =>
      simp only [likeMatch_contains coll.fold doctor.data hd s.data, JSVal.str.injEq,
        exists_eq_left']
    | _ => simp
  · intro r hr s hdoc hsub
    have hpat : ("%" ++ doctor ++ "%").data = '%' :: (doctor.data ++ ['%']) := by
      simp [String.data_append]
    simp only [(orderBy_perm _ _ _).mem_iff, Table.select, List.mem_filter, hpat]
    refine ⟨hr, ?_⟩
    rw [hdoc]
    exact (likeMatch_contains coll.fold doctor.data hd s.data).mpr
      (map_fold_contains coll.fold _ _ hsub)

theorem type_filter_equality_doctor_filter_substring_witness :
    (∀ c ∈ "lee".data, c ≠ '%' ∧ c ≠ '_' ∧ c ≠ '\\')
      ∧ appointments_get_doctor sampleCollation sampleParse false sampleAppointments "lee"
          = { status := 200
              body := .records
                [{ id := 1, doctor := .str "Dr. Lee", type := .str "Annual Checkup",
                   date_time := .str "2000", location := .null }] }
      ∧ appointments_get_type sampleCollation sampleParse false sampleAppointments "dental"
          = { status := 200
              body := .records
                [{ id := 2, doctor := .str "Dr. Kim", type := .str "Dental",
                   date_time := .str "500", location := .str "Room 4" }] }
      ∧ ∃ rs : List Appointment,
          appointments_get_doctor sampleCollation sampleParse false sampleAppointments "lee"
              = { status := 200, body := .records rs }
            ∧ rs.Perm (sampleAppointments.rows.filter (fun r =>
                match r.doctor with
                | .str s => decide ("lee".data.map sampleCollation.fold
                    <:+: s.data.map sampleCollation.fold)
                | _ => false))
            ∧ (∀ r, r ∈ rs ↔ r ∈ sampleAppointments.rows ∧ ∃ s : String, r.doctor = .str s
                ∧ "lee".data.map sampleCollation.fold <:+: s.data.map sampleCollation.fold)
            ∧ ∀ r ∈ sampleAppointments.rows, ∀ s : String, r.doctor = .str s →
                "lee".data <:+: s.data → r ∈ rs :=
  ⟨by decide, by decide, by decide,
    type_filter_equality_doctor_filter_substring.2 sampleCollation sampleParse
      sampleAppointments "lee" (by decide)⟩

/-! ## The client's form checks against the server's validation -/

/-- C23, counterexample. The medication form with an empty frequency and the appointment form
with an empty type pass the client's check, and the request sent is rejected by the server
with 400. -/
theorem client_check_misses_frequency_and_type :
    (∃ body, addMedication "Aspirin" "10mg" "" "08:00" = some body
        ∧ (medications_post false (emptyTable Medication) body).1.status = 400)
      ∧ (∃ body, addAppointment "Dr. Lee" "" "2025-01-01T10:00" "" = some body
        ∧ (appointments_post false (emptyTable Appointment) body).1.status = 400) :=
  ⟨⟨_, rfl, by decide⟩, ⟨_, rfl, by decide⟩⟩

/-- C23, amended. For the reminder form and the vital-signs form, every input that passes the
client's own required-field check also passes the server's validation of the corresponding
POST (the answer is never 400). For the medication form and the appointment form the same
holds whenever the frequency, respectively the type, which the client's check does not look
at, is not empty. -/
theorem client_check_implies_server_validation :
    (∀ (name dosage frequency time : String) (body : MedicationBody) (err : Bool)
        (t : Table Medication),
        addMedication name dosage frequency time = some body → frequency ≠ "" →
          (medications_post err t body).1.status ≠ 400)
      ∧ (∀ (title dateTime notes : String) (body : ReminderBody) (err : Bool)
        (t : Table ReminderRow),
        addReminder title dateTime notes = some body →
          (reminders_post err t body).1.status ≠ 400)
      ∧ (∀ (bloodPressure heartRate temperature bloodSugar : String) (body : VitalBody)
        (now : Int) (err : Bool) (t : Table Vital),
        addVitalSigns bloodPressure heartRate temperature bloodSugar = some body →
          (vitals_post now err t body).1.status ≠ 400)
      ∧ (∀ (doctor type dateTime location : String) (body : AppointmentBody) (err : Bool)
        (t : Table Appointment),
        addAppointment doctor type dateTime location = some body → type ≠ "" →
          (appointments_post err t body).1.status ≠ 400) := by
  refine ⟨?_, ?_, ?_, ?_⟩
  · intro name dosage frequency time body err t hsend hf
    unfold addMedication at hsend
    split_ifs at hsend with hc
    cases hsend
    simp only [JSVal.truthy, Bool.or_eq_true, Bool.not_eq_true', decide_eq_false_iff_not,
      not_or, not_not] at hc
    unfold medications_post
    cases err <;> simp [JSVal.truthy, hc, hf]
  · intro title dateTime notes body err t hsend
    unfold addReminder at hsend
    split_ifs at hsend with hc
    cases hsend
    simp only [JSVal.truthy, Bool.or_eq_true, Bool.not_eq_true', decide_eq_false_iff_not,
      not_or, not_not] at hc
    unfold reminders_post
    cases err <;> simp [JSVal.truthy, hc]
  · intro bloodPressure heartRate temperature bloodSugar body now err t hsend
    unfold addVitalSigns at hsend
    split_ifs at hsend with hc
    cases hsend
    have key : ∀ x : String, ((JSVal.str x).or .null).truthy = (JSVal.str x).truthy := by
      intro x
      unfold JSVal.or
      split_ifs with hx
      · rfl
      · simp only [Bool.not_eq_true] at hx
        rw [hx]; rfl
    unfold vitals_post
    simp only [key]
    rw [if_neg hc]
    cases err <;> simp
  · intro doctor type dateTime location body err t hsend hty
    unfold addAppointment at hsend
    split_ifs at hsend with hc
    cases hsend
    simp only [JSVal.truthy, Bool.or_eq_true, Bool.not_eq_true', decide_eq_false_iff_not,
      not_or, not_not] at hc
    unfold appointments_post
    cases err <;> simp [JSVal.truthy, hc, hty]

theorem client_check_implies_server_validation_witness :
    addMedication "Aspirin" "10mg" "daily" "08:00" = some filledMedicationBody
      ∧ ("daily" : String) ≠ ""
      ∧ (medications_post false (emptyTable Medication) filledMedicationBody).1.status ≠ 400 :=
  ⟨rfl, by decide,
    client_check_implies_server_validation.1 "Aspirin" "10mg" "daily" "08:00"
      filledMedicationBody false (emptyTable Medication) rfl (by decide)⟩

/-! ## Statistics -/

theorem taken_values_of_bool (toNum : String → ℚ) : ∀ rows : List Medication,
    (∀ r ∈ rows, r.taken = .bool true ∨ r.taken = .bool false) →
      (rows.filterMap (fun r => numOf toNum r.taken)).length = rows.length
        ∧ (rows.filterMap (fun r => numOf toNum r.taken)).sum
            = ((rows.countP (fun r => r.taken == .bool true) : Nat) : ℚ)
        ∧ rows.countP (fun r => r.taken == .bool true)
            + rows.countP (fun r => r.taken == .bool false) = rows.length := by
  intro rows
  induction rows with
  | nil => intro _; simp
  | cons x rows ih =>
    intro h
    obtain ⟨i1, i2, i3⟩ := ih (fun r hr => h r (List.mem_cons_of_mem _ hr))
    have tf : (JSVal.bool true == JSVal.bool false) = false := by decide
    have ft : (JSVal.bool false == JSVal.bool true) = false := by decide
    rcases h x (List.mem_cons_self _ _) with hx | hx
    · have e : numOf toNum x.taken = some 1 := by rw [hx]; rfl
      have hfm : (x :: rows).filterMap (fun r => numOf toNum r.taken)
          = 1 :: rows.filterMap (fun r => numOf toNum r.taken) := by
        rw [List.filterMap_cons, e]
      have hct : (x :: rows).countP (fun r => r.taken == .bool true)
          = rows.countP (fun r => r.taken == .bool true) + 1 := by
        rw [List.countP_cons, hx]; simp
      have hcf : (x :: rows).countP (fun r => r.taken == .bool false)
          = rows.countP (fun r => r.taken == .bool false) := by
        rw [List.countP_cons, hx, tf]; simp
      rw [hfm, hct, hcf]
      refine ⟨by simp [i1], ?_, by simp only [List.length_cons]; omega⟩
      rw [List.sum_cons, i2]
      push_cast
      ring
    · have e : numOf toNum x.taken = some 0 := by rw [hx]; rfl
      have hfm : (x :: rows).filterMap (fun r => numOf toNum r.taken)
          = 0 :: rows.filterMap (fun r => numOf toNum r.taken) := by
        rw [List.filterMap_cons, e]
      have hct : (x :: rows).countP (fun r => r.taken == .bool true)
          = rows.countP (fun r => r.taken == .bool true) := by
        rw [List.countP_cons, hx, ft]; simp
      have hcf : (x :: rows).countP (fun r => r.taken == .bool false)
          = rows.countP (fun r => r.taken == .bool false) + 1 := by
        rw [List.countP_cons, hx]; simp
      rw [hfm, hct, hcf]
      refine ⟨by simp [i1], ?_, by simp only [List.length_cons]; omega⟩
      rw [List.sum_cons, i2]
      ring

/-- C22, counterexample. For the empty medications collection the statistics report the total
0, and `taken` and `pending` as `NULL`, not as 0. -/
theorem medication_stats_of_empty_collection :
    medications_get_stats_count sampleToNum false (emptyTable Medication)
      = { status := 200, body := .record { total := .num 0, taken := .null, pending := .null } } := by
  decide

/-- C22, amended. For every medications collection that is not empty and in which every
`taken` flag is true or false, the statistics report `total` as the number of medications,
`taken` as the number of those with `taken = true` and `pending` as the number of those with
`taken = false`, and taken + pending = total. For the empty collection they report the total
0 and `NULL` for `taken` and `pending`. -/
theorem medication_stats_counts (toNum : String → ℚ) (t : Table Medication)
    (hbool : ∀ r ∈ t.rows, r.taken = .bool true ∨ r.taken = .bool false) :
    (t.rows ≠ [] →
        medications_get_stats_count toNum false t
            = { status := 200
                body := .record
                  { total := .num (t.rows.length : ℚ)
                    taken := .num ((t.rows.countP (fun r => r.taken == .bool true) : Nat) : ℚ)
                    pending :=
                      .num ((t.rows.countP (fun r => r.taken == .bool false) : Nat) : ℚ) } }
          ∧ t.rows.countP (fun r => r.taken == .bool true)
              + t.rows.countP (fun r => r.taken == .bool false) = t.rows.length)
      ∧ (t.rows = [] →
        medications_get_stats_count toNum false t
          = { status := 200
              body := .record { total := .num 0, taken := .null, pending := .null } }) := by
  obtain ⟨h1, h2, h3⟩ := taken_values_of_bool toNum t.rows hbool
  refine ⟨fun hne => ⟨?_, h3⟩, fun he => ?_⟩
  · have hne2 : (t.rows.filterMap (fun r => numOf toNum r.taken)).isEmpty = false := by
      cases hl : t.rows.filterMap (fun r => numOf toNum r.taken) with
      | nil =>
        rw [hl] at h1
        exact absurd (List.length_eq_zero.mp h1.symm) hne
      | cons _ _ => rfl
    unfold medications_get_stats_count
    simp only [Bool.false_eq_true, if_false, sqlSum, hne2, h2, sqlMinus]
    have h4 : ((t.rows.length : Nat) : ℚ)
        - ((t.rows.countP (fun r => r.taken == .bool true) : Nat) : ℚ)
        = ((t.rows.countP (fun r => r.taken == .bool false) : Nat) : ℚ) := by
      rw [← h3]
      push_cast
      ring
    rw [h4]
  · unfold medications_get_stats_count
    simp [he, sqlSum, sqlMinus]

theorem medication_stats_counts_witness :
    (∀ r ∈ sampleMedications.rows, r.taken = .bool true ∨ r.taken = .bool false)
      ∧ sampleMedications.rows ≠ []
      ∧ medications_get_stats_count sampleToNum false sampleMedications
        = { status := 200
            body := .record
              { total := .num (sampleMedications.rows.length : ℚ)
                taken := .num ((sampleMedications.rows.countP
                  (fun r => r.taken == .bool true) : Nat) : ℚ)
                pending := .num ((sampleMedications.rows.countP
                  (fun r => r.taken == .bool false) : Nat) : ℚ) } } :=
  ⟨by decide, by decide,
    ((medication_stats_counts sampleToNum sampleMedications (by decide)).1 (by decide)).1⟩

theorem filterMap_filter_of_some {α β : Type} (p : α → Bool) (f : α → Option β)
    (h : ∀ r, (f r).isSome = true → p r = true) : ∀ l : List α,
    (l.filter p).filterMap f = l.filterMap f := by
  intro l
  induction l with
  | nil => rfl
  | cons x l ih =>
    by_cases hp : p x = true
    · rw [List.filter_cons_of_pos hp, List.filterMap_cons, List.filterMap_cons, ih]
    · have hn : f x = none := by
        cases hf : f x with
        | none => rfl
        | some b => exact absurd (h x (by rw [hf]; rfl)) hp
      rw [List.filter_cons_of_neg hp, List.filterMap_cons, hn, ih]

theorem numOf_isSome (toNum : String → ℚ) (v : JSVal) :
    (numOf toNum v).isSome = !sqlIsNull v := by
  cases v <;> rfl

theorem foldl_min_spec : ∀ (vs : List ℚ) (v : ℚ),
    vs.foldl min v ∈ v :: vs ∧ ∀ x ∈ v :: vs, vs.foldl min v ≤ x := by
  intro vs
  induction vs with
  | nil => intro v; simp
  | cons a vs ih =>
    intro v
    obtain ⟨h1, h2⟩ := ih (min v a)
    simp only [List.foldl_cons]
    refine ⟨?_, fun x hx => ?_⟩
    · rcases List.mem_cons.mp h1 with h | h
      · rcases min_choice v a with hm | hm
        · rw [h, hm]; exact List.mem_cons_self _ _
        · rw [h, hm]; exact List.mem_cons_of_mem _ (List.mem_cons_self _ _)
      · exact List.mem_cons_of_mem _ (List.mem_cons_of_mem _ h)
    · have hmin := h2 (min v a) (List.mem_cons_self _ _)
      rcases List.mem_cons.mp hx with rfl | hx
      · exact le_trans hmin (min_le_left _ _)
      · rcases List.mem_cons.mp hx with rfl | hx
        · exact le_trans hmin (min_le_right _ _)
        · exact h2 x (List.mem_cons_of_mem _ hx)

theorem foldl_max_spec : ∀ (vs : List ℚ) (v : ℚ),
    vs.foldl max v ∈ v :: vs ∧ ∀ x ∈ v :: vs, x ≤ vs.foldl max v := by
  intro vs
  induction vs with
  | nil => intro v; simp
  | cons a vs ih =>
    intro v
    obtain ⟨h1, h2⟩ := ih (max v a)
    simp only [List.foldl_cons]
    refine ⟨?_, fun x hx => ?_⟩
    · rcases List.mem_cons.mp h1 with h | h
      · rcases max_choice v a with hm | hm
        · rw [h, hm]; exact List.mem_cons_self _ _
        · rw [h, hm]; exact List.mem_cons_of_mem _ (List.mem_cons_self _ _)
      · exact List.mem_cons_of_mem _ (List.mem_cons_of_mem _ h)
    · have hmax := h2 (max v a) (List.mem_cons_self _ _)
      rcases List.mem_cons.mp hx with rfl | hx
      · exact le_trans (le_max_left _ _) hmax
      · rcases List.mem_cons.mp hx with rfl | hx
        · exact le_trans (le_max_right _ _) hmax
        · exact h2 x (List.mem_cons_of_mem _ hx)

theorem stats_values_eq_fieldValues (toNum : String → ℚ) (t : Table Vital)
    (field : Vital → JSVal)
    (hfield : ∀ r : Vital, sqlIsNull (field r) = false →
      (!sqlIsNull r.heart_rate || !sqlIsNull r.temperature || !sqlIsNull r.blood_sugar) = true) :
    (t.select (fun r =>
        !sqlIsNull r.heart_rate || !sqlIsNull r.temperature || !sqlIsNull r.blood_sugar)).filterMap
        (fun r => numOf toNum (field r))
      = fieldValues toNum field t := by
  unfold fieldValues Table.select
  rw [filterMap_filter_of_some _ _ (fun r hr => ?_) t.rows,
    filterMap_filter_of_some _ _ (fun r hr => ?_) t.rows]
  · rw [numOf_isSome] at hr
    exact hr
  · rw [numOf_isSome] at hr
    exact hfield r (by simpa using hr)

/-- C21, counterexample. With two records holding the temperatures 97 and 99, the minimum
and the maximum of temperature over the records in which it is non-null are 97 and 99, and
the statistics report neither: they hold the count 2, the average temperature 98 and `NULL`
elsewhere. -/
theorem vitals_stats_lack_temperature_min_max :
    vitals_get_stats_summary sampleToNum false sampleTemperatures
        = { status := 200, body := .record sampleTemperatureStats }
      ∧ fieldValues sampleToNum (fun r => r.temperature) sampleTemperatures = [97, 99]
      ∧ sqlMin [97, 99] = .num 97 ∧ sqlMax [97, 99] = .num 99
      ∧ JSVal.num 97 ∉ sampleTemperatureStats.values
      ∧ JSVal.num 99 ∉ sampleTemperatureStats.values := by
  refine ⟨?_, by decide, by decide, by decide, by decide, by decide⟩
  have hlen : (sampleTemperatures.select (fun r =>
      !sqlIsNull r.heart_rate || !sqlIsNull r.temperature || !sqlIsNull r.blood_sugar)).length
      = 2 := by decide
  have hh : (sampleTemperatures.select (fun r =>
      !sqlIsNull r.heart_rate || !sqlIsNull r.temperature || !sqlIsNull r.blood_sugar)).filterMap
      (fun r => numOf sampleToNum r.heart_rate) = [] := by decide
  have ht : (sampleTemperatures.select (fun r =>
      !sqlIsNull r.heart_rate || !sqlIsNull r.temperature || !sqlIsNull r.blood_sugar)).filterMap
      (fun r => numOf sampleToNum r.temperature) = [97, 99] := by decide
  have hb : (sampleTemperatures.select (fun r =>
      !sqlIsNull r.heart_rate || !sqlIsNull r.temperature || !sqlIsNull r.blood_sugar)).filterMap
      (fun r => numOf sampleToNum r.blood_sugar) = [] := by decide
  unfold vitals_get_stats_summary
  simp only [Bool.false_eq_true, if_false, hlen, hh, ht, hb]
  norm_num [sqlAvg, sqlMin, sqlMax, sampleTemperatureStats]

/-- C21, amended. The vitals statistics report the average, the minimum and the maximum of
heart_rate, and the average only of temperature and of blood_sugar, each computed over exactly
the records in which that field is non-null; over no such record the value is `NULL`. An
average is the sum divided by the number of values, a minimum (maximum) is one of the values
and is at most (at least) every value. -/
theorem vitals_stats_aggregates (toNum : String → ℚ) (t : Table Vital) :
    (∃ s : VitalStats,
        vitals_get_stats_summary toNum false t = { status := 200, body := .record s }
          ∧ s.avg_heart_rate = sqlAvg (fieldValues toNum (fun r => r.heart_rate) t)
          ∧ s.min_heart_rate = sqlMin (fieldValues toNum (fun r => r.heart_rate) t)
          ∧ s.max_heart_rate = sqlMax (fieldValues toNum (fun r => r.heart_rate) t)
          ∧ s.avg_temperature = sqlAvg (fieldValues toNum (fun r => r.temperature) t)
          ∧ s.avg_blood_sugar = sqlAvg (fieldValues toNum (fun r => r.blood_sugar) t))
      ∧ (∀ vals : List ℚ, vals ≠ [] →
          sqlAvg vals = .num (vals.sum / (vals.length : ℚ))
            ∧ ∃ m M : ℚ, sqlMin vals = .num m ∧ sqlMax vals = .num M ∧ m ∈ vals ∧ M ∈ vals
                ∧ ∀ x ∈ vals, m ≤ x ∧ x ≤ M)
      ∧ (sqlAvg [] = .null ∧ sqlMin [] = .null ∧ sqlMax [] = .null) := by
  have hh := stats_values_eq_fieldValues toNum t (fun r => r.heart_rate)
    (fun r hr => by simp only at hr; simp [hr])
  have ht := stats_values_eq_fieldValues toNum t (fun r => r.temperature)
    (fun r hr => by simp only at hr; simp [hr])
  have hb := stats_values_eq_fieldValues toNum t (fun r => r.blood_sugar)
    (fun r hr => by simp only at hr; simp [hr])
  refine ⟨⟨_, rfl, ?_, ?_, ?_, ?_, ?_⟩, ?_, ⟨rfl, rfl, rfl⟩⟩
  · exact congrArg sqlAvg hh
  · exact congrArg sqlMin hh
  · exact congrArg sqlMax hh
  · exact congrArg sqlAvg ht
  · exact congrArg sqlAvg hb
  · intro vals hne
    cases vals with
    | nil => exact absurd rfl hne
    | cons v vs =>
      obtain ⟨m1, m2⟩ := foldl_min_spec vs v
      obtain ⟨x1, x2⟩ := foldl_max_spec vs v
      refine ⟨by simp [sqlAvg], vs.foldl min v, vs.foldl max v, rfl, rfl, m1, x1,
        fun x hx => ⟨m2 x hx, x2 x hx⟩⟩

theorem vitals_stats_aggregates_witness :
    ([97, 99] : List ℚ) ≠ []
      ∧ sqlAvg [97, 99] = .num (([97, 99] : List ℚ).sum / (([97, 99] : List ℚ).length : ℚ)) :=
  ⟨by decide,
    ((vitals_stats_aggregates sampleToNum sampleTemperatures).2.1 [97, 99] (by decide)).1⟩

/-- C25. The `total_records` value of the vitals statistics is the number of vital records
that have at least one of heart_rate, temperature and blood_sugar non-null. A creation request
whose only measurement is blood_pressure is accepted, its record is stored and is listed by
`GET /api/vitals`, and `total_records` is the same after the creation as before. -/
theorem total_records_skips_blood_pressure_only :
    (∀ (toNum : String → ℚ) (t : Table Vital),
        ∃ s : VitalStats,
          vitals_get_stats_summary toNum false t = { status := 200, body := .record s }
            ∧ s.total_records = .num ((t.rows.countP (fun r =>
                !sqlIsNull r.heart_rate || !sqlIsNull r.temperature
                  || !sqlIsNull r.blood_sugar) : Nat) : ℚ))
      ∧ (∀ (toNum : String → ℚ) (now : Int) (t : Table Vital) (body : VitalBody),
          body.blood_pressure.truthy = true → body.heart_rate.truthy = false →
          body.temperature.truthy = false → body.blood_sugar.truthy = false →
            (vitals_post now false t body).1
                = { status := 201, body := .created "Vital signs recorded successfully" t.nextId }
              ∧ (vitals_post now false t body).2.rows
                = t.rows ++ [{ id := t.nextId, blood_pressure := body.blood_pressure,
                               heart_rate := .null, temperature := .null, blood_sugar := .null,
                               recorded_date := now }]
              ∧ (∃ rs : List Vital,
                  vitals_get false (vitals_post now false t body).2
                      = { status := 200, body := .records rs }
                    ∧ ({ id := t.nextId, blood_pressure := body.blood_pressure,
                         heart_rate := .null, temperature := .null, blood_sugar := .null,
                         recorded_date := now } : Vital) ∈ rs)
              ∧ ∃ before after : VitalStats,
                  vitals_get_stats_summary toNum false t
                      = { status := 200, body := .record before }
                    ∧ vitals_get_stats_summary toNum false (vitals_post now false t body).2
                      = { status := 200, body := .record after }
                    ∧ after.total_records = before.total_records) := by
  refine ⟨fun toNum t => ⟨_, rfl, ?_⟩, ?_⟩
  · simp only [Table.select, List.countP_eq_length_filter]
  · intro toNum now t body hbp hhr htemp hbs
    have hrows : (vitals_post now false t body).2.rows
        = t.rows ++ [{ id := t.nextId, blood_pressure := body.blood_pressure,
                       heart_rate := .null, temperature := .null, blood_sugar := .null,
                       recorded_date := now }] := by
      unfold vitals_post
      simp [hbp, hhr, htemp, hbs, Table.insert, sqlParam_or_null]
    refine ⟨?_, hrows, ⟨_, rfl, ?_⟩, ⟨_, _, rfl, rfl, ?_⟩⟩
    · unfold vitals_post
      simp [hbp, hhr, htemp, hbs, Table.insert]
    · rw [(orderBy_perm _ _ _).mem_iff, hrows]
      simp
    · simp only [Table.select, hrows, List.filter_append]
      simp [sqlIsNull]

theorem total_records_skips_blood_pressure_only_witness :
    ∃ before after : VitalStats,
      vitals_get_stats_summary sampleToNum false sampleTemperatures
          = { status := 200, body := .record before }
        ∧ vitals_get_stats_summary sampleToNum false
            (vitals_post 30 false sampleTemperatures
              { blood_pressure := .str "120/80", heart_rate := .undefined,
                temperature := .str "", blood_sugar := .null }).2
          = { status := 200, body := .record after }
        ∧ after.total_records = before.total_records :=
  (total_records_skips_blood_pressure_only.2 sampleToNum 30 sampleTemperatures
    { blood_pressure := .str "120/80", heart_rate := .undefined, temperature := .str "",
      blood_sugar := .null } (by decide) (by decide) (by decide) (by decide)).2.2.2

/-! ## The `notified` flag across the store and the client -/

theorem update_keeps_marked (i : Nat) (t : Table ReminderRow) (p : ReminderRow → Bool)
    (f : ReminderRow → ReminderRow) (hid : ∀ r, (f r).id = r.id)
    (hflag : ∀ r, r.notified = .bool true → (f r).notified = .bool true)
    (h : markedNotified i t) : markedNotified i (t.update p f).2 := by
  obtain ⟨h1, h2, h3⟩ := h
  refine ⟨fun r hr => ?_, h2, fun r hr hi => ?_⟩
  · obtain ⟨x, hx, rfl⟩ := List.mem_map.mp hr
    show (if p x = true then f x else x).id < t.nextId
    split_ifs
    · rw [hid]; exact h1 x hx
    · exact h1 x hx
  · obtain ⟨x, hx, rfl⟩ := List.mem_map.mp hr
    revert hi
    show (if p x = true then f x else x).id = i → (if p x = true then f x else x).notified = _
    split_ifs
    · intro hi
      rw [hid] at hi
      exact hflag x (h3 x hx hi)
    · intro hi
      exact h3 x hx hi

theorem insert_keeps_marked (i : Nat) (t : Table ReminderRow) (mk : Nat → ReminderRow)
    (hmk : ∀ n, (mk n).id = n) (h : markedNotified i t) : markedNotified i (t.insert mk).2 := by
  obtain ⟨h1, h2, h3⟩ := h
  refine ⟨idsBelowNext_insert (fun r => r.id) t mk hmk h1, Nat.lt_succ_of_lt h2,
    fun r hr hi => ?_⟩
  simp only [Table.insert, List.mem_append, List.mem_singleton] at hr
  rcases hr with hr | rfl
  · exact h3 r hr hi
  · rw [hmk] at hi
    omega

theorem reminderOp_keeps_marked (i : Nat) (op : ReminderOp) (t : Table ReminderRow)
    (h : markedNotified i t) : markedNotified i (op.apply t) := by
  cases op with
  | post err body =>
    show markedNotified i (reminders_post err t body).2
    unfold reminders_post
    dsimp only
    split_ifs
    · exact h
    · exact h
    · exact insert_keeps_marked i t
        (fun id => { id := id, title := sqlParam body.title, date_time := sqlParam body.date_time,
                     notes := sqlParam (body.notes.or .null), notified := .bool false })
        (fun _ => rfl) h
  | put err id body =>
    show markedNotified i (reminders_put_id err t id body).2
    unfold reminders_put_id
    dsimp only
    split_ifs
    · exact h
    · exact update_keeps_marked i t _ _ (fun _ => rfl) (fun _ hr => hr) h
    · exact update_keeps_marked i t _ _ (fun _ => rfl) (fun _ hr => hr) h
  | notify err id =>
    show markedNotified i (reminders_put_id_notify err t id).2
    unfold reminders_put_id_notify
    dsimp only
    split_ifs
    · exact h
    · exact update_keeps_marked i t _ _ (fun _ => rfl) (fun _ _ => rfl) h
    · exact update_keeps_marked i t _ _ (fun _ => rfl) (fun _ _ => rfl) h
  | delete err id =>
    show markedNotified i (reminders_delete_id err t id).2
    have hd : markedNotified i (t.delete (fun r => r.id == id)).2 := by
      obtain ⟨h1, h2, h3⟩ := h
      exact ⟨idsBelowNext_delete (fun r => r.id) t _ h1, h2,
        fun r hr hi => h3 r (List.mem_filter.mp hr).1 hi⟩
    unfold reminders_delete_id
    dsimp only
    split_ifs
    · exact h
    · exact hd
    · exact hd

theorem applyReminderOps_keeps_marked (i : Nat) : ∀ (ops : List ReminderOp)
    (t : Table ReminderRow), markedNotified i t → markedNotified i (applyReminderOps ops t) := by
  intro ops
  induction ops with
  | nil => intro t h; exact h
  | cons op ops ih =>
    intro t h
    exact ih _ (reminderOp_keeps_marked i op t h)

theorem checkReminder_keeps_notified (now : Int) (h : JSSet) (r : Reminder)
    (hn : r.notified = true) : (checkReminder now h r).reminder.notified = true := by
  unfold checkReminder
  dsimp only
  split_ifs
  · rfl
  · exact hn
  · exact hn

theorem forEach_notified (now : Int) (i : Nat) : ∀ (rs : List Reminder) (h : JSSet),
    (∀ r ∈ rs, r.id = i → r.notified = true) →
      (i, Effect.playNotificationSound "reminder") ∉ (forEachReminder now rs h).log
        ∧ ∀ r ∈ (forEachReminder now rs h).client.reminders, r.id = i → r.notified = true := by
  intro rs
  induction rs with
  | nil => intro h _; simp [forEachReminder]
  | cons x rs ih =>
    intro h hall
    obtain ⟨i1, i2⟩ := ih (checkReminder now h x).hasPlayedSound
      (fun r hr => hall r (List.mem_cons_of_mem _ hr))
    refine ⟨fun hmem => ?_, fun r hr hi => ?_⟩
    · simp only [forEachReminder, List.mem_append, List.mem_map, Prod.mk.injEq] at hmem
      rcases hmem with ⟨e, he, hxi, rfl⟩ | hmem
      · have hn := hall x (List.mem_cons_self _ _) hxi
        revert he
        unfold checkReminder
        dsimp only
        split_ifs with c1 c2
        · rw [hn] at c1
          simp at c1
        · intro he; simp at he
        · intro he; simp at he
      · exact i1 hmem
    · simp only [forEachReminder, List.mem_cons] at hr
      rcases hr with rfl | hr
      · rw [checkReminder_id] at hi
        exact checkReminder_keeps_notified now h x (hall x (List.mem_cons_self _ _) hi)
      · exact i2 r hr hi

theorem runSession_notified (i : Nat) : ∀ (events : List Event) (c : Client),
    (∀ r ∈ c.reminders, r.id = i → r.notified = true) →
    (∀ l, Event.load (some l) ∈ events → ∀ r ∈ l, r.id = i → r.notified = true) →
      ∀ tk ∈ runSession events c, (i, Effect.playNotificationSound "reminder") ∉ tk.log := by
  intro events
  induction events with
  | nil => intro c _ _ tk htk; simp [runSession] at htk
  | cons e later ih =>
    intro c hc hl tk htk
    have hstep : (i, Effect.playNotificationSound "reminder") ∉ (e.apply c).log
        ∧ ∀ r ∈ (e.apply c).client.reminders, r.id = i → r.notified = true := by
      cases e with
      | tick now => exact forEach_notified now i c.reminders c.hasPlayedSound hc
      | load fetched =>
        cases fetched with
        | none => exact ⟨by simp [Event.apply], hc⟩
        | some l => exact ⟨by simp [Event.apply], hl l (List.mem_cons_self _ _)⟩
    simp only [runSession, List.mem_cons] at htk
    rcases htk with rfl | htk
    · exact hstep.1
    · exact ih _ hstep.2 (fun l hmem => hl l (List.mem_cons_of_mem _ hmem)) tk htk

/-- C24. Let reminder `i` exist in the reminders collection with its `notified` flag true.
After any sequence of create, general update, mark-notified and delete requests, every row
with that id still has the flag true; and in every client session of ticks and reloads whose
reminder lists show the collection as it is after some such requests (so also after the
reminder has been rescheduled through `PUT /api/reminders/:id`), no tick fires the 5-minute
warning tier for `i`. -/
theorem notified_reminder_never_warns (t : Table ReminderRow) (i : Nat)
    (hwf : t.idsBelowNext (fun r => r.id)) (hex : ∃ r ∈ t.rows, r.id = i)
    (hmarked : ∀ r ∈ t.rows, r.id = i → r.notified = .bool true) :
    (∀ (ops : List ReminderOp), ∀ r ∈ (applyReminderOps ops t).rows,
        r.id = i → r.notified = .bool true)
      ∧ ∀ (events : List Event) (c : Client),
          (∃ ops, clientReflects (applyReminderOps ops t) c.reminders) →
          (∀ l, Event.load (some l) ∈ events →
            ∃ ops, clientReflects (applyReminderOps ops t) l) →
            ∀ tk ∈ runSession events c,
              (i, Effect.playNotificationSound "reminder") ∉ tk.log := by
  have hm : markedNotified i t := by
    obtain ⟨r, hr, hri⟩ := hex
    exact ⟨hwf, hri ▸ hwf r hr, hmarked⟩
  have hrows : ∀ (ops : List ReminderOp), ∀ r ∈ (applyReminderOps ops t).rows,
      r.id = i → r.notified = .bool true :=
    fun ops => (applyReminderOps_keeps_marked i ops t hm).2.2
  have hclient : ∀ l : List Reminder, (∃ ops, clientReflects (applyReminderOps ops t) l) →
      ∀ r ∈ l, r.id = i → r.notified = true := by
    rintro l ⟨ops, hrefl⟩ r hr hi
    obtain ⟨row, hrow, hid, hflag⟩ := hrefl r hr
    rw [hflag, hrows ops row hrow (hid.trans hi)]
    rfl
  refine ⟨hrows, fun events c hc hl tk htk => ?_⟩
  exact runSession_notified i events c (hclient _ hc) (fun l hmem => hclient l (hl l hmem)) tk htk

theorem notified_reminder_never_warns_witness :
    (sampleReminders.idsBelowNext (fun r => r.id) ∧ (∃ r ∈ sampleReminders.rows, r.id = 1)
        ∧ ∀ r ∈ sampleReminders.rows, r.id = 1 → r.notified = .bool true)
      ∧ ∀ tk ∈ runSession [.tick 0, .tick 60000] rescheduledClient,
          (1, Effect.playNotificationSound "reminder") ∉ tk.log :=
  ⟨⟨by unfold Table.idsBelowNext; decide, by decide, by decide⟩,
    (notified_reminder_never_warns sampleReminders 1 (by unfold Table.idsBelowNext; decide)
      (by decide) (by decide)).2 [.tick 0, .tick 60000] rescheduledClient
      ⟨[.put false 1 { title := .str "Pill", date_time := .str "100000", notes := .undefined }],
        by unfold clientReflects; decide⟩
      (fun l hl => by simp at hl)⟩

end MedTrack
